import Mathlib

/-!
# Tracktable: the tokenized point reader

A shallow embedding of `tracktable/IO/PointFromTokensReader.h`
(`PointFromTokensReader<PointT, SourceIterT>`) together with the theorems
that settle the specification's statements about it.

Conventions of the embedding

* `std::string` is `String`; `std::vector<std::string>` is `List String`.
* `int` values that are only stored and compared (column numbers, coordinate
  indices) are `Int`; `std::size_t` values are `Nat`, reduced modulo `2^64`
  wherever the source does arithmetic on them; `static_cast<int>` is `to_int`.
* `std::map<K, V>` is an association list kept in increasing key order, the
  order in which the source iterates over it.
* the input range `[SourceBegin, SourceEnd)` is the list of rows still to be
  read, together with the name of the sequence the iterators walk;
  `++SourceBegin` drops the head of the list.
* C++ exceptions are values of `Raised`; a function that can throw after it
  has already changed the point returns the point together with
  `Option Raised`.
* text written to `std::cout` is collected as a list of `Message`.
* the coordinate number type (`double`) and the timestamp type are type
  parameters `C` and `T`; conversions from text are fields of `Env`.
-/

namespace tracktable

/-! ## Point types and their capability traits -/

/-- The compile-time facts about the reader's point type:
`traits::dimension`, `traits::has_object_id`, `traits::has_timestamp`,
`traits::has_properties`. -/
structure PointTraits where
  dimension : Nat
  has_object_id : Bool
  has_timestamp : Bool
  has_properties : Bool
deriving DecidableEq, Repr

/-- The enumeration `PropertyUnderlyingType`, restricted to the four kinds the
reader names (`TYPE_REAL`, `TYPE_INTEGER`, `TYPE_STRING`, `TYPE_TIMESTAMP`). -/
inductive PropertyUnderlyingType where
  | TYPE_REAL
  | TYPE_INTEGER
  | TYPE_STRING
  | TYPE_TIMESTAMP
deriving DecidableEq, Repr

/-- Modelled from the spec: the property value of section 3, a tagged value
holding exactly one of real, integer, string, timestamp (the class itself is
not among the sources). -/
inductive PropertyValue (C T : Type) where
  | real (value : C)
  | integer (value : Int)
  | string (value : String)
  | timestamp (value : T)
deriving DecidableEq, Repr

/-- A point of the reader's point type: `coordinates` has one entry per
dimension; the object id, timestamp and property bag are the trait-gated
optional members (left at their defaults when the type lacks them). -/
structure Point (C T : Type) where
  coordinates : List C
  object_id : String
  timestamp : T
  properties : List (String × PropertyValue C T)
deriving DecidableEq, Repr

/-! ## Exceptions and console output -/

/-- The C++ exceptions that can travel through `next_item`.
`EmptyCoordinateError` and `LexicalCastError` are the two exceptions the
reader throws itself; `ParseError` stands for any other member of the
`ParseError` family; `bad_lexical_cast` is `boost::bad_lexical_cast`;
`out_of_range` is the `std::out_of_range` of `std::vector::at`;
`std_exception` is any other `std::exception`.  `undefined_behavior` is not
an exception: it marks an unchecked write outside the point
(`(*point)[coord]` with `coord` outside `0..dimension-1`), which no handler
intercepts. -/
inductive Raised where
  | EmptyCoordinateError (coordinate : Int)
  | LexicalCastError (field : String) (text : String) (expected : String)
  | ParseError (what : String)
  | bad_lexical_cast
  | out_of_range
  | std_exception (what : String)
  | undefined_behavior
deriving DecidableEq, Repr

/-- The `catch` clause of `next_item` that intercepts an exception, in the
order the clauses are written. -/
inductive Handler where
  | catch_ParseError
  | catch_bad_lexical_cast
  | catch_std_exception
  | uncaught
deriving DecidableEq, Repr

/-- Which `catch` clause of `next_item` takes a given exception.  Modelled
from the spec: `ParseExceptions.h` is not among the sources; section 7 puts
the empty coordinate token and the failed numeric conversion in one family
of malformed-row errors, here the subclasses of `ParseError`. -/
def Raised.handler : Raised → Handler
  | .EmptyCoordinateError _ => .catch_ParseError
  | .LexicalCastError _ _ _ => .catch_ParseError
  | .ParseError _ => .catch_ParseError
  | .bad_lexical_cast => .catch_bad_lexical_cast
  | .out_of_range => .catch_std_exception
  | .std_exception _ => .catch_std_exception
  | .undefined_behavior => .uncaught

/-- One line written to `std::cout`, one constructor per output statement of
the reader. -/
inductive Message where
  | header_ignored
  | not_enough_tokens (expected : Nat) (found : Nat)
  | error_parse (e : Raised)
  | warning_cast (e : Raised)
  | warning_exception (e : Raised)
  | dimension_mismatch (header_dimension : Nat) (point_dimension : Nat)
deriving DecidableEq, Repr

/-! ## Header, column assignments, reader state -/

/-- The fields of `io::detail::PointHeader` that the reader uses. -/
structure PointHeader where
  Dimension : Nat
  HasObjectId : Bool
  HasTimestamp : Bool
  PropertyNames : List String
  PropertyTypes : List PropertyUnderlyingType
deriving DecidableEq, Repr

/-- The value type of the property assignment map,
`io::detail::ColumnTypeAssignment`: a source column and a property kind. -/
structure ColumnTypeAssignment where
  column : Int
  type : PropertyUnderlyingType
deriving DecidableEq, Repr

/-- Modelled from the spec: the state of `PropertyConverter` named in
section 4.7, the null marker and the timestamp patterns (the class itself
is not among the sources). -/
structure PropertyConverter where
  null_value : String
  timestamp_input_format : String
  timestamp_output_format : String
deriving DecidableEq, Repr

/-- The data members of `PointFromTokensReader`.  The two iterators
`SourceBegin` and `SourceEnd` are held as `Input` and `Source`: `Input` names
the sequence of rows the iterators walk (iterators into different sequences
never compare equal; a reader walks sequence 0 unless another is given), and
`Source` is the range `[SourceBegin, SourceEnd)`, every row not yet consumed,
each row being the token list the source iterator yields for it. -/
structure PointFromTokensReader where
  CoordinateMap : List (Int × Int)
  FieldMap : List (String × ColumnTypeAssignment)
  Input : Nat := 0
  Source : List (List String)
  ObjectIdColumn : Int
  TimestampColumn : Int
  IgnoreHeader : Bool
  WarningsEnabled : Bool
  PropertyReadWrite : PropertyConverter
deriving DecidableEq, Repr

/-- Everything the reader takes from outside this header file: the header
sentinel `io::detail::PointFileMagicString`, the header parser
`PointHeader::read_from_tokens`, `boost::lexical_cast` to the coordinate
type and to a 64-bit integer, the timestamp parser of `TimestampConverter`
(input pattern first, text second) and the values a default-constructed
point starts with. -/
structure Env (C T : Type) where
  PointFileMagicString : String
  read_from_tokens : List String → Except Raised PointHeader
  lexical_cast_coordinate : String → Option C
  lexical_cast_integer : String → Option Int
  timestamp_from_string : String → String → Option T
  default_coordinate : C
  default_object_id : String
  default_timestamp : T

/-! ## Machine arithmetic and containers -/

/-- The operation `-- n` on a `std::size_t`: subtraction of one modulo
`2^64`. -/
def size_t_decrement (n : Nat) : Nat :=
  (n + (2 ^ 64 - 1)) % 2 ^ 64

/-- The conversion `static_cast<int>(n)` of a `std::size_t` to a 32-bit
`int`: the low 32 bits read as a two's complement number. -/
def to_int (n : Nat) : Int :=
  if n % 2 ^ 32 < 2 ^ 31 then ((n % 2 ^ 32 : Nat) : Int)
  else ((n % 2 ^ 32 : Nat) : Int) - 2 ^ 32

/-- The order of `std::string` keys: lexicographic on the characters. -/
def string_less (a b : String) : Bool :=
  decide (a.data < b.data)

/-- The assignment `m[key] = value` on a `std::map<int, V>`: replace the
value of an existing key or insert the new key at its place in key order. -/
def int_map_assign {V : Type} (key : Int) (value : V) : List (Int × V) → List (Int × V)
  | [] => [(key, value)]
  | (k, v) :: rest =>
    if key < k then (key, value) :: (k, v) :: rest
    else if key = k then (key, value) :: rest
    else (k, v) :: int_map_assign key value rest

/-- The lookup `m.find(key)` on a `std::map<int, V>`. -/
def int_map_find {V : Type} (key : Int) : List (Int × V) → Option V
  | [] => none
  | (k, v) :: rest => if key = k then some v else int_map_find key rest

/-- The assignment `m[key] = value` on a `std::map<std::string, V>`. -/
def string_map_assign {V : Type} (key : String) (value : V) :
    List (String × V) → List (String × V)
  | [] => [(key, value)]
  | (k, v) :: rest =>
    if string_less key k then (key, value) :: (k, v) :: rest
    else if key = k then (key, value) :: rest
    else (k, v) :: string_map_assign key value rest

/-- The lookup `m.find(key)` on a `std::map<std::string, V>`. -/
def string_map_find {V : Type} (key : String) : List (String × V) → Option V
  | [] => none
  | (k, v) :: rest => if key = k then some v else string_map_find key rest

/-- The bounds-checked access `tokens.at(column)` with an `int` column: a
negative column converts to a huge `size_t`, so it is out of range like any
column at or beyond the size; `none` stands for `std::out_of_range`. -/
def vector_at (tokens : List String) (column : Int) : Option String :=
  if 0 ≤ column then tokens[column.toNat]? else none

/-- The characters `std::isspace` accepts in the classic locale. -/
def is_space (c : Char) : Bool :=
  c = ' ' || c = '\t' || c = '\n' || c = '\r' || c.toNat = 11 || c.toNat = 12

/-- The call `boost::algorithm::trim`: remove leading and trailing white
space. -/
def trim (s : String) : String :=
  String.mk ((((s.data.dropWhile is_space).reverse).dropWhile is_space).reverse)

/-- The row the reader works on, `get_tokens_from_input`: the tokens of the
current source row, each one trimmed. -/
def get_tokens_from_input (row : List String) : List String :=
  row.map trim

/-! ## Construction and configuration by the caller -/

/-- The constructor `PointFromTokensReader(start, finish)`: no assignments,
both special columns unassigned (`-1`), headers honoured, warnings on.  The
default-constructed `PropertyConverter` is passed in. -/
def PointFromTokensReader.create (source : List (List String))
    (converter : PropertyConverter) : PointFromTokensReader :=
  { CoordinateMap := [], FieldMap := [], Source := source,
    ObjectIdColumn := -1, TimestampColumn := -1,
    IgnoreHeader := false, WarningsEnabled := true,
    PropertyReadWrite := converter }

/-- The method `set_object_id_column`. -/
def set_object_id_column (r : PointFromTokensReader) (column : Int) :
    PointFromTokensReader :=
  { r with ObjectIdColumn := column }

/-- The method `set_timestamp_column`. -/
def set_timestamp_column (r : PointFromTokensReader) (column : Int) :
    PointFromTokensReader :=
  { r with TimestampColumn := column }

/-- The method `set_coordinate_column`: `CoordinateMap[coordinate] = column`. -/
def set_coordinate_column (r : PointFromTokensReader) (coordinate column : Int) :
    PointFromTokensReader :=
  { r with CoordinateMap := int_map_assign coordinate column r.CoordinateMap }

/-- The method `set_real_field_column`:
`FieldMap[field] = ColumnTypeAssignment::real(column)`. -/
def set_real_field_column (r : PointFromTokensReader) (field : String) (column : Int) :
    PointFromTokensReader :=
  { r with FieldMap :=
      string_map_assign field ⟨column, PropertyUnderlyingType.TYPE_REAL⟩ r.FieldMap }

/-- The method `set_integer_field_column`:
`FieldMap[field] = ColumnTypeAssignment::integer(column)`. -/
def set_integer_field_column (r : PointFromTokensReader) (field : String) (column : Int) :
    PointFromTokensReader :=
  { r with FieldMap :=
      string_map_assign field ⟨column, PropertyUnderlyingType.TYPE_INTEGER⟩ r.FieldMap }

/-- The method `set_time_field_column`:
`FieldMap[field] = ColumnTypeAssignment::timestamp(column)`. -/
def set_time_field_column (r : PointFromTokensReader) (field : String) (column : Int) :
    PointFromTokensReader :=
  { r with FieldMap :=
      string_map_assign field ⟨column, PropertyUnderlyingType.TYPE_TIMESTAMP⟩ r.FieldMap }

/-- The method `set_string_field_column`:
`FieldMap[field] = ColumnTypeAssignment::string(column)`. -/
def set_string_field_column (r : PointFromTokensReader) (field : String) (column : Int) :
    PointFromTokensReader :=
  { r with FieldMap :=
      string_map_assign field ⟨column, PropertyUnderlyingType.TYPE_STRING⟩ r.FieldMap }

/-- The method `set_warnings_enabled`. -/
def set_warnings_enabled (r : PointFromTokensReader) (onoff : Bool) :
    PointFromTokensReader :=
  { r with WarningsEnabled := onoff }

/-- The method `set_ignore_header`. -/
def set_ignore_header (r : PointFromTokensReader) (onoff : Bool) :
    PointFromTokensReader :=
  { r with IgnoreHeader := onoff }

/-- The step `++SourceBegin`. -/
def advance (r : PointFromTokensReader) : PointFromTokensReader :=
  { r with Source := r.Source.tail }

/-! ## The required token count -/

/-- The value `required_num_tokens` that `next_item` computes on entry, in
`std::size_t` arithmetic: the sizes of the two maps plus the two trait
values, then one decrement for every coordinate entry whose column is `-1`,
one if `TimestampColumn == -1` and one if `ObjectIdColumn == -1`. -/
def required_num_tokens (tr : PointTraits) (r : PointFromTokensReader) : Nat :=
  let start := (r.CoordinateMap.length + r.FieldMap.length
      + tr.has_object_id.toNat + tr.has_timestamp.toNat) % 2 ^ 64
  let after_coordinates :=
    r.CoordinateMap.foldl (fun n entry => if entry.2 = -1 then size_t_decrement n else n) start
  let after_timestamp :=
    if r.TimestampColumn = -1 then size_t_decrement after_coordinates else after_coordinates
  if r.ObjectIdColumn = -1 then size_t_decrement after_timestamp else after_timestamp

/-! ## Configuration from a header -/

/-- The method `configure_coordinate_assignments`: clear the coordinate map,
then give coordinate `d` the column `first_coordinate_column + d` for every
`d` below the expected dimension. -/
def configure_coordinate_assignments (r : PointFromTokensReader)
    (object_id_present timestamp_present : Bool) (expected_dimension : Nat) :
    PointFromTokensReader :=
  let first_coordinate_column := (object_id_present.toNat + timestamp_present.toNat) % 2 ^ 64
  let assign_one := fun (m : List (Int × Int)) (d : Nat) =>
    int_map_assign (to_int d) (to_int ((first_coordinate_column + d) % 2 ^ 64)) m
  { r with CoordinateMap := (List.range expected_dimension).foldl assign_one [] }

/-- The method `configure_field_assignments`: clear the property map, then
give the `i`-th property name the column `first_property_column + i` and the
`i`-th property type.  A header whose type list is shorter than its name
list makes the source read `PropertyTypes[i]` out of bounds; the embedding
leaves the map alone at such an index. -/
def configure_field_assignments (r : PointFromTokensReader) (header : PointHeader)
    (first_property_column : Nat) : PointFromTokensReader :=
  let assign_one := fun (m : List (String × ColumnTypeAssignment)) (i : Nat) =>
    match header.PropertyNames[i]?, header.PropertyTypes[i]? with
    | some property_name, some property_type =>
      string_map_assign property_name
        ⟨((first_property_column + i) % 2 ^ 64 : Nat), property_type⟩ m
    | _, _ => m
  { r with FieldMap := (List.range header.PropertyNames.length).foldl assign_one [] }

/-- The method `configure_reader_from_header`: parse the header (which may
throw), warn about a dimension mismatch, set `ObjectIdColumn = 0` if the
header has an object id, set `TimestampColumn = 1` if it has a timestamp,
then rebuild the coordinate and property maps.  Returns the new reader and
the text written. -/
def configure_reader_from_header {C T : Type} (env : Env C T) (tr : PointTraits)
    (r : PointFromTokensReader) (tokens : List String) :
    Except Raised (PointFromTokensReader × List Message) :=
  match env.read_from_tokens tokens with
  | .error e => .error e
  | .ok header =>
    let out :=
      if header.Dimension ≠ tr.dimension ∧ r.WarningsEnabled = true
      then [Message.dimension_mismatch header.Dimension tr.dimension] else []
    let r1 := if header.HasObjectId then { r with ObjectIdColumn := 0 } else r
    let r2 := if header.HasTimestamp then { r1 with TimestampColumn := 1 } else r1
    let r3 := configure_coordinate_assignments r2 header.HasObjectId header.HasTimestamp
      header.Dimension
    let first_property_column_in_point_data :=
      (header.HasObjectId.toNat + header.HasTimestamp.toNat + header.Dimension) % 2 ^ 64
    .ok (configure_field_assignments r3 header first_property_column_in_point_data, out)

/-! ## Populating a point from a row -/

/-- The expression `new point_type`: every coordinate at the point type's
default, the optional members at theirs, no properties. -/
def new_point {C T : Type} (env : Env C T) (tr : PointTraits) : Point C T :=
  { coordinates := List.replicate tr.dimension env.default_coordinate,
    object_id := env.default_object_id,
    timestamp := env.default_timestamp,
    properties := [] }

/-- The unchecked write `(*point)[coord] = value`; `none` when `coord` is
not an index of the point, where the source writes outside the object. -/
def Point.set_coordinate {C T : Type} (point : Point C T) (coord : Int) (value : C) :
    Option (Point C T) :=
  if 0 ≤ coord ∧ coord.toNat < point.coordinates.length
  then some { point with coordinates := point.coordinates.set coord.toNat value }
  else none

/-- The body of the loop of `populate_coordinates_from_tokens` for one map
entry, in the order of the source: the bounds-checked access
`tokens.at(column)`, the test for an empty token, then inside the `try` the
test `column == -1`, the conversion and the write. -/
def populate_coordinate {C T : Type} (env : Env C T) (tokens : List String)
    (point : Point C T) (coord column : Int) : Point C T × Option Raised :=
  match vector_at tokens column with
  | none => (point, some Raised.out_of_range)
  | some token =>
    if token = "" then (point, some (Raised.EmptyCoordinateError coord))
    else if column = -1 then (point, none)
    else
      match env.lexical_cast_coordinate token with
      | none =>
        (point, some (Raised.LexicalCastError ("coordinate " ++ toString coord) token "double"))
      | some value =>
        match point.set_coordinate coord value with
        | some updated => (updated, none)
        | none => (point, some Raised.undefined_behavior)

/-- The loop of `populate_coordinates_from_tokens` over the entries of the
coordinate map in key order; it stops at the first exception and hands back
the point as it stands at that moment. -/
def populate_coordinates_loop {C T : Type} (env : Env C T) (tokens : List String) :
    List (Int × Int) → Point C T → Point C T × Option Raised
  | [], point => (point, none)
  | (coord, column) :: rest, point =>
    match populate_coordinate env tokens point coord column with
    | (updated, none) => populate_coordinates_loop env tokens rest updated
    | (updated, some e) => (updated, some e)

/-- The method `populate_coordinates_from_tokens`. -/
def populate_coordinates_from_tokens {C T : Type} (env : Env C T)
    (r : PointFromTokensReader) (tokens : List String) (point : Point C T) :
    Point C T × Option Raised :=
  populate_coordinates_loop env tokens r.CoordinateMap point

/-- The call `set_property(point, name, value)` on the property bag, a
`std::map` from name to value. -/
def Point.set_property {C T : Type} (point : Point C T) (name : String)
    (value : PropertyValue C T) : Point C T :=
  { point with properties := string_map_assign name value point.properties }

/-- Modelled from the spec: one property assignment of
`io::detail::set_properties` (section 4.6; `SetProperties.h` is not among
the sources).  The token at the assigned column is converted by its declared
kind (real by the floating-point parse, integer by the signed-integer parse,
string verbatim, timestamp by the timestamp converter under the current
input pattern) and stored under the name; a token equal to the null marker
leaves the property unset.  A column outside the row is the exception of a
bounds-checked access, a failed conversion is a `ParseError`. -/
def set_property_from_token {C T : Type} (env : Env C T) (converter : PropertyConverter)
    (tokens : List String) (point : Point C T) (name : String)
    (assignment : ColumnTypeAssignment) : Point C T × Option Raised :=
  match vector_at tokens assignment.column with
  | none => (point, some Raised.out_of_range)
  | some token =>
    if token = converter.null_value then (point, none)
    else
      match assignment.type with
      | .TYPE_REAL =>
        match env.lexical_cast_coordinate token with
        | some value => (point.set_property name (PropertyValue.real value), none)
        | none => (point, some (Raised.LexicalCastError name token "double"))
      | .TYPE_INTEGER =>
        match env.lexical_cast_integer token with
        | some value => (point.set_property name (PropertyValue.integer value), none)
        | none => (point, some (Raised.LexicalCastError name token "integer"))
      | .TYPE_STRING => (point.set_property name (PropertyValue.string token), none)
      | .TYPE_TIMESTAMP =>
        match env.timestamp_from_string converter.timestamp_input_format token with
        | some value => (point.set_property name (PropertyValue.timestamp value), none)
        | none => (point, some (Raised.ParseError token))

/-- Modelled from the spec: the loop of `io::detail::set_properties<P, true>`
over every property assignment of the table (section 4.6). -/
def set_properties_loop {C T : Type} (env : Env C T) (converter : PropertyConverter)
    (tokens : List String) :
    List (String × ColumnTypeAssignment) → Point C T → Point C T × Option Raised
  | [], point => (point, none)
  | (name, assignment) :: rest, point =>
    match set_property_from_token env converter tokens point name assignment with
    | (updated, none) => set_properties_loop env converter tokens rest updated
    | (updated, some e) => (updated, some e)

/-- Modelled from the spec: `io::detail::set_properties<P, has_properties>`,
which does nothing for a point type without properties (section 4.6). -/
def set_properties {C T : Type} (env : Env C T) (tr : PointTraits)
    (converter : PropertyConverter) (tokens : List String)
    (field_map : List (String × ColumnTypeAssignment)) (point : Point C T) :
    Point C T × Option Raised :=
  if tr.has_properties then set_properties_loop env converter tokens field_map point
  else (point, none)

/-- Modelled from the spec: `io::detail::set_object_id<P, has_object_id>`
(section 4.6; not among the sources): for a point type with an object id the
token at the column is copied verbatim as the identifier; for any other type
nothing happens.  A column outside the row is the exception of a
bounds-checked access. -/
def set_object_id {C T : Type} (tr : PointTraits) (tokens : List String) (column : Int)
    (point : Point C T) : Point C T × Option Raised :=
  if tr.has_object_id then
    match vector_at tokens column with
    | some token => ({ point with object_id := token }, none)
    | none => (point, some Raised.out_of_range)
  else (point, none)

/-- Modelled from the spec: `io::detail::set_timestamp<P, has_timestamp>`
(section 4.6; not among the sources): for a point type with a timestamp the
token at the column is parsed by the timestamp converter under its current
input pattern, a parse failure being a `ParseError`; for any other type
nothing happens. -/
def set_timestamp {C T : Type} (env : Env C T) (tr : PointTraits)
    (converter : PropertyConverter) (tokens : List String) (column : Int)
    (point : Point C T) : Point C T × Option Raised :=
  if tr.has_timestamp then
    match vector_at tokens column with
    | some token =>
      match env.timestamp_from_string converter.timestamp_input_format token with
      | some value => ({ point with timestamp := value }, none)
      | none => (point, some (Raised.ParseError token))
    | none => (point, some Raised.out_of_range)
  else (point, none)

/-- The method `populate_properties_from_tokens`: the properties, then the
object id if `ObjectIdColumn != -1`, then the timestamp if
`TimestampColumn != -1`. -/
def populate_properties_from_tokens {C T : Type} (env : Env C T) (tr : PointTraits)
    (r : PointFromTokensReader) (tokens : List String) (point : Point C T) :
    Point C T × Option Raised :=
  match set_properties env tr r.PropertyReadWrite tokens r.FieldMap point with
  | (p1, some e) => (p1, some e)
  | (p1, none) =>
    match (if r.ObjectIdColumn ≠ -1 then set_object_id tr tokens r.ObjectIdColumn p1
           else (p1, none)) with
    | (p2, some e) => (p2, some e)
    | (p2, none) =>
      if r.TimestampColumn ≠ -1
      then set_timestamp env tr r.PropertyReadWrite tokens r.TimestampColumn p2
      else (p2, none)

/-- The two population calls of `next_item` on a freshly constructed point:
coordinates first, then properties, object id and timestamp.  The second
component is the exception that stopped population, if any. -/
def populate {C T : Type} (env : Env C T) (tr : PointTraits) (r : PointFromTokensReader)
    (tokens : List String) : Point C T × Option Raised :=
  match populate_coordinates_from_tokens env r tokens (new_point env tr) with
  | (p1, some e) => (p1, some e)
  | (p1, none) => populate_properties_from_tokens env tr r tokens p1

/-! ## The read loop -/

/-- What one pass through the body of the `while` loop of `next_item` ends
with: `continue_` goes back to the loop test with the reader, the local
`NextPoint` and the output so far; `return_` leaves `next_item` with a
point; `abort` is undefined behaviour. -/
inductive Step (C T : Type) where
  | continue_ (reader : PointFromTokensReader) (NextPoint : Option (Point C T))
      (out : List Message)
  | return_ (point : Point C T) (reader : PointFromTokensReader) (out : List Message)
  | abort

/-- How a call of `next_item` ends: it returns `NextPoint` (a point or the
null pointer) and leaves the reader in a new state, having written `out`;
or it runs into undefined behaviour. -/
inductive Outcome (C T : Type) where
  | returned (NextPoint : Option (Point C T)) (reader : PointFromTokensReader)
      (out : List Message)
  | undefined
deriving DecidableEq

/-- The three `catch` clauses of `next_item`.  Each advances the cursor;
each prints only if warnings are enabled; only the `ParseError` clause
resets `NextPoint`, and only inside its `if (this->WarningsEnabled)`. -/
def next_item_catch {C T : Type} (e : Raised) (r : PointFromTokensReader)
    (NextPoint : Option (Point C T)) (out : List Message) : Step C T :=
  match e.handler with
  | .catch_ParseError =>
    if r.WarningsEnabled
    then Step.continue_ (advance r) none (out ++ [Message.error_parse e])
    else Step.continue_ (advance r) NextPoint out
  | .catch_bad_lexical_cast =>
    if r.WarningsEnabled
    then Step.continue_ (advance r) NextPoint (out ++ [Message.warning_cast e])
    else Step.continue_ (advance r) NextPoint out
  | .catch_std_exception =>
    if r.WarningsEnabled
    then Step.continue_ (advance r) NextPoint (out ++ [Message.warning_exception e])
    else Step.continue_ (advance r) NextPoint out
  | .uncaught => Step.abort

/-- One pass through the body of the `while` loop of `next_item`, entered
with `row` the source row under the cursor: the `try` block followed by the
`catch` clauses. -/
def next_item_body {C T : Type} (env : Env C T) (tr : PointTraits)
    (required : Nat) (r : PointFromTokensReader) (row : List String)
    (NextPoint : Option (Point C T)) (out : List Message) : Step C T :=
  let tokens := get_tokens_from_input row
  match tokens with
  | [] => Step.continue_ (advance r) NextPoint out
  | first :: _ =>
    let out1 :=
      if first = env.PointFileMagicString ∧ r.IgnoreHeader = true
      then out ++ [Message.header_ignored] else out
    if first = env.PointFileMagicString ∧ r.IgnoreHeader = false then
      match configure_reader_from_header env tr r tokens with
      | .ok (configured, written) => Step.continue_ (advance configured) NextPoint (out1 ++ written)
      | .error e => next_item_catch e r NextPoint out1
    else if required ≤ tokens.length then
      match populate_coordinates_from_tokens env r tokens (new_point env tr) with
      | (p1, some e) => next_item_catch e r (some p1) out1
      | (p1, none) =>
        match populate_properties_from_tokens env tr r tokens p1 with
        | (p2, some e) => next_item_catch e r (some p2) out1
        | (p2, none) => Step.return_ p2 (advance r) out1
    else if r.WarningsEnabled then
      Step.continue_ (advance r) NextPoint
        (out1 ++ [Message.not_enough_tokens required tokens.length])
    else Step.continue_ (advance r) NextPoint out1

/-- The `while (SourceBegin != SourceEnd)` loop of `next_item`, run for at
most `fuel` passes; `none` means the passes ran out before the loop ended. -/
def next_item_loop {C T : Type} (env : Env C T) (tr : PointTraits) (required : Nat) :
    Nat → PointFromTokensReader → Option (Point C T) → List Message → Option (Outcome C T)
  | 0, _, _, _ => none
  | fuel + 1, r, NextPoint, out =>
    match r.Source with
    | [] => some (Outcome.returned NextPoint r out)
    | row :: _ =>
      match next_item_body env tr required r row NextPoint out with
      | Step.continue_ r1 NextPoint1 out1 => next_item_loop env tr required fuel r1 NextPoint1 out1
      | Step.return_ point r1 out1 => some (Outcome.returned (some point) r1 out1)
      | Step.abort => some Outcome.undefined

/-- The method `next_item`: `NextPoint` starts null, the required token
count is computed once from the state on entry, then the loop runs.  One
more pass than there are rows left is always enough (`next_item_loop_fuel`). -/
def next_item {C T : Type} (env : Env C T) (tr : PointTraits) (r : PointFromTokensReader) :
    Option (Outcome C T) :=
  next_item_loop env tr (required_num_tokens tr r) (r.Source.length + 1) r none []

/-- The points of `count` successive calls of `next_item`, with the reader
left by the last call; `none` if a call does not return normally. -/
def next_items {C T : Type} (env : Env C T) (tr : PointTraits) :
    Nat → PointFromTokensReader → Option (List (Option (Point C T)) × PointFromTokensReader)
  | 0, r => some ([], r)
  | count + 1, r =>
    match next_item env tr r with
    | some (Outcome.returned NextPoint r1 _) =>
      match next_items env tr count r1 with
      | some (rest, final) => some (NextPoint :: rest, final)
      | none => none
    | _ => none

/-! ## The header record and a concrete environment -/

/-- The value of a string of decimal digits; `none` for the empty string and
for any string with another character. -/
def parse_digits (s : String) : Option Nat :=
  if s.data ≠ [] ∧ s.data.all Char.isDigit
  then some (s.data.foldl (fun n c => 10 * n + (c.toNat - 48)) 0)
  else none

/-- The `0`/`1` encoding of a header flag. -/
def parse_flag (s : String) : Option Bool :=
  if s = "0" then some false else if s = "1" then some true else none

/-- The alternating `(type tag, name)` pairs at the end of a header record;
`none` if a tag is not recognised or a pair is incomplete. -/
def parse_property_pairs (type_of_tag : String → Option PropertyUnderlyingType) :
    List String → Option (List String × List PropertyUnderlyingType)
  | [] => some ([], [])
  | [_] => none
  | tag :: name :: rest =>
    match type_of_tag tag, parse_property_pairs type_of_tag rest with
    | some kind, some (names, kinds) => some (name :: names, kind :: kinds)
    | _, _ => none

/-- Modelled from the spec: the header parser of section 4.2
(`PointHeader::read_from_tokens`; `PointHeader.h` is not among the sources).
It expects, in order, the sentinel, a domain name, the dimension, the two
flags as `0`/`1`, the property count and then that many `(type tag, name)`
pairs; it fails when the token count does not match the declared count,
when a type tag is not recognised or when the dimension is not positive.
The table of type tags is implementation-defined and passed in. -/
def PointHeader.parse (sentinel : String)
    (type_of_tag : String → Option PropertyUnderlyingType) (tokens : List String) :
    Except Raised PointHeader :=
  match tokens with
  | magic :: _domain :: dimension :: has_object_id :: has_timestamp :: count :: pairs =>
    match parse_digits dimension, parse_flag has_object_id, parse_flag has_timestamp,
      parse_digits count, parse_property_pairs type_of_tag pairs with
    | some d, some o, some t, some k, some (names, kinds) =>
      if magic = sentinel ∧ 0 < d ∧ names.length = k
      then .ok { Dimension := d, HasObjectId := o, HasTimestamp := t,
                 PropertyNames := names, PropertyTypes := kinds }
      else .error (Raised.ParseError "header")
    | _, _, _, _, _ => .error (Raised.ParseError "header")
  | _ => .error (Raised.ParseError "header")

/-- A decimal number `mantissa / 10 ^ scale`, the coordinate value of the
concrete environment. -/
structure Decimal where
  mantissa : Int
  scale : Nat
deriving DecidableEq, Repr

/-- The value of `digits` or `digits.digits` with an optional leading minus
sign, trailing zeros of the fraction dropped; `none` for any other text.
Every text it accepts is one `boost::lexical_cast<double>` accepts with the
same value, and the texts used below that it rejects (the empty string,
words) are rejected by `boost::lexical_cast<double>` too. -/
def parse_decimal (s : String) : Option Decimal :=
  let negative := s.data.head? = some '-'
  let body := if negative then s.data.tail else s.data
  let whole := body.takeWhile (fun c => c ≠ '.')
  let rest := body.dropWhile (fun c => c ≠ '.')
  let fraction := ((rest.tail.reverse).dropWhile (fun c => c = '0')).reverse
  if whole ≠ [] ∧ whole.all Char.isDigit ∧ rest.tail.all Char.isDigit
      ∧ (rest = [] ∨ rest.tail ≠ []) then
    let magnitude : Nat := (whole ++ fraction).foldl (fun n c => 10 * n + (c.toNat - 48)) 0
    some { mantissa := if negative then - (magnitude : Int) else magnitude,
           scale := fraction.length }
  else none

/-- The type tags of the concrete environment. -/
def example_type_of_tag (tag : String) : Option PropertyUnderlyingType :=
  if tag = "real" then some .TYPE_REAL
  else if tag = "integer" then some .TYPE_INTEGER
  else if tag = "string" then some .TYPE_STRING
  else if tag = "timestamp" then some .TYPE_TIMESTAMP
  else none

/-- A concrete environment on which the reader can be run: the sentinel is
`*P*`, headers are parsed by `PointHeader.parse`, coordinates are decimals,
integers are digit strings with an optional minus sign, a timestamp is a
digit string counting seconds, and a new point has coordinates `0`, an
empty object id and timestamp `0`. -/
def example_env : Env Decimal Nat :=
  { PointFileMagicString := "*P*",
    read_from_tokens := PointHeader.parse "*P*" example_type_of_tag,
    lexical_cast_coordinate := parse_decimal,
    lexical_cast_integer := fun s =>
      if s.data.head? = some '-'
      then (parse_digits (String.mk s.data.tail)).map (fun n => - (n : Int))
      else (parse_digits s).map (fun n => (n : Int)),
    timestamp_from_string := fun _ s => parse_digits s,
    default_coordinate := ⟨0, 0⟩,
    default_object_id := "",
    default_timestamp := 0 }

/-- The capability traits of a trajectory point in two dimensions: object
id, timestamp and properties all present. -/
def trajectory_point_2d : PointTraits :=
  { dimension := 2, has_object_id := true, has_timestamp := true, has_properties := true }

/-- The capability traits of a bare point in two dimensions: no object id,
no timestamp, no properties. -/
def base_point_2d : PointTraits :=
  { dimension := 2, has_object_id := false, has_timestamp := false, has_properties := false }

/-- A default-constructed `PropertyConverter` for the examples: empty null
marker. -/
def example_converter : PropertyConverter :=
  { null_value := "", timestamp_input_format := "%s", timestamp_output_format := "%s" }

/-- The output of a call placed after text that was written earlier. -/
def Outcome.after {C T : Type} (earlier : List Message) : Outcome C T → Outcome C T
  | Outcome.returned NextPoint r out => Outcome.returned NextPoint r (earlier ++ out)
  | Outcome.undefined => Outcome.undefined

/-- The output of one loop pass placed after text that was written earlier. -/
def Step.after {C T : Type} (earlier : List Message) : Step C T → Step C T
  | Step.continue_ r NextPoint out => Step.continue_ r NextPoint (earlier ++ out)
  | Step.return_ point r out => Step.return_ point r (earlier ++ out)
  | Step.abort => Step.abort

/-- The reader a loop pass hands on, if it hands one on. -/
def Step.reader {C T : Type} : Step C T → Option PointFromTokensReader
  | Step.continue_ r _ _ => some r
  | Step.return_ _ r _ => some r
  | Step.abort => none

/-! ## Concrete inputs -/

/-- A header record of the concrete environment that declares dimension 2
and an object id, no timestamp, no properties. -/
def header_object_id : List String :=
  ["*P*", "generic", "2", "1", "0", "0"]

/-- A header record that declares dimension 2 and nothing else. -/
def header_plain : List String :=
  ["*P*", "generic", "2", "0", "0", "0"]

/-- A header record that declares dimension 2 and a timestamp but no object
id. -/
def header_timestamp : List String :=
  ["*P*", "generic", "2", "0", "1", "0"]

/-- A header record that declares dimension 2, an object id, no timestamp
and one string property called `name`. -/
def header_named : List String :=
  ["*P*", "generic", "2", "1", "0", "1", "string", "name"]

/-- A stream of the shape header A, three rows, header B, two rows: A
declares an object id and two coordinates, B two coordinates only, and
every row has exactly the columns its header declares. -/
def two_schema_stream : List (List String) :=
  [header_object_id, ["a", "1.0", "2.0"], ["b", "1.5", "2.5"], ["c", "3.0", "4.0"],
   header_plain, ["5.0", "6.0"], ["7.0", "8.0"]]

/-- A reader for two-dimensional trajectory points whose two coordinates
are both assigned to column 0, set up through the public methods, with the
single row `1.0` as its input. -/
def reader_both_coordinates_from_column_0 : PointFromTokensReader :=
  set_coordinate_column
    (set_coordinate_column (PointFromTokensReader.create [["1.0"]] example_converter) 0 0) 1 0

/-- A reader for two-dimensional trajectory points with coordinate 0 in
column 0 and coordinate 1 in column 1, set up through the public methods,
on a given input. -/
def reader_xy (source : List (List String)) : PointFromTokensReader :=
  set_coordinate_column
    (set_coordinate_column (PointFromTokensReader.create source example_converter) 0 0) 1 1

/-- The required token count in the words of the specification (section
4.3): the number of coordinate assignments whose column is not `-1`, plus
the number of property assignments, plus 1 if the object-id column is
assigned, plus 1 if the timestamp column is assigned. -/
def required_token_count_as_specified (r : PointFromTokensReader) : Nat :=
  r.CoordinateMap.countP (fun entry => decide (entry.2 ≠ -1))
    + r.FieldMap.length
    + (if r.ObjectIdColumn ≠ -1 then 1 else 0)
    + (if r.TimestampColumn ≠ -1 then 1 else 0)

/-- A reader for bare two-dimensional points (no object id, no timestamp)
on which the caller has nevertheless assigned object-id column 0 and
timestamp column 1, with the coordinates in columns 2 and 3. -/
def reader_of_base_points_with_both_columns : PointFromTokensReader :=
  set_coordinate_column
    (set_coordinate_column
      (set_timestamp_column
        (set_object_id_column (PointFromTokensReader.create [] example_converter) 0) 1)
      0 2)
    1 3

/-- A reader for two-dimensional trajectory points with coordinate 0 in
column 0 and coordinate 1 in column 5, a column the rows do not have. -/
def reader_with_far_column (source : List (List String)) : PointFromTokensReader :=
  set_coordinate_column
    (set_coordinate_column (PointFromTokensReader.create source example_converter) 0 0) 1 5

/-- A reader for two-dimensional trajectory points with coordinate 0 in
column 0 and coordinate 1 explicitly unassigned (`-1`). -/
def reader_with_unassigned_coordinate (source : List (List String)) : PointFromTokensReader :=
  set_coordinate_column
    (set_coordinate_column (PointFromTokensReader.create source example_converter) 0 0) 1 (-1)

/-- The column assignment table a header leaves behind, when it parses:
coordinate map, property map, object-id column, timestamp column. -/
def table_after_header {C T : Type} (env : Env C T) (tr : PointTraits)
    (r : PointFromTokensReader) (tokens : List String) :
    Option (List (Int × Int) × List (String × ColumnTypeAssignment) × Int × Int) :=
  match configure_reader_from_header env tr r tokens with
  | .ok (r1, _) => some (r1.CoordinateMap, r1.FieldMap, r1.ObjectIdColumn, r1.TimestampColumn)
  | .error _ => none

/-- The method `coordinate_column`: the column of a coordinate, `-1` when
the coordinate has no entry in the map. -/
def coordinate_column (r : PointFromTokensReader) (coordinate : Int) : Int :=
  match int_map_find coordinate r.CoordinateMap with
  | some column => column
  | none => -1

/-- The method `has_coordinate_column`. -/
def has_coordinate_column (r : PointFromTokensReader) (coordinate : Int) : Bool :=
  (int_map_find coordinate r.CoordinateMap).isSome

/-! ## The terrestrial domain (`tracktable/Domain/Terrestrial.h`) -/

/-- What `Terrestrial.h` takes from outside: the `double` operations it
uses (the literals `0` and `3600.0`, product and quotient), the distance in
radians of `distance<PointLonLat>`, the length in radians of
`boost::geometry::length`, the conversion `conversions::radians_to_km`, the
test `tracktable::almost_zero`, and the seconds of a timestamp difference,
`(to - from).total_seconds()`, as a `double`.  `R` stands for `double`, `P`
for a point in longitude and latitude, `TS` for a timestamp. -/
structure TerrestrialEnv (R P TS : Type) where
  zero : R
  literal_3600 : R
  multiply : R → R → R
  divide : R → R → R
  distance_lonlat : P → P → R
  geometry_length : List (P × TS) → R
  radians_to_km : R → R
  almost_zero : R → Bool
  total_seconds : TS → TS → R

/-- The specialization `distance<TerrestrialPoint>::apply`: the distance in
radians converted to kilometers. -/
def terrestrial_distance {R P TS : Type} (env : TerrestrialEnv R P TS) (start finish : P) : R :=
  let distance_in_radians := env.distance_lonlat start finish
  env.radians_to_km distance_in_radians

/-- The specialization `speed_between<TerrestrialTrajectoryPoint>::apply`
on two trajectory points, each a point with its timestamp: the branch taken
when `almost_zero(seconds_elapsed)` is false returns `0`, the other branch
returns `3600.0 * distance_traveled / seconds_elapsed`. -/
def terrestrial_speed_between {R P TS : Type} (env : TerrestrialEnv R P TS)
    (start finish : P × TS) : R :=
  let distance_traveled := terrestrial_distance env start.1 finish.1
  let seconds_elapsed := env.total_seconds finish.2 start.2
  if !(env.almost_zero seconds_elapsed) then env.zero
  else env.divide (env.multiply env.literal_3600 distance_traveled) seconds_elapsed

/-- The specialization `length<terrestrial::trajectory_type>::apply`. -/
def terrestrial_length {R P TS : Type} (env : TerrestrialEnv R P TS)
    (trajectory : List (P × TS)) : R :=
  env.radians_to_km (env.geometry_length trajectory)

/-- A `double` written as the formula that produced it, so that the
operations a function has performed can be read off its result. -/
inductive Formula where
  | literal (value : Int)
  | radians (start finish : String)
  | kilometers (of_radians : Formula)
  | product (left right : Formula)
  | quotient (numerator denominator : Formula)
  | path_radians (places : List String)
deriving DecidableEq, Repr

/-- An environment for the terrestrial domain in which points are named
places, timestamps count seconds, and every `double` is the `Formula` of its
computation; a number is almost zero when it is the literal `0`. -/
def formula_env : TerrestrialEnv Formula String Int :=
  { zero := Formula.literal 0,
    literal_3600 := Formula.literal 3600,
    multiply := Formula.product,
    divide := Formula.quotient,
    distance_lonlat := Formula.radians,
    geometry_length := fun trajectory => Formula.path_radians (trajectory.map Prod.fst),
    radians_to_km := Formula.kilometers,
    almost_zero := fun x => decide (x = Formula.literal 0),
    total_seconds := fun finish start => Formula.literal (finish - start) }

/-! ## Writing a timestamp (`tracktable/IO/detail/WriteTimestamp.h`) -/

/-- The function `write_timestamp<has_timestamp>::apply`.  The output
iterator is the list of tokens written so far, its position their number;
`*where_to_write++ = token` appends one token.  The formatter is
`TimestampConverter::timestamp_to_string`. -/
def write_timestamp {TS : Type} (has_timestamp : Bool) (thing_timestamp : TS)
    (timestamp_to_string : TS → String) (where_to_write : List String) : List String :=
  if has_timestamp then where_to_write ++ [timestamp_to_string thing_timestamp]
  else where_to_write

/-! ## Copying and comparing readers -/

/-- The copy constructor `PointFromTokensReader(const PointFromTokensReader&)`:
input range, both maps and both special columns are taken from `other`;
`IgnoreHeader` is initialised to `false`, `WarningsEnabled` to `true`, and
`PropertyReadWrite`, absent from the initialiser list, is default-constructed. -/
def PointFromTokensReader.copy (default_converter : PropertyConverter)
    (other : PointFromTokensReader) : PointFromTokensReader :=
  { CoordinateMap := other.CoordinateMap, FieldMap := other.FieldMap,
    Input := other.Input, Source := other.Source,
    ObjectIdColumn := other.ObjectIdColumn, TimestampColumn := other.TimestampColumn,
    IgnoreHeader := false, WarningsEnabled := true,
    PropertyReadWrite := default_converter }

/-- The assignment `operator=`: every data member is taken from `other`. -/
def PointFromTokensReader.assign (_self other : PointFromTokensReader) :
    PointFromTokensReader :=
  { CoordinateMap := other.CoordinateMap, FieldMap := other.FieldMap,
    Input := other.Input, Source := other.Source,
    ObjectIdColumn := other.ObjectIdColumn, TimestampColumn := other.TimestampColumn,
    IgnoreHeader := other.IgnoreHeader, WarningsEnabled := other.WarningsEnabled,
    PropertyReadWrite := other.PropertyReadWrite }

/-- The comparison `operator==`: the conjunction of the comparisons of all
data members.  The iterators are compared as iterators, not by the rows they
lead to: `SourceBegin == other.SourceBegin && SourceEnd == other.SourceEnd`
holds when both readers walk the same sequence and stand at the same place
in it, which within one sequence is to have the same rows left. -/
def PointFromTokensReader.equal (self other : PointFromTokensReader) : Bool :=
  decide (self.Input = other.Input)
    && decide (self.Source = other.Source)
    && decide (self.CoordinateMap = other.CoordinateMap)
    && decide (self.FieldMap = other.FieldMap)
    && decide (self.ObjectIdColumn = other.ObjectIdColumn)
    && decide (self.TimestampColumn = other.TimestampColumn)
    && decide (self.IgnoreHeader = other.IgnoreHeader)
    && decide (self.WarningsEnabled = other.WarningsEnabled)
    && decide (self.PropertyReadWrite = other.PropertyReadWrite)

/-- The comparison `operator!=`. -/
def PointFromTokensReader.not_equal (self other : PointFromTokensReader) : Bool :=
  !(self.equal other)

/-! ## Encoding a header record -/

/-- The decimal digits of a number, most significant first. -/
def format_digits (n : Nat) : String :=
  if n = 0 then "0"
  else String.mk ((Nat.digits 10 n).reverse.map (fun d => Char.ofNat (48 + d)))

/-- The `0`/`1` encoding of a header flag. -/
def format_flag (flag : Bool) : String :=
  if flag then "1" else "0"

/-- The alternating `(type tag, name)` pairs of a header record. -/
def encode_property_pairs (tag_of_type : PropertyUnderlyingType → String) :
    List String → List PropertyUnderlyingType → List String
  | name :: names, kind :: kinds =>
    tag_of_type kind :: name :: encode_property_pairs tag_of_type names kinds
  | _, _ => []

/-- Modelled from the spec: the header encoder of section 4.2 (the writing
side of `PointHeader`; `PointHeader.h` is not among the sources), the exact
inverse of `PointHeader.parse`: the sentinel, a domain name, the dimension,
the two flags as `0`/`1`, the property count, then one `(type tag, name)`
pair per property.  The table of type tags is implementation-defined and
passed in. -/
def PointHeader.encode (sentinel : String)
    (tag_of_type : PropertyUnderlyingType → String) (domain : String)
    (header : PointHeader) : List String :=
  sentinel :: domain :: format_digits header.Dimension
    :: format_flag header.HasObjectId :: format_flag header.HasTimestamp
    :: format_digits header.PropertyNames.length
    :: encode_property_pairs tag_of_type header.PropertyNames header.PropertyTypes

/-- The type tags of the concrete environment, for writing. -/
def example_tag_of_type : PropertyUnderlyingType → String
  | .TYPE_REAL => "real"
  | .TYPE_INTEGER => "integer"
  | .TYPE_STRING => "string"
  | .TYPE_TIMESTAMP => "timestamp"

/-- A header record that declares dimension 3 and nothing else. -/
def header_3d : List String :=
  ["*P*", "generic", "3", "0", "0", "0"]

/-! ## Reading the column assignments back -/

/-- The method `has_real_field_column`: the name has an entry in the
property map and the entry is of kind `TYPE_REAL`. -/
def has_real_field_column (r : PointFromTokensReader) (field : String) : Bool :=
  match string_map_find field r.FieldMap with
  | some assignment => decide (assignment.type = PropertyUnderlyingType.TYPE_REAL)
  | none => false

/-- The method `has_integer_field_column`. -/
def has_integer_field_column (r : PointFromTokensReader) (field : String) : Bool :=
  match string_map_find field r.FieldMap with
  | some assignment => decide (assignment.type = PropertyUnderlyingType.TYPE_INTEGER)
  | none => false

/-- The method `has_string_field_column`. -/
def has_string_field_column (r : PointFromTokensReader) (field : String) : Bool :=
  match string_map_find field r.FieldMap with
  | some assignment => decide (assignment.type = PropertyUnderlyingType.TYPE_STRING)
  | none => false

/-- The method `has_time_field_column`. -/
def has_time_field_column (r : PointFromTokensReader) (field : String) : Bool :=
  match string_map_find field r.FieldMap with
  | some assignment => decide (assignment.type = PropertyUnderlyingType.TYPE_TIMESTAMP)
  | none => false

/-- The column of the entry `FieldMap.find(field)`, read only where the
source has checked that the entry exists. -/
def found_field_column (r : PointFromTokensReader) (field : String) : Int :=
  match string_map_find field r.FieldMap with
  | some assignment => assignment.column
  | none => -1

/-- The method `real_field_column`: the column of the entry if
`has_real_field_column`, else `-1`. -/
def real_field_column (r : PointFromTokensReader) (field : String) : Int :=
  if has_real_field_column r field then found_field_column r field else -1

/-- The method `integer_field_column`. -/
def integer_field_column (r : PointFromTokensReader) (field : String) : Int :=
  if has_integer_field_column r field then found_field_column r field else -1

/-- The method `string_field_column`. -/
def string_field_column (r : PointFromTokensReader) (field : String) : Int :=
  if has_string_field_column r field then found_field_column r field else -1

/-- The method `time_field_column`. -/
def time_field_column (r : PointFromTokensReader) (field : String) : Int :=
  if has_time_field_column r field then found_field_column r field else -1

/-- The method `clear_coordinate_assignments`: `CoordinateMap.clear()`. -/
def clear_coordinate_assignments (r : PointFromTokensReader) : PointFromTokensReader :=
  { r with CoordinateMap := [] }

/-! # Theorems -/

/-! ## The loop: every pass moves the cursor by one, the loop ends -/

theorem configure_reader_from_header_source {C T : Type} (env : Env C T) (tr : PointTraits)
    (r r1 : PointFromTokensReader) (tokens : List String) (written : List Message)
    (h : configure_reader_from_header env tr r tokens = .ok (r1, written)) :
    r1.Source = r.Source := by
  unfold configure_reader_from_header at h
  cases hp : env.read_from_tokens tokens with
  | error e => simp [hp] at h
  | ok header =>
    simp only [hp] at h
    injection h with h
    injection h with h1 _
    subst h1
    cases header.HasObjectId <;> cases header.HasTimestamp <;>
      simp [configure_field_assignments, configure_coordinate_assignments]

theorem next_item_catch_reader {C T : Type} (e : Raised) (r : PointFromTokensReader)
    (NextPoint : Option (Point C T)) (out : List Message) :
    (next_item_catch e r NextPoint out).reader = none ∨
    (next_item_catch e r NextPoint out).reader = some (advance r) := by
  unfold next_item_catch
  cases e.handler <;> cases r.WarningsEnabled <;> simp [Step.reader]

/-- Every pass through the loop body that does not end in undefined
behaviour leaves the reader with exactly the first row removed from the
input. -/
theorem next_item_body_source {C T : Type} (env : Env C T) (tr : PointTraits)
    (required : Nat) (r r1 : PointFromTokensReader) (row : List String)
    (NextPoint : Option (Point C T)) (out : List Message)
    (h : (next_item_body env tr required r row NextPoint out).reader = some r1) :
    r1.Source = r.Source.tail := by
  unfold next_item_body at h
  have hcatch : ∀ (e : Raised) (np : Option (Point C T)) (o : List Message),
      (next_item_catch e r np o).reader = some r1 → r1.Source = r.Source.tail := by
    intro e np o he
    rcases next_item_catch_reader e r np o with h0 | h0
    · rw [h0] at he; cases he
    · rw [h0] at he; injection he with he; subst he; rfl
  revert h
  simp only
  split
  · intro h; simp [Step.reader] at h; subst h; rfl
  · split
    · split
      · rename_i hc
        intro h; simp [Step.reader] at h; subst h
        simp [advance, configure_reader_from_header_source env tr r _ _ _ hc]
      · intro h; exact hcatch _ _ _ h
    · split
      · split
        · intro h; exact hcatch _ _ _ h
        · split
          · intro h; exact hcatch _ _ _ h
          · intro h; simp [Step.reader] at h; subst h; rfl
      · split <;> (intro h; simp [Step.reader] at h; subst h; rfl)

/-- The number of passes does not matter once it exceeds the number of rows
left: the loop gives the same answer for any two such numbers. -/
theorem next_item_loop_fuel_eq {C T : Type} (env : Env C T) (tr : PointTraits)
    (required : Nat) (f1 : Nat) :
    ∀ (f2 : Nat) (r : PointFromTokensReader) (NextPoint : Option (Point C T))
      (out : List Message), r.Source.length < f1 → r.Source.length < f2 →
      next_item_loop env tr required f1 r NextPoint out
        = next_item_loop env tr required f2 r NextPoint out := by
  induction f1 with
  | zero => intro f2 r np out h1; omega
  | succ n ih =>
    intro f2 r np out h1 h2
    cases f2 with
    | zero => omega
    | succ m =>
      unfold next_item_loop
      cases hs : r.Source with
      | nil => rfl
      | cons row rest =>
        simp only
        cases hb : next_item_body env tr required r row np out with
        | continue_ r1 np1 out1 =>
          simp only
          have hsrc : r1.Source = r.Source.tail :=
            next_item_body_source env tr required r r1 row np out (by rw [hb]; rfl)
          have hlen : r1.Source.length = rest.length := by rw [hsrc, hs]; rfl
          rw [hs] at h1 h2
          simp only [List.length_cons] at h1 h2
          exact ih m r1 np1 out1 (by omega) (by omega)
        | return_ point r1 out1 => rfl
        | abort => rfl

/-- With more passes than rows left the loop always comes to an end. -/
theorem next_item_loop_fuel {C T : Type} (env : Env C T) (tr : PointTraits)
    (required : Nat) (fuel : Nat) :
    ∀ (r : PointFromTokensReader) (NextPoint : Option (Point C T)) (out : List Message),
      r.Source.length < fuel →
      ∃ outcome, next_item_loop env tr required fuel r NextPoint out = some outcome := by
  induction fuel with
  | zero => intro r np out h; omega
  | succ n ih =>
    intro r np out h
    unfold next_item_loop
    cases hs : r.Source with
    | nil => exact ⟨_, rfl⟩
    | cons row rest =>
      simp only
      cases hb : next_item_body env tr required r row np out with
      | continue_ r1 np1 out1 =>
        simp only
        have hsrc : r1.Source = r.Source.tail :=
          next_item_body_source env tr required r r1 row np out (by rw [hb]; rfl)
        have hlen : r1.Source.length = rest.length := by rw [hsrc, hs]; rfl
        rw [hs] at h
        simp only [List.length_cons] at h
        exact ih r1 np1 out1 (by omega)
      | return_ point r1 out1 => exact ⟨_, rfl⟩
      | abort => exact ⟨_, rfl⟩

/-- One pass of the loop, unfolded: on a non-empty input `next_item` runs the
body on the first row and either goes on with the rows that remain (with the
required count it computed on entry), returns, or aborts. -/
theorem next_item_unfold {C T : Type} (env : Env C T) (tr : PointTraits)
    (r : PointFromTokensReader) (row : List String) (rest : List (List String))
    (hs : r.Source = row :: rest) :
    next_item env tr r =
      match next_item_body env tr (required_num_tokens tr r) r row none [] with
      | Step.continue_ r1 NextPoint1 out1 =>
        next_item_loop env tr (required_num_tokens tr r) (rest.length + 1) r1 NextPoint1 out1
      | Step.return_ point r1 out1 => some (Outcome.returned (some point) r1 out1)
      | Step.abort => some Outcome.undefined := by
  unfold next_item
  rw [hs]
  simp only [List.length_cons]
  rw [next_item_loop]
  rw [hs]

/-- On exhausted input `next_item` returns the null pointer and changes
nothing. -/
theorem next_item_nil {C T : Type} (env : Env C T) (tr : PointTraits)
    (r : PointFromTokensReader) (hs : r.Source = []) :
    next_item env tr r = some (Outcome.returned none r []) := by
  unfold next_item
  rw [hs]
  simp only [List.length_nil]
  rw [next_item_loop]
  rw [hs]

/-! ## Output written earlier only ever stays in front -/

theorem next_item_catch_after {C T : Type} (e : Raised) (r : PointFromTokensReader)
    (NextPoint : Option (Point C T)) (earlier out : List Message) :
    next_item_catch e r NextPoint (earlier ++ out)
      = (next_item_catch e r NextPoint out).after earlier := by
  unfold next_item_catch
  cases e.handler <;> cases r.WarningsEnabled <;> simp [Step.after]

theorem next_item_body_after {C T : Type} (env : Env C T) (tr : PointTraits)
    (required : Nat) (r : PointFromTokensReader) (row : List String)
    (NextPoint : Option (Point C T)) (earlier out : List Message) :
    next_item_body env tr required r row NextPoint (earlier ++ out)
      = (next_item_body env tr required r row NextPoint out).after earlier := by
  unfold next_item_body
  simp only
  split
  · simp [Step.after]
  · rename_i first _ _
    by_cases hi : first = env.PointFileMagicString ∧ r.IgnoreHeader = true
    · simp only [hi, and_self, if_true]
      repeat' split
      all_goals simp [Step.after, next_item_catch_after, List.append_assoc]
    · simp only [hi, if_false]
      repeat' split
      all_goals simp [Step.after, next_item_catch_after, List.append_assoc]

theorem next_item_loop_after {C T : Type} (env : Env C T) (tr : PointTraits)
    (required : Nat) (fuel : Nat) :
    ∀ (r : PointFromTokensReader) (NextPoint : Option (Point C T))
      (earlier out : List Message),
      next_item_loop env tr required fuel r NextPoint (earlier ++ out)
        = (next_item_loop env tr required fuel r NextPoint out).map (Outcome.after earlier) := by
  induction fuel with
  | zero => intro r np earlier out; simp [next_item_loop]
  | succ n ih =>
    intro r np earlier out
    unfold next_item_loop
    cases hs : r.Source with
    | nil => simp [Outcome.after]
    | cons row rest =>
      simp only
      rw [next_item_body_after]
      cases hb : next_item_body env tr required r row np out with
      | continue_ r1 np1 out1 => simp only [Step.after]; exact ih r1 np1 earlier out1
      | return_ point r1 out1 => simp [Step.after, Outcome.after]
      | abort => simp [Step.after, Outcome.after]

/-! ## The three kinds of row the loop body meets -/

/-- The text the body writes before it looks at a row any further: the
notice about a header that is being ignored. -/
theorem header_notice_eq (first magic : String) (ignore : Bool) (out : List Message) :
    (if first = magic ∧ ignore = true then out ++ [Message.header_ignored] else out)
      = out ++ (if first = magic ∧ ignore = true then [Message.header_ignored] else []) := by
  split <;> simp

/-- A row that is not taken as a header and has at least the required
number of tokens is populated: the body returns the point if both population
calls succeed and otherwise hands the exception, together with the point as
far as it was built, to the `catch` clauses. -/
theorem next_item_body_data {C T : Type} (env : Env C T) (tr : PointTraits)
    (required : Nat) (r : PointFromTokensReader) (row : List String)
    (NextPoint : Option (Point C T)) (out : List Message)
    (first : String) (more : List String)
    (ht : get_tokens_from_input row = first :: more)
    (hh : ¬ (first = env.PointFileMagicString ∧ r.IgnoreHeader = false))
    (hreq : required ≤ (first :: more).length) :
    next_item_body env tr required r row NextPoint out =
      match populate env tr r (first :: more) with
      | (p, none) =>
        Step.return_ p (advance r)
          (out ++ (if first = env.PointFileMagicString ∧ r.IgnoreHeader = true
                   then [Message.header_ignored] else []))
      | (p, some e) =>
        next_item_catch e r (some p)
          (out ++ (if first = env.PointFileMagicString ∧ r.IgnoreHeader = true
                   then [Message.header_ignored] else [])) := by
  unfold next_item_body
  simp only [ht, hh, if_false, hreq, if_true, header_notice_eq]
  unfold populate
  cases hc : populate_coordinates_from_tokens env r (first :: more) (new_point env tr) with
  | mk p1 e1 =>
    cases e1 with
    | some e => rfl
    | none =>
      simp only
      cases hp : populate_properties_from_tokens env tr r (first :: more) p1 with
      | mk p2 e2 =>
        cases e2 with
        | some e => rfl
        | none => rfl

/-- A row that is not taken as a header and has fewer tokens than required
is passed over: the body goes back to the loop test with the cursor one row
on, the same `NextPoint`, the same reader otherwise, and one warning if
warnings are enabled. -/
theorem next_item_body_short {C T : Type} (env : Env C T) (tr : PointTraits)
    (required : Nat) (r : PointFromTokensReader) (row : List String)
    (NextPoint : Option (Point C T)) (out : List Message)
    (first : String) (more : List String)
    (ht : get_tokens_from_input row = first :: more)
    (hh : ¬ (first = env.PointFileMagicString ∧ r.IgnoreHeader = false))
    (hreq : (first :: more).length < required) :
    next_item_body env tr required r row NextPoint out =
      Step.continue_ (advance r) NextPoint
        (out ++ ((if first = env.PointFileMagicString ∧ r.IgnoreHeader = true
                   then [Message.header_ignored] else [])
          ++ (if r.WarningsEnabled = true
              then [Message.not_enough_tokens required (first :: more).length] else []))) := by
  unfold next_item_body
  have hn : ¬ required ≤ (first :: more).length := by omega
  simp only [ht, hh, if_false, hn, header_notice_eq]
  cases r.WarningsEnabled <;> simp

/-! ## Two schemas in one stream -/

/-- C1, evaluated on the code: on the stream `two_schema_stream` (header A
with an object id, three rows for A, header B without one, two rows for B)
a fresh reader for two-dimensional trajectory points yields the three points
of schema A and then no point at all: the fourth call computes its required
token count (3) from schema A before it meets header B, header B leaves the
object-id column at 0, and both rows of B are passed over as too short. -/
theorem two_schema_stream_yields_three_points :
    next_items example_env trajectory_point_2d 5
        (PointFromTokensReader.create two_schema_stream example_converter)
      = some ([some { coordinates := [⟨1, 0⟩, ⟨2, 0⟩], object_id := "a", timestamp := 0,
                      properties := [] },
               some { coordinates := [⟨15, 1⟩, ⟨25, 1⟩], object_id := "b", timestamp := 0,
                      properties := [] },
               some { coordinates := [⟨3, 0⟩, ⟨4, 0⟩], object_id := "c", timestamp := 0,
                      properties := [] },
               none, none],
              { CoordinateMap := [(0, 0), (1, 1)], FieldMap := [], Source := [],
                ObjectIdColumn := 0, TimestampColumn := -1,
                IgnoreHeader := false, WarningsEnabled := true,
                PropertyReadWrite := example_converter }) := by
  decide

/-! ## Rows that populate: one point per row, in order -/

theorem next_items_exhausted {C T : Type} (env : Env C T) (tr : PointTraits) (extra : Nat) :
    ∀ (r : PointFromTokensReader), r.Source = [] →
      next_items env tr extra r = some (List.replicate extra none, r) := by
  induction extra with
  | zero => intro r _; rfl
  | succ n ih =>
    intro r hs
    unfold next_items
    simp [next_item_nil env tr r hs, ih r hs, List.replicate_succ]

theorem next_items_of_populating_rows {C T : Type} (env : Env C T) (tr : PointTraits)
    (extra : Nat) (rows : List (List String)) :
    ∀ (r : PointFromTokensReader), r.Source = rows →
      (∀ row ∈ rows,
        (get_tokens_from_input row).head? ≠ none ∧
        (get_tokens_from_input row).head? ≠ some env.PointFileMagicString ∧
        required_num_tokens tr r ≤ (get_tokens_from_input row).length ∧
        (populate env tr r (get_tokens_from_input row)).2 = none) →
      next_items env tr (rows.length + extra) r
        = some (rows.map (fun row => some (populate env tr r (get_tokens_from_input row)).1)
                  ++ List.replicate extra none,
                { r with Source := [] }) := by
  induction rows with
  | nil =>
    intro r hs _
    have hr : { r with Source := [] } = r := by cases r; simp_all
    simp only [List.length_nil, Nat.zero_add, List.map_nil, List.nil_append, hr]
    exact next_items_exhausted env tr extra r hs
  | cons row rest ih =>
    intro r hs hrows
    obtain ⟨hne, hmagic, hreq, hpop⟩ := hrows row (List.mem_cons_self _ _)
    cases ht : get_tokens_from_input row with
    | nil => simp [ht] at hne
    | cons first more =>
      rw [ht] at hmagic hreq hpop
      have hfirst : ¬ (first = env.PointFileMagicString ∧ r.IgnoreHeader = false) := by
        intro hc
        apply hmagic
        simp [hc.1]
      have hnotice : ¬ (first = env.PointFileMagicString ∧ r.IgnoreHeader = true) := by
        intro hc
        apply hmagic
        simp [hc.1]
      have hbody := next_item_body_data env tr (required_num_tokens tr r) r row none []
        first more ht hfirst hreq
      cases hp : populate env tr r (first :: more) with
      | mk p e =>
        rw [hp] at hpop hbody
        simp only at hpop
        subst hpop
        simp only [hnotice, if_false, List.append_nil] at hbody
        have hnext : next_item env tr r = some (Outcome.returned (some p) (advance r) []) := by
          rw [next_item_unfold env tr r row rest hs, hbody]
        have hcount : (row :: rest).length + extra = (rest.length + extra) + 1 := by
          simp only [List.length_cons]; omega
        rw [hcount]
        unfold next_items
        simp only [hnext]
        have hrest := ih (advance r) (by simp [advance, hs]) (by
          intro row1 hmem
          exact hrows row1 (List.mem_cons_of_mem _ hmem))
        rw [hrest]
        simp only [List.map_cons, List.cons_append, ht, hp]
        rfl

/-- C2 as stated fails: the reader `reader_both_coordinates_from_column_0`
has fixed column assignments and its only row `1.0` is non-empty, is not a
header and populates successfully (both coordinates come from column 0), yet
the row has one token where the required count is two, so the first call of
`next_item` passes it over and returns no point. -/
theorem populating_row_below_required_count_is_skipped :
    (∀ row ∈ reader_both_coordinates_from_column_0.Source,
        (get_tokens_from_input row).head? ≠ none ∧
        (get_tokens_from_input row).head? ≠ some example_env.PointFileMagicString ∧
        (populate example_env trajectory_point_2d reader_both_coordinates_from_column_0
          (get_tokens_from_input row)).2 = none) ∧
    required_num_tokens trajectory_point_2d reader_both_coordinates_from_column_0 = 2 ∧
    next_items example_env trajectory_point_2d 1 reader_both_coordinates_from_column_0
      = some ([none], { reader_both_coordinates_from_column_0 with Source := [] }) := by
  decide

/-- C2, amended: for a reader whose input consists of rows that are
non-empty, are not headers, have at least the required number of tokens and
populate successfully, `Source.length + extra` successive calls of
`next_item` return exactly one point per row, in input order, the i-th
being the point populated from the i-th row, followed by no point on each
of the `extra` later calls; the input is then exhausted and the reader is
otherwise unchanged. -/
theorem next_item_yields_one_point_per_populating_row {C T : Type} (env : Env C T)
    (tr : PointTraits) (r : PointFromTokensReader) (extra : Nat)
    (hrows : ∀ row ∈ r.Source,
        (get_tokens_from_input row).head? ≠ none ∧
        (get_tokens_from_input row).head? ≠ some env.PointFileMagicString ∧
        required_num_tokens tr r ≤ (get_tokens_from_input row).length ∧
        (populate env tr r (get_tokens_from_input row)).2 = none) :
    next_items env tr (r.Source.length + extra) r
      = some (r.Source.map (fun row => some (populate env tr r (get_tokens_from_input row)).1)
                ++ List.replicate extra none,
              { r with Source := [] }) :=
  next_items_of_populating_rows env tr extra r.Source r rfl hrows

/-- C2, amended, at a concrete input: two rows for a reader with coordinate
columns 0 and 1, read by four calls. -/
theorem next_item_yields_one_point_per_populating_row_witness :
    (∀ row ∈ (reader_xy [["1.0", "2.0"], ["3.0", "4.0"]]).Source,
        (get_tokens_from_input row).head? ≠ none ∧
        (get_tokens_from_input row).head? ≠ some example_env.PointFileMagicString ∧
        required_num_tokens trajectory_point_2d (reader_xy [["1.0", "2.0"], ["3.0", "4.0"]])
          ≤ (get_tokens_from_input row).length ∧
        (populate example_env trajectory_point_2d (reader_xy [["1.0", "2.0"], ["3.0", "4.0"]])
          (get_tokens_from_input row)).2 = none) ∧
    next_items example_env trajectory_point_2d
        ((reader_xy [["1.0", "2.0"], ["3.0", "4.0"]]).Source.length + 2)
        (reader_xy [["1.0", "2.0"], ["3.0", "4.0"]])
      = some ((reader_xy [["1.0", "2.0"], ["3.0", "4.0"]]).Source.map
                (fun row => some (populate example_env trajectory_point_2d
                  (reader_xy [["1.0", "2.0"], ["3.0", "4.0"]]) (get_tokens_from_input row)).1)
                ++ List.replicate 2 none,
              { reader_xy [["1.0", "2.0"], ["3.0", "4.0"]] with Source := [] }) :=
  ⟨by decide,
   next_item_yields_one_point_per_populating_row example_env trajectory_point_2d
     (reader_xy [["1.0", "2.0"], ["3.0", "4.0"]]) 2 (by decide)⟩

/-! ## The required token count -/

theorem size_t_decrement_pos (n : Nat) (h0 : 0 < n) (h1 : n < 2 ^ 64) :
    size_t_decrement n = n - 1 := by
  unfold size_t_decrement
  omega

theorem foldl_decrement_unassigned (entries : List (Int × Int)) :
    ∀ (n : Nat), entries.countP (fun entry => decide (entry.2 = -1)) ≤ n → n < 2 ^ 64 →
      entries.foldl (fun n entry => if entry.2 = -1 then size_t_decrement n else n) n
        = n - entries.countP (fun entry => decide (entry.2 = -1)) := by
  induction entries with
  | nil => intro n _ _; simp
  | cons entry rest ih =>
    intro n hle hlt
    simp only [List.foldl_cons]
    by_cases hc : entry.2 = -1
    · simp only [hc, if_true]
      rw [List.countP_cons_of_pos _ _ (by simp [hc])] at hle ⊢
      have hpos : 0 < n := by omega
      rw [size_t_decrement_pos n hpos hlt]
      rw [ih (n - 1) (by omega) (by omega)]
      omega
    · simp only [hc, if_false]
      rw [List.countP_cons_of_neg _ _ (by simp [hc])] at hle ⊢
      exact ih n hle hlt

theorem countP_assigned_add_unassigned (entries : List (Int × Int)) :
    entries.countP (fun entry => decide (entry.2 ≠ -1))
      + entries.countP (fun entry => decide (entry.2 = -1)) = entries.length := by
  induction entries with
  | nil => rfl
  | cons entry rest ih =>
    by_cases hc : entry.2 = -1
    · rw [List.countP_cons_of_neg _ _ (by simp [hc]), List.countP_cons_of_pos _ _ (by simp [hc])]
      simp only [List.length_cons]
      omega
    · rw [List.countP_cons_of_pos _ _ (by simp [hc]), List.countP_cons_of_neg _ _ (by simp [hc])]
      simp only [List.length_cons]
      omega

/-- C3 as stated fails: for bare two-dimensional points read by
`reader_of_base_points_with_both_columns` (object-id column 0 and timestamp
column 1 assigned, two coordinates, no properties) `next_item` requires 2
tokens, while the count of the specification is 4: an assigned object-id or
timestamp column adds nothing for a point type without that capability. -/
theorem required_count_of_base_points_ignores_assigned_columns :
    required_num_tokens base_point_2d reader_of_base_points_with_both_columns = 2 ∧
    required_token_count_as_specified reader_of_base_points_with_both_columns = 4 := by
  decide

/-- C3, amended: whenever each of the object-id and timestamp capabilities
is either possessed by the point type or has its column assigned (and the
two maps are of a size a `std::size_t` can count), the token count that
`next_item` requires is the number of coordinate assignments whose column
is not `-1`, plus the number of property assignments, plus 1 if the point
type has object ids and the object-id column is assigned, plus 1 if the
point type has timestamps and the timestamp column is assigned. -/
theorem required_num_tokens_counts_assigned_slots (tr : PointTraits)
    (r : PointFromTokensReader)
    (hsize : r.CoordinateMap.length + r.FieldMap.length + 2 < 2 ^ 64)
    (hobject : tr.has_object_id = true ∨ r.ObjectIdColumn ≠ -1)
    (htime : tr.has_timestamp = true ∨ r.TimestampColumn ≠ -1) :
    required_num_tokens tr r
      = r.CoordinateMap.countP (fun entry => decide (entry.2 ≠ -1))
        + r.FieldMap.length
        + (if tr.has_object_id = true ∧ r.ObjectIdColumn ≠ -1 then 1 else 0)
        + (if tr.has_timestamp = true ∧ r.TimestampColumn ≠ -1 then 1 else 0) := by
  have hsplit := countP_assigned_add_unassigned r.CoordinateMap
  have hobj : tr.has_object_id.toNat ≤ 1 := by cases tr.has_object_id <;> simp
  have htim : tr.has_timestamp.toNat ≤ 1 := by cases tr.has_timestamp <;> simp
  have hstart : (r.CoordinateMap.length + r.FieldMap.length
      + tr.has_object_id.toNat + tr.has_timestamp.toNat) % 2 ^ 64
      = r.CoordinateMap.length + r.FieldMap.length
        + tr.has_object_id.toNat + tr.has_timestamp.toNat :=
    Nat.mod_eq_of_lt (by omega)
  have hfold := foldl_decrement_unassigned r.CoordinateMap
    (r.CoordinateMap.length + r.FieldMap.length
      + tr.has_object_id.toNat + tr.has_timestamp.toNat) (by omega) (by omega)
  unfold required_num_tokens
  simp only [hstart, hfold]
  clear hfold hstart
  rw [← hsplit]
  generalize List.countP (fun entry => decide (entry.2 = -1)) r.CoordinateMap = unassigned
    at hsplit hsize ⊢
  generalize List.countP (fun entry => decide (entry.2 ≠ -1)) r.CoordinateMap = assigned
    at hsplit hsize ⊢
  generalize r.FieldMap.length = fields at hsize ⊢
  by_cases hoc : r.ObjectIdColumn = -1 <;> by_cases htc : r.TimestampColumn = -1
  · have ho1 : tr.has_object_id = true := by
      rcases hobject with h | h
      · exact h
      · exact absurd hoc h
    have ht1 : tr.has_timestamp = true := by
      rcases htime with h | h
      · exact h
      · exact absurd htc h
    simp only [hoc, htc, ho1, ht1, if_true, Bool.toNat_true, ne_eq, not_true_eq_false,
      and_false, if_false]
    simp only [size_t_decrement]
    omega
  · have ho1 : tr.has_object_id = true := by
      rcases hobject with h | h
      · exact h
      · exact absurd hoc h
    simp only [hoc, htc, ho1, if_true, if_false, Bool.toNat_true, ne_eq, not_true_eq_false,
      and_false, not_false_eq_true, and_true]
    simp only [size_t_decrement]
    cases tr.has_timestamp
    · simp only [Bool.toNat_false, Bool.false_eq_true, if_false]; omega
    · simp only [Bool.toNat_true, if_true]; omega
  · have ht1 : tr.has_timestamp = true := by
      rcases htime with h | h
      · exact h
      · exact absurd htc h
    simp only [hoc, htc, ht1, if_true, if_false, Bool.toNat_true, ne_eq, not_true_eq_false,
      and_false, not_false_eq_true, and_true]
    simp only [size_t_decrement]
    cases tr.has_object_id
    · simp only [Bool.toNat_false, Bool.false_eq_true, if_false]; omega
    · simp only [Bool.toNat_true, if_true]; omega
  · simp only [hoc, htc, if_false, ne_eq, not_false_eq_true, and_true]
    cases tr.has_object_id <;> cases tr.has_timestamp <;>
      simp only [Bool.toNat_false, Bool.toNat_true, Bool.false_eq_true, if_false, if_true] <;>
      omega

/-- C3, amended, at a concrete input: a reader for trajectory points with
coordinates 0 and 1 in columns 0 and 1 and neither the object-id nor the
timestamp column assigned requires two tokens. -/
theorem required_num_tokens_counts_assigned_slots_witness :
    ((reader_xy []).CoordinateMap.length + (reader_xy []).FieldMap.length + 2 < 2 ^ 64 ∧
      (trajectory_point_2d.has_object_id = true ∨ (reader_xy []).ObjectIdColumn ≠ -1) ∧
      (trajectory_point_2d.has_timestamp = true ∨ (reader_xy []).TimestampColumn ≠ -1)) ∧
    required_num_tokens trajectory_point_2d (reader_xy [])
      = (reader_xy []).CoordinateMap.countP (fun entry => decide (entry.2 ≠ -1))
        + (reader_xy []).FieldMap.length
        + (if trajectory_point_2d.has_object_id = true ∧ (reader_xy []).ObjectIdColumn ≠ -1
           then 1 else 0)
        + (if trajectory_point_2d.has_timestamp = true ∧ (reader_xy []).TimestampColumn ≠ -1
           then 1 else 0) :=
  ⟨by decide,
   required_num_tokens_counts_assigned_slots trajectory_point_2d (reader_xy [])
     (by decide) (by decide) (by decide)⟩

/-! ## Rows whose population fails -/

/-- C4, evaluated on the code: a point built from a row whose population
failed is returned.  With warnings disabled, the row `1.0`, empty token
fails with `EmptyCoordinateError` for coordinate 1 and `next_item` returns
the half-populated point (coordinate 0 set to 1.0); with warnings enabled,
the row `1.0, x` read with coordinate 1 assigned to the missing column 5 fails
with `std::out_of_range` and `next_item` again returns the half-populated
point.  In both cases the failed row is the only row of the input. -/
theorem next_item_returns_point_of_failed_row :
    (populate example_env trajectory_point_2d
        (set_warnings_enabled (reader_xy [["1.0", ""]]) false) ["1.0", ""]).2
      = some (Raised.EmptyCoordinateError 1) ∧
    next_item example_env trajectory_point_2d
        (set_warnings_enabled (reader_xy [["1.0", ""]]) false)
      = some (Outcome.returned
          (some { coordinates := [⟨1, 0⟩, ⟨0, 0⟩], object_id := "", timestamp := 0,
                  properties := [] })
          (set_warnings_enabled (reader_xy []) false) []) ∧
    (populate example_env trajectory_point_2d
        (reader_with_far_column [["1.0", "x"]]) ["1.0", "x"]).2
      = some Raised.out_of_range ∧
    next_item example_env trajectory_point_2d (reader_with_far_column [["1.0", "x"]])
      = some (Outcome.returned
          (some { coordinates := [⟨1, 0⟩, ⟨0, 0⟩], object_id := "", timestamp := 0,
                  properties := [] })
          (reader_with_far_column []) [Message.warning_exception Raised.out_of_range]) := by
  decide

/-- C5, evaluated on the code: with coordinate 1 assigned the column `-1`,
coordinate population of the row `1.0, 2.0` raises `std::out_of_range` (the
access `tokens.at(column)` comes before the test for `-1`), and a reader
over the two rows `1.0, 2.0` and `3.0, 4.0` never returns a fully built
point: its first call ends at the end of input with the point left over from
the second failed row, its second call returns no point. -/
theorem unassigned_coordinate_raises_out_of_range :
    populate_coordinates_from_tokens example_env (reader_with_unassigned_coordinate [])
        ["1.0", "2.0"] (new_point example_env trajectory_point_2d)
      = ({ coordinates := [⟨1, 0⟩, ⟨0, 0⟩], object_id := "", timestamp := 0, properties := [] },
         some Raised.out_of_range) ∧
    next_items example_env trajectory_point_2d 2
        (reader_with_unassigned_coordinate [["1.0", "2.0"], ["3.0", "4.0"]])
      = some ([some { coordinates := [⟨3, 0⟩, ⟨0, 0⟩], object_id := "", timestamp := 0,
                      properties := [] },
               none],
              reader_with_unassigned_coordinate []) := by
  decide

/-! ## Configuration from a header -/

/-- C6, evaluated on the code: a header that declares a timestamp but no
object id leaves the timestamp column at 1, not 0, while coordinate 0 is
assigned to column 1 as well. -/
theorem header_with_timestamp_only_puts_timestamp_in_column_1 :
    table_after_header example_env trajectory_point_2d
        (PointFromTokensReader.create [] example_converter) header_timestamp
      = some ([(0, 1), (1, 2)], [], -1, 1) := by
  decide

/-- C8, evaluated on the code: the table after the header `header_plain`
(no object id, no timestamp) depends on the state before it.  From a fresh
reader both special columns are unassigned; from a reader on which the
object-id and timestamp columns were assigned (by the caller, or by an
earlier header that declared them), they keep their old values 0 and 1. -/
theorem header_without_object_id_keeps_old_columns :
    table_after_header example_env trajectory_point_2d
        (PointFromTokensReader.create [] example_converter) header_plain
      = some ([(0, 0), (1, 1)], [], -1, -1) ∧
    table_after_header example_env trajectory_point_2d
        (set_timestamp_column
          (set_object_id_column (PointFromTokensReader.create [] example_converter) 0) 1)
        header_plain
      = some ([(0, 0), (1, 1)], [], 0, 1) :=
  ⟨by decide, by decide⟩

/-! ## Maps: what an assignment changes -/

theorem int_map_find_assign {V : Type} (key other : Int) (value : V) (m : List (Int × V)) :
    int_map_find other (int_map_assign key value m)
      = if other = key then some value else int_map_find other m := by
  induction m with
  | nil => simp [int_map_assign, int_map_find]
  | cons entry rest ih =>
    obtain ⟨k, v⟩ := entry
    unfold int_map_assign
    by_cases h1 : key < k
    · simp [h1, int_map_find]
    · by_cases h2 : key = k
      · subst h2
        simp only [h1, if_false, if_true, int_map_find]
        split <;> rfl
      · simp only [h1, h2, if_false, int_map_find, ih]
        by_cases h3 : other = k
        · have h4 : other ≠ key := fun h => h2 (h ▸ h3)
          have h5 : ¬ k = key := fun h => h2 h.symm
          simp [h3, h5]
        · simp [h3]

theorem int_map_length_assign {V : Type} (key : Int) (value : V) (m : List (Int × V))
    (h : int_map_find key m = none) :
    (int_map_assign key value m).length = m.length + 1 := by
  induction m with
  | nil => simp [int_map_assign]
  | cons entry rest ih =>
    obtain ⟨k, v⟩ := entry
    unfold int_map_assign
    unfold int_map_find at h
    by_cases h2 : key = k
    · simp [h2] at h
    · simp only [h2, if_false] at h
      by_cases h1 : key < k
      · simp [h1]
      · simp [h1, h2, ih h]

theorem string_map_find_assign {V : Type} (key other : String) (value : V)
    (m : List (String × V)) :
    string_map_find other (string_map_assign key value m)
      = if other = key then some value else string_map_find other m := by
  induction m with
  | nil => simp [string_map_assign, string_map_find]
  | cons entry rest ih =>
    obtain ⟨k, v⟩ := entry
    unfold string_map_assign
    by_cases h1 : string_less key k = true
    · simp [h1, string_map_find]
    · by_cases h2 : key = k
      · subst h2
        simp only [h1, if_false, if_true, string_map_find]
        split <;> rfl
      · simp only [h1, h2, if_false, string_map_find, ih]
        by_cases h3 : other = k
        · have h4 : other ≠ key := fun h => h2 (h ▸ h3)
          have h5 : ¬ k = key := fun h => h2 h.symm
          simp [h3, h5]
        · simp [h3]

theorem string_map_length_assign {V : Type} (key : String) (value : V)
    (m : List (String × V)) (h : string_map_find key m = none) :
    (string_map_assign key value m).length = m.length + 1 := by
  induction m with
  | nil => simp [string_map_assign]
  | cons entry rest ih =>
    obtain ⟨k, v⟩ := entry
    unfold string_map_assign
    unfold string_map_find at h
    by_cases h2 : key = k
    · simp [h2] at h
    · simp only [h2, if_false] at h
      by_cases h1 : string_less key k = true
      · simp [h1]
      · simp [h1, h2, ih h]

theorem to_int_of_lt (n : Nat) (h : n < 2 ^ 31) : to_int n = (n : Int) := by
  unfold to_int
  have h1 : n % 2 ^ 32 = n := Nat.mod_eq_of_lt (by omega)
  rw [h1]
  rw [if_pos h]

/-! ## The layout a header produces -/

theorem coordinate_loop_layout (first : Nat) (n : Nat) (hfit : first + n ≤ 2 ^ 31) :
    (∀ k : Int,
      int_map_find k ((List.range n).foldl
          (fun (m : List (Int × Int)) (d : Nat) =>
            int_map_assign (to_int d) (to_int ((first + d) % 2 ^ 64)) m) [])
        = if 0 ≤ k ∧ k < (n : Int) then some ((first : Int) + k) else none) ∧
    ((List.range n).foldl
        (fun (m : List (Int × Int)) (d : Nat) =>
          int_map_assign (to_int d) (to_int ((first + d) % 2 ^ 64)) m) []).length = n := by
  induction n with
  | zero =>
    constructor
    · intro k
      have hk : ¬ (0 ≤ k ∧ k < ((0 : Nat) : Int)) := by omega
      simp only [List.range_zero, List.foldl_nil, int_map_find, hk, if_false]
    · rfl
  | succ n ih =>
    obtain ⟨ihfind, ihlen⟩ := ih (by omega)
    have hkey : to_int n = (n : Int) := to_int_of_lt n (by omega)
    have hmod : (first + n) % 2 ^ 64 = first + n := Nat.mod_eq_of_lt (by omega)
    have hcol : to_int ((first + n) % 2 ^ 64) = ((first + n : Nat) : Int) := by
      rw [hmod]
      exact to_int_of_lt _ (by omega)
    simp only [List.range_succ, List.foldl_append, List.foldl_cons, List.foldl_nil]
    constructor
    · intro k
      rw [int_map_find_assign, ihfind k, hkey, hcol]
      by_cases hk : k = (n : Int)
      · subst hk
        have h1 : 0 ≤ (n : Int) ∧ (n : Int) < ((n + 1 : Nat) : Int) := by omega
        simp only [if_true, h1]
        congr 1
      · simp only [hk, if_false]
        by_cases h2 : 0 ≤ k ∧ k < (n : Int)
        · have h3 : 0 ≤ k ∧ k < ((n + 1 : Nat) : Int) := by omega
          simp only [h2, h3, and_self, if_true]
        · have h3 : ¬ (0 ≤ k ∧ k < ((n + 1 : Nat) : Int)) := by omega
          simp only [h2, h3, if_false]
    · rw [int_map_length_assign, ihlen]
      rw [ihfind, hkey]
      have h1 : ¬ (0 ≤ (n : Int) ∧ (n : Int) < (n : Int)) := by omega
      simp only [h1, if_false]

theorem field_loop_layout (names : List String) (kinds : List PropertyUnderlyingType)
    (first : Nat) (hnodup : names.Nodup) (hlen : names.length = kinds.length)
    (hfit : first + names.length ≤ 2 ^ 64) (n : Nat) (hn : n ≤ names.length) :
    (∀ (i : Nat) (name : String) (kind : PropertyUnderlyingType), i < n →
      names[i]? = some name → kinds[i]? = some kind →
      string_map_find name ((List.range n).foldl
          (fun (m : List (String × ColumnTypeAssignment)) (i : Nat) =>
            match names[i]?, kinds[i]? with
            | some property_name, some property_type =>
              string_map_assign property_name
                ⟨((first + i) % 2 ^ 64 : Nat), property_type⟩ m
            | _, _ => m) [])
        = some ⟨((first + i : Nat) : Int), kind⟩) ∧
    (∀ (name : String), (∀ i, i < n → names[i]? ≠ some name) →
      string_map_find name ((List.range n).foldl
          (fun (m : List (String × ColumnTypeAssignment)) (i : Nat) =>
            match names[i]?, kinds[i]? with
            | some property_name, some property_type =>
              string_map_assign property_name
                ⟨((first + i) % 2 ^ 64 : Nat), property_type⟩ m
            | _, _ => m) [])
        = none) ∧
    ((List.range n).foldl
        (fun (m : List (String × ColumnTypeAssignment)) (i : Nat) =>
          match names[i]?, kinds[i]? with
          | some property_name, some property_type =>
            string_map_assign property_name
              ⟨((first + i) % 2 ^ 64 : Nat), property_type⟩ m
          | _, _ => m) []).length = n := by
  induction n with
  | zero =>
    refine ⟨?_, ?_, rfl⟩
    · intro i name kind hi; omega
    · intro name _; rfl
  | succ n ih =>
    obtain ⟨ihsome, ihnone, ihlen⟩ := ih (by omega)
    have hn1 : n < names.length := by omega
    have hn2 : n < kinds.length := by omega
    have hname : names[n]? = some names[n] := List.getElem?_eq_getElem hn1
    have hkind : kinds[n]? = some kinds[n] := List.getElem?_eq_getElem hn2
    have hmod : (first + n) % 2 ^ 64 = first + n := Nat.mod_eq_of_lt (by omega)
    have hdistinct : ∀ i, i < n → names[i]? ≠ some names[n] := by
      intro i hi heq
      have := (List.nodup_iff_getElem?_ne_getElem?.mp hnodup) i n hi hn1
      rw [heq, hname] at this
      exact this rfl
    simp only [List.range_succ, List.foldl_append, List.foldl_cons, List.foldl_nil, hname, hkind,
      hmod]
    refine ⟨?_, ?_, ?_⟩
    · intro i name kind hi hnm hkd
      rw [string_map_find_assign]
      by_cases hin : i = n
      · subst hin
        rw [hname] at hnm
        rw [hkind] at hkd
        injection hnm with hnm
        injection hkd with hkd
        subst hnm
        subst hkd
        simp only [if_true]
      · have hlt : i < n := by omega
        have hne : name ≠ names[n] := by
          intro heq
          subst heq
          exact hdistinct i hlt hnm
        simp only [hne, if_false]
        exact ihsome i name kind hlt hnm hkd
    · intro name hall
      rw [string_map_find_assign]
      have hne : name ≠ names[n] := by
        intro heq
        subst heq
        exact hall n (by omega) hname
      simp only [hne, if_false]
      exact ihnone name (fun i hi => hall i (by omega))
    · rw [string_map_length_assign, ihlen]
      exact ihnone names[n] hdistinct

/-- C7: when the header of a row parses to `header`, with distinct property
names, as many property types as names, and columns that fit an `int`,
configuring the reader from it succeeds and, with `o`/`t` equal to 1 when
the header declares an object id/a timestamp and 0 otherwise: coordinate
`d` is assigned column `o + t + d` exactly for `0 ≤ d < Dimension` and no
other coordinate is assigned; the `i`-th declared property name is assigned
column `o + t + Dimension + i` with its declared kind, and no other name is
assigned. -/
theorem configure_reader_from_header_assigns_declared_layout {C T : Type} (env : Env C T)
    (tr : PointTraits) (r : PointFromTokensReader) (tokens : List String)
    (header : PointHeader)
    (hparse : env.read_from_tokens tokens = .ok header)
    (hnodup : header.PropertyNames.Nodup)
    (hlen : header.PropertyNames.length = header.PropertyTypes.length)
    (hfit : header.Dimension + header.PropertyNames.length + 2 ≤ 2 ^ 31) :
    ∃ r1 written, configure_reader_from_header env tr r tokens = .ok (r1, written) ∧
      (∀ d : Int, int_map_find d r1.CoordinateMap
        = if 0 ≤ d ∧ d < (header.Dimension : Int)
          then some (((header.HasObjectId.toNat + header.HasTimestamp.toNat : Nat) : Int) + d)
          else none) ∧
      r1.CoordinateMap.length = header.Dimension ∧
      (∀ (i : Nat) (name : String) (kind : PropertyUnderlyingType),
        header.PropertyNames[i]? = some name → header.PropertyTypes[i]? = some kind →
        string_map_find name r1.FieldMap
          = some ⟨((header.HasObjectId.toNat + header.HasTimestamp.toNat
                    + header.Dimension + i : Nat) : Int), kind⟩) ∧
      (∀ name : String, name ∉ header.PropertyNames →
        string_map_find name r1.FieldMap = none) ∧
      r1.FieldMap.length = header.PropertyNames.length := by
  have ho : header.HasObjectId.toNat ≤ 1 := by cases header.HasObjectId <;> simp
  have ht : header.HasTimestamp.toNat ≤ 1 := by cases header.HasTimestamp <;> simp
  have hfirst : (header.HasObjectId.toNat + header.HasTimestamp.toNat) % 2 ^ 64
      = header.HasObjectId.toNat + header.HasTimestamp.toNat := Nat.mod_eq_of_lt (by omega)
  have hprop : (header.HasObjectId.toNat + header.HasTimestamp.toNat + header.Dimension) % 2 ^ 64
      = header.HasObjectId.toNat + header.HasTimestamp.toNat + header.Dimension :=
    Nat.mod_eq_of_lt (by omega)
  obtain ⟨hcfind, hclen⟩ := coordinate_loop_layout
    (header.HasObjectId.toNat + header.HasTimestamp.toNat) header.Dimension (by omega)
  obtain ⟨hfsome, hfnone, hflen⟩ := field_loop_layout header.PropertyNames header.PropertyTypes
    (header.HasObjectId.toNat + header.HasTimestamp.toNat + header.Dimension)
    hnodup hlen (by omega) header.PropertyNames.length (Nat.le_refl _)
  unfold configure_reader_from_header
  rw [hparse]
  refine ⟨_, _, rfl, ?_, ?_, ?_, ?_, ?_⟩
  · intro d
    simp only [configure_field_assignments, configure_coordinate_assignments, hfirst]
    exact hcfind d
  · simp only [configure_field_assignments, configure_coordinate_assignments, hfirst]
    exact hclen
  · intro i name kind hnm hkd
    simp only [configure_field_assignments, hprop]
    have hi : i < header.PropertyNames.length := by
      rcases List.getElem?_eq_some.mp hnm with ⟨h, _⟩
      exact h
    exact hfsome i name kind hi hnm hkd
  · intro name hmem
    simp only [configure_field_assignments, hprop]
    apply hfnone name
    intro i _ heq
    exact hmem (List.mem_iff_getElem?.mpr ⟨i, heq⟩)
  · simp only [configure_field_assignments, hprop]
    exact hflen

/-- C7 at a concrete input: the header `header_named` of the concrete
environment (dimension 2, object id, no timestamp, one string property). -/
theorem configure_reader_from_header_assigns_declared_layout_witness :
    (example_env.read_from_tokens header_named
        = .ok { Dimension := 2, HasObjectId := true, HasTimestamp := false,
                PropertyNames := ["name"],
                PropertyTypes := [PropertyUnderlyingType.TYPE_STRING] } ∧
      ["name"].Nodup ∧
      ["name"].length = [PropertyUnderlyingType.TYPE_STRING].length ∧
      2 + ["name"].length + 2 ≤ 2 ^ 31) ∧
    ∃ r1 written,
      configure_reader_from_header example_env trajectory_point_2d
        (PointFromTokensReader.create [] example_converter) header_named = .ok (r1, written) ∧
      (∀ d : Int, int_map_find d r1.CoordinateMap
        = if 0 ≤ d ∧ d < ((2 : Nat) : Int) then some (((1 + 0 : Nat) : Int) + d) else none) ∧
      r1.CoordinateMap.length = 2 ∧
      (∀ (i : Nat) (name : String) (kind : PropertyUnderlyingType),
        ["name"][i]? = some name → [PropertyUnderlyingType.TYPE_STRING][i]? = some kind →
        string_map_find name r1.FieldMap = some ⟨((1 + 0 + 2 + i : Nat) : Int), kind⟩) ∧
      (∀ name : String, name ∉ ["name"] → string_map_find name r1.FieldMap = none) ∧
      r1.FieldMap.length = 1 :=
  ⟨⟨by rfl, by decide, by decide, by decide⟩,
   configure_reader_from_header_assigns_declared_layout example_env trajectory_point_2d
    (PointFromTokensReader.create [] example_converter) header_named
    { Dimension := 2, HasObjectId := true, HasTimestamp := false,
      PropertyNames := ["name"], PropertyTypes := [PropertyUnderlyingType.TYPE_STRING] }
    (by rfl) (by decide) (by decide) (by decide)⟩

/-! ## The concrete scenario of the specification -/

/-- C9: for two-dimensional trajectory points (object id, timestamp and
properties supported), a fresh reader whose input is a header row that
parses to dimension 2, object id, no timestamp and the single string
property `name`, followed by the row `obj1, 1.0, 2.0, Alice`, returns on its
first call the point with object id `obj1`, coordinates the values of `1.0`
and `2.0`, the string property `name = Alice` and the default timestamp, and
returns no point on every later call.  (The sentinel is not `obj1` and the
null marker is not `Alice`.) -/
theorem scenario_object_id_coordinates_name {C T : Type} (env : Env C T)
    (converter : PropertyConverter) (header_row : List String) (c1 c2 : C) (extra : Nat)
    (hmagic : (get_tokens_from_input header_row).head? = some env.PointFileMagicString)
    (hparse : env.read_from_tokens (get_tokens_from_input header_row)
      = .ok { Dimension := 2, HasObjectId := true, HasTimestamp := false,
              PropertyNames := ["name"],
              PropertyTypes := [PropertyUnderlyingType.TYPE_STRING] })
    (hsentinel : env.PointFileMagicString ≠ "obj1")
    (hnull : converter.null_value ≠ "Alice")
    (h1 : env.lexical_cast_coordinate "1.0" = some c1)
    (h2 : env.lexical_cast_coordinate "2.0" = some c2) :
    next_items env trajectory_point_2d (1 + extra)
        (PointFromTokensReader.create [header_row, ["obj1", "1.0", "2.0", "Alice"]] converter)
      = some (some { coordinates := [c1, c2], object_id := "obj1",
                     timestamp := env.default_timestamp,
                     properties := [("name", PropertyValue.string "Alice")] }
                :: List.replicate extra none,
              { CoordinateMap := [(0, 1), (1, 2)],
                FieldMap := [("name", ⟨3, PropertyUnderlyingType.TYPE_STRING⟩)],
                Source := [], ObjectIdColumn := 0, TimestampColumn := -1,
                IgnoreHeader := false, WarningsEnabled := true,
                PropertyReadWrite := converter }) := by
  cases ht : get_tokens_from_input header_row with
  | nil => simp [ht] at hmagic
  | cons first more =>
    rw [ht] at hmagic hparse
    simp only [List.head?_cons, Option.some.injEq] at hmagic
    subst hmagic
    have hreq : required_num_tokens trajectory_point_2d
        (PointFromTokensReader.create [header_row, ["obj1", "1.0", "2.0", "Alice"]] converter)
        = 0 := by
      simp [required_num_tokens, PointFromTokensReader.create, trajectory_point_2d,
        size_t_decrement]
    have hcfg : configure_reader_from_header env trajectory_point_2d
        (PointFromTokensReader.create [header_row, ["obj1", "1.0", "2.0", "Alice"]] converter)
        (env.PointFileMagicString :: more)
        = .ok ({ CoordinateMap := [(0, 1), (1, 2)],
                 FieldMap := [("name", ⟨3, PropertyUnderlyingType.TYPE_STRING⟩)],
                 Source := [header_row, ["obj1", "1.0", "2.0", "Alice"]],
                 ObjectIdColumn := 0, TimestampColumn := -1,
                 IgnoreHeader := false, WarningsEnabled := true,
                 PropertyReadWrite := converter }, []) := by
      unfold configure_reader_from_header
      rw [hparse]
      rfl
    have hbody1 : next_item_body env trajectory_point_2d 0
        (PointFromTokensReader.create [header_row, ["obj1", "1.0", "2.0", "Alice"]] converter)
        header_row none []
        = Step.continue_
            { CoordinateMap := [(0, 1), (1, 2)],
              FieldMap := [("name", ⟨3, PropertyUnderlyingType.TYPE_STRING⟩)],
              Source := [["obj1", "1.0", "2.0", "Alice"]],
              ObjectIdColumn := 0, TimestampColumn := -1,
              IgnoreHeader := false, WarningsEnabled := true,
              PropertyReadWrite := converter } none [] := by
      unfold next_item_body
      simp only [ht, hcfg]
      simp [PointFromTokensReader.create, advance]
    have htokens : get_tokens_from_input ["obj1", "1.0", "2.0", "Alice"]
        = ["obj1", "1.0", "2.0", "Alice"] := by decide
    have hpop : populate env trajectory_point_2d
        { CoordinateMap := [(0, 1), (1, 2)],
          FieldMap := [("name", ⟨3, PropertyUnderlyingType.TYPE_STRING⟩)],
          Source := [["obj1", "1.0", "2.0", "Alice"]],
          ObjectIdColumn := 0, TimestampColumn := -1,
          IgnoreHeader := false, WarningsEnabled := true,
          PropertyReadWrite := converter }
        ["obj1", "1.0", "2.0", "Alice"]
        = ({ coordinates := [c1, c2], object_id := "obj1",
             timestamp := env.default_timestamp,
             properties := [("name", PropertyValue.string "Alice")] }, none) := by
      have hnull1 : ¬ "Alice" = converter.null_value := fun h => hnull h.symm
      simp [hnull1, populate, populate_coordinates_from_tokens, populate_coordinates_loop,
        populate_coordinate, vector_at, h1, h2, Point.set_coordinate, new_point,
        trajectory_point_2d, populate_properties_from_tokens, set_properties,
        set_properties_loop, set_property_from_token, Point.set_property, string_map_assign,
        set_object_id, set_timestamp]
    have hsentinel1 : ¬ ("obj1" = env.PointFileMagicString ∧ false = false) :=
      fun h => hsentinel h.1.symm
    have hbody2 := next_item_body_data env trajectory_point_2d 0
        { CoordinateMap := [(0, 1), (1, 2)],
          FieldMap := [("name", ⟨3, PropertyUnderlyingType.TYPE_STRING⟩)],
          Source := [["obj1", "1.0", "2.0", "Alice"]],
          ObjectIdColumn := 0, TimestampColumn := -1,
          IgnoreHeader := false, WarningsEnabled := true,
          PropertyReadWrite := converter }
        ["obj1", "1.0", "2.0", "Alice"] none [] "obj1" ["1.0", "2.0", "Alice"]
        htokens hsentinel1 (Nat.zero_le _)
    rw [hpop] at hbody2
    simp only [Bool.false_eq_true, and_false, if_false, List.append_nil] at hbody2
    have hnext : next_item env trajectory_point_2d
        (PointFromTokensReader.create [header_row, ["obj1", "1.0", "2.0", "Alice"]] converter)
        = some (Outcome.returned
            (some { coordinates := [c1, c2], object_id := "obj1",
                    timestamp := env.default_timestamp,
                    properties := [("name", PropertyValue.string "Alice")] })
            { CoordinateMap := [(0, 1), (1, 2)],
              FieldMap := [("name", ⟨3, PropertyUnderlyingType.TYPE_STRING⟩)],
              Source := [], ObjectIdColumn := 0, TimestampColumn := -1,
              IgnoreHeader := false, WarningsEnabled := true,
              PropertyReadWrite := converter } []) := by
      rw [next_item_unfold env trajectory_point_2d _ header_row
        [["obj1", "1.0", "2.0", "Alice"]] rfl, hreq, hbody1]
      simp only [List.length_cons, List.length_nil]
      rw [next_item_loop]
      simp only [hbody2]
      rfl
    rw [Nat.add_comm 1 extra]
    unfold next_items
    simp only [hnext]
    rw [next_items_exhausted env trajectory_point_2d extra _ rfl]


/-- C9 at a concrete input: the concrete environment, whose sentinel is
`*P*` and whose null marker is empty, with the header row `header_named`. -/
theorem scenario_object_id_coordinates_name_witness :
    ((get_tokens_from_input header_named).head? = some example_env.PointFileMagicString ∧
      example_env.read_from_tokens (get_tokens_from_input header_named)
        = .ok { Dimension := 2, HasObjectId := true, HasTimestamp := false,
                PropertyNames := ["name"],
                PropertyTypes := [PropertyUnderlyingType.TYPE_STRING] } ∧
      example_env.PointFileMagicString ≠ "obj1" ∧
      example_converter.null_value ≠ "Alice" ∧
      example_env.lexical_cast_coordinate "1.0" = some ⟨1, 0⟩ ∧
      example_env.lexical_cast_coordinate "2.0" = some ⟨2, 0⟩) ∧
    next_items example_env trajectory_point_2d (1 + 1)
        (PointFromTokensReader.create [header_named, ["obj1", "1.0", "2.0", "Alice"]]
          example_converter)
      = some (some { coordinates := [⟨1, 0⟩, ⟨2, 0⟩], object_id := "obj1",
                     timestamp := example_env.default_timestamp,
                     properties := [("name", PropertyValue.string "Alice")] }
                :: List.replicate 1 none,
              { CoordinateMap := [(0, 1), (1, 2)],
                FieldMap := [("name", ⟨3, PropertyUnderlyingType.TYPE_STRING⟩)],
                Source := [], ObjectIdColumn := 0, TimestampColumn := -1,
                IgnoreHeader := false, WarningsEnabled := true,
                PropertyReadWrite := example_converter }) :=
  ⟨⟨by decide, by rfl, by decide, by decide, by decide, by decide⟩,
   scenario_object_id_coordinates_name example_env example_converter header_named
     ⟨1, 0⟩ ⟨2, 0⟩ 1 (by decide) (by rfl) (by decide) (by decide) (by decide) (by decide)⟩

/-! ## Rows with too few tokens -/

/-- C10: when the row under the cursor is non-empty, is not a header and
has fewer tokens than the required token count of the reader, the pass of
the loop over it neither returns nor aborts: it goes back to the loop test
with `NextPoint` as it was (no point is built from the row) and with the
reader unchanged except that exactly this one row is gone from the input
(so the column assignment table is as before), writing one warning if
warnings are enabled; and the whole call of `next_item` returns what it
returns on the input without that row, after that warning. -/
theorem next_item_passes_over_short_row {C T : Type} (env : Env C T) (tr : PointTraits)
    (r : PointFromTokensReader) (row : List String) (rest : List (List String))
    (NextPoint : Option (Point C T)) (out : List Message)
    (first : String) (more : List String)
    (hs : r.Source = row :: rest)
    (ht : get_tokens_from_input row = first :: more)
    (hh : first ≠ env.PointFileMagicString)
    (hshort : (first :: more).length < required_num_tokens tr r) :
    next_item_body env tr (required_num_tokens tr r) r row NextPoint out
      = Step.continue_ { r with Source := rest } NextPoint
          (out ++ (if r.WarningsEnabled = true
                   then [Message.not_enough_tokens (required_num_tokens tr r)
                          (first :: more).length]
                   else [])) ∧
    next_item env tr r
      = (next_item env tr { r with Source := rest }).map
          (Outcome.after (if r.WarningsEnabled = true
                   then [Message.not_enough_tokens (required_num_tokens tr r)
                          (first :: more).length]
                   else [])) := by
  have hnot : ¬ (first = env.PointFileMagicString ∧ r.IgnoreHeader = false) :=
    fun h => hh h.1
  have hnotice : ¬ (first = env.PointFileMagicString ∧ r.IgnoreHeader = true) :=
    fun h => hh h.1
  have hadv : advance r = { r with Source := rest } := by
    unfold advance
    rw [hs]
    rfl
  have hbody : ∀ (np : Option (Point C T)) (o : List Message),
      next_item_body env tr (required_num_tokens tr r) r row np o
        = Step.continue_ { r with Source := rest } np
            (o ++ (if r.WarningsEnabled = true
                   then [Message.not_enough_tokens (required_num_tokens tr r)
                          (first :: more).length]
                   else [])) := by
    intro np o
    rw [next_item_body_short env tr (required_num_tokens tr r) r row np o first more ht hnot
      hshort, hadv]
    simp only [hnotice, if_false, List.nil_append]
  refine ⟨hbody NextPoint out, ?_⟩
  rw [next_item_unfold env tr r row rest hs, hbody none []]
  simp only [List.nil_append]
  have hloop := next_item_loop_after env tr (required_num_tokens tr r) (rest.length + 1)
    { r with Source := rest } none
    (if r.WarningsEnabled = true
     then [Message.not_enough_tokens (required_num_tokens tr r) (first :: more).length]
     else []) []
  rw [List.append_nil] at hloop
  rw [hloop]
  rfl

/-- C10 at a concrete input: a reader with coordinate columns 0 and 1 (two
tokens required) whose input is the one-token row `1.0` followed by the row
`3.0, 4.0`. -/
theorem next_item_passes_over_short_row_witness :
    ((reader_xy [["1.0"], ["3.0", "4.0"]]).Source = ["1.0"] :: [["3.0", "4.0"]] ∧
      get_tokens_from_input ["1.0"] = "1.0" :: [] ∧
      "1.0" ≠ example_env.PointFileMagicString ∧
      ("1.0" :: ([] : List String)).length
        < required_num_tokens trajectory_point_2d (reader_xy [["1.0"], ["3.0", "4.0"]])) ∧
    (next_item_body example_env trajectory_point_2d
        (required_num_tokens trajectory_point_2d (reader_xy [["1.0"], ["3.0", "4.0"]]))
        (reader_xy [["1.0"], ["3.0", "4.0"]]) ["1.0"] none []
      = Step.continue_
          { reader_xy [["1.0"], ["3.0", "4.0"]] with Source := [["3.0", "4.0"]] } none
          ([] ++ (if (reader_xy [["1.0"], ["3.0", "4.0"]]).WarningsEnabled = true
                   then [Message.not_enough_tokens
                          (required_num_tokens trajectory_point_2d
                            (reader_xy [["1.0"], ["3.0", "4.0"]]))
                          ("1.0" :: ([] : List String)).length]
                   else [])) ∧
    next_item example_env trajectory_point_2d (reader_xy [["1.0"], ["3.0", "4.0"]])
      = (next_item example_env trajectory_point_2d
          { reader_xy [["1.0"], ["3.0", "4.0"]] with Source := [["3.0", "4.0"]] }).map
          (Outcome.after (if (reader_xy [["1.0"], ["3.0", "4.0"]]).WarningsEnabled = true
                   then [Message.not_enough_tokens
                          (required_num_tokens trajectory_point_2d
                            (reader_xy [["1.0"], ["3.0", "4.0"]]))
                          ("1.0" :: ([] : List String)).length]
                   else []))) :=
  ⟨⟨by decide, by decide, by decide, by decide⟩,
   next_item_passes_over_short_row example_env trajectory_point_2d
     (reader_xy [["1.0"], ["3.0", "4.0"]]) ["1.0"] [["3.0", "4.0"]] none [] "1.0" []
     (by decide) (by decide) (by decide) (by decide)⟩

/-! ## Header processing disabled -/

/-- A row that is not taken as a header is handled in one way, whatever its
first token: it is checked against the required token count and then
populated; a sentinel in front of it only adds the notice. -/
theorem next_item_body_not_header {C T : Type} (env : Env C T) (tr : PointTraits)
    (required : Nat) (r : PointFromTokensReader) (row : List String)
    (NextPoint : Option (Point C T)) (out : List Message)
    (first : String) (more : List String)
    (ht : get_tokens_from_input row = first :: more)
    (hh : ¬ (first = env.PointFileMagicString ∧ r.IgnoreHeader = false)) :
    next_item_body env tr required r row NextPoint out =
      if required ≤ (first :: more).length then
        match populate env tr r (first :: more) with
        | (p, none) =>
          Step.return_ p (advance r)
            (out ++ (if first = env.PointFileMagicString ∧ r.IgnoreHeader = true
                     then [Message.header_ignored] else []))
        | (p, some e) =>
          next_item_catch e r (some p)
            (out ++ (if first = env.PointFileMagicString ∧ r.IgnoreHeader = true
                     then [Message.header_ignored] else []))
      else
        Step.continue_ (advance r) NextPoint
          (out ++ ((if first = env.PointFileMagicString ∧ r.IgnoreHeader = true
                     then [Message.header_ignored] else [])
            ++ (if r.WarningsEnabled = true
                then [Message.not_enough_tokens required (first :: more).length] else []))) := by
  by_cases hreq : required ≤ (first :: more).length
  · rw [if_pos hreq]
    exact next_item_body_data env tr required r row NextPoint out first more ht hh hreq
  · rw [if_neg hreq]
    exact next_item_body_short env tr required r row NextPoint out first more ht hh
      (by omega)

/-- With header processing disabled, a pass of the loop hands on the reader
it was given with one row less, whatever the row. -/
theorem next_item_body_ignore_header {C T : Type} (env : Env C T) (tr : PointTraits)
    (required : Nat) (r r1 : PointFromTokensReader) (row : List String)
    (NextPoint : Option (Point C T)) (out : List Message)
    (hignore : r.IgnoreHeader = true)
    (h : (next_item_body env tr required r row NextPoint out).reader = some r1) :
    r1 = advance r := by
  cases ht : get_tokens_from_input row with
  | nil =>
    unfold next_item_body at h
    simp only [ht, Step.reader, Option.some.injEq] at h
    exact h.symm
  | cons first more =>
    have hh : ¬ (first = env.PointFileMagicString ∧ r.IgnoreHeader = false) := by
      rw [hignore]
      simp
    rw [next_item_body_not_header env tr required r row NextPoint out first more ht hh] at h
    split at h
    · cases hp : populate env tr r (first :: more) with
      | mk p e =>
        rw [hp] at h
        cases e with
        | none =>
          simp only [Step.reader, Option.some.injEq] at h
          exact h.symm
        | some e =>
          simp only at h
          rcases next_item_catch_reader e r (some p)
            (out ++ (if first = env.PointFileMagicString ∧ r.IgnoreHeader = true
                     then [Message.header_ignored] else [])) with h0 | h0
          · rw [h0] at h
            cases h
          · rw [h0] at h
            injection h with h
            exact h.symm
    · simp only [Step.reader, Option.some.injEq] at h
      exact h.symm

theorem next_item_loop_ignore_header {C T : Type} (env : Env C T) (tr : PointTraits)
    (required : Nat) (fuel : Nat) :
    ∀ (r : PointFromTokensReader) (NextPoint : Option (Point C T)) (out : List Message)
      (NextPoint1 : Option (Point C T)) (r1 : PointFromTokensReader) (out1 : List Message),
      r.IgnoreHeader = true →
      next_item_loop env tr required fuel r NextPoint out
        = some (Outcome.returned NextPoint1 r1 out1) →
      r1 = { r with Source := r1.Source } := by
  induction fuel with
  | zero =>
    intro r np out np1 r1 out1 _ h
    simp [next_item_loop] at h
  | succ n ih =>
    intro r np out np1 r1 out1 hignore h
    unfold next_item_loop at h
    cases hs : r.Source with
    | nil =>
      rw [hs] at h
      simp only [Option.some.injEq, Outcome.returned.injEq] at h
      obtain ⟨_, hr, _⟩ := h
      subst hr
      cases r
      simp_all
    | cons row rest =>
      rw [hs] at h
      simp only at h
      cases hb : next_item_body env tr required r row np out with
      | continue_ r2 np2 out2 =>
        rw [hb] at h
        simp only at h
        have hr2 : r2 = advance r :=
          next_item_body_ignore_header env tr required r r2 row np out hignore
            (by rw [hb]; rfl)
        have h2 := ih r2 np2 out2 np1 r1 out1 (by rw [hr2]; exact hignore) h
        rw [h2, hr2]
        rfl
      | return_ p r2 out2 =>
        rw [hb] at h
        simp only [Option.some.injEq, Outcome.returned.injEq] at h
        obtain ⟨_, hr, _⟩ := h
        have hr2 : r2 = advance r :=
          next_item_body_ignore_header env tr required r r2 row np out hignore
            (by rw [hb]; rfl)
        rw [← hr, hr2]
        rfl
      | abort =>
        rw [hb] at h
        simp at h

/-- C11: with header processing disabled (`IgnoreHeader` true) a call of
`next_item` comes to an end and, when it returns, the reader it leaves
differs from the reader it was given in the cursor alone: coordinate map,
property map, object-id column and timestamp column are as before.  A row
that starts with the sentinel takes the path of every other data row (the
test against the required token count, then population); the sentinel only
adds the notice that a header was found. -/
theorem next_item_with_ignore_header_keeps_table {C T : Type} (env : Env C T)
    (tr : PointTraits) (r : PointFromTokensReader) (hignore : r.IgnoreHeader = true) :
    (∃ outcome, next_item env tr r = some outcome ∧
      ∀ NextPoint r1 out, outcome = Outcome.returned NextPoint r1 out →
        r1 = { r with Source := r1.Source } ∧
        r1.CoordinateMap = r.CoordinateMap ∧ r1.FieldMap = r.FieldMap ∧
        r1.ObjectIdColumn = r.ObjectIdColumn ∧ r1.TimestampColumn = r.TimestampColumn) ∧
    (∀ (required : Nat) (row : List String) (NextPoint : Option (Point C T))
        (out : List Message) (first : String) (more : List String),
      get_tokens_from_input row = first :: more →
      next_item_body env tr required r row NextPoint out =
        if required ≤ (first :: more).length then
          match populate env tr r (first :: more) with
          | (p, none) =>
            Step.return_ p (advance r)
              (out ++ (if first = env.PointFileMagicString ∧ r.IgnoreHeader = true
                       then [Message.header_ignored] else []))
          | (p, some e) =>
            next_item_catch e r (some p)
              (out ++ (if first = env.PointFileMagicString ∧ r.IgnoreHeader = true
                       then [Message.header_ignored] else []))
        else
          Step.continue_ (advance r) NextPoint
            (out ++ ((if first = env.PointFileMagicString ∧ r.IgnoreHeader = true
                       then [Message.header_ignored] else [])
              ++ (if r.WarningsEnabled = true
                  then [Message.not_enough_tokens required (first :: more).length]
                  else [])))) := by
  constructor
  · obtain ⟨outcome, ho⟩ := next_item_loop_fuel env tr (required_num_tokens tr r)
      (r.Source.length + 1) r none [] (Nat.lt_succ_self _)
    refine ⟨outcome, ho, ?_⟩
    intro np r1 out heq
    subst heq
    have h := next_item_loop_ignore_header env tr (required_num_tokens tr r)
      (r.Source.length + 1) r none [] np r1 out hignore ho
    refine ⟨h, ?_, ?_, ?_, ?_⟩ <;> (rw [h])
  · intro required row np out first more ht
    have hh : ¬ (first = env.PointFileMagicString ∧ r.IgnoreHeader = false) := by
      rw [hignore]
      simp
    exact next_item_body_not_header env tr required r row np out first more ht hh

/-- C11 at a concrete input: a reader with header processing disabled whose
input is a header record followed by a data row. -/
theorem next_item_with_ignore_header_keeps_table_witness :
    (set_ignore_header (reader_xy [header_plain, ["1.0", "2.0"]]) true).IgnoreHeader = true ∧
    ((∃ outcome, next_item example_env trajectory_point_2d
          (set_ignore_header (reader_xy [header_plain, ["1.0", "2.0"]]) true) = some outcome ∧
      ∀ NextPoint r1 out, outcome = Outcome.returned NextPoint r1 out →
        r1 = { set_ignore_header (reader_xy [header_plain, ["1.0", "2.0"]]) true
               with Source := r1.Source } ∧
        r1.CoordinateMap
          = (set_ignore_header (reader_xy [header_plain, ["1.0", "2.0"]]) true).CoordinateMap ∧
        r1.FieldMap
          = (set_ignore_header (reader_xy [header_plain, ["1.0", "2.0"]]) true).FieldMap ∧
        r1.ObjectIdColumn
          = (set_ignore_header (reader_xy [header_plain, ["1.0", "2.0"]]) true).ObjectIdColumn ∧
        r1.TimestampColumn
          = (set_ignore_header (reader_xy [header_plain, ["1.0", "2.0"]]) true).TimestampColumn)) :=
  ⟨by decide,
   (next_item_with_ignore_header_keeps_table example_env trajectory_point_2d
     (set_ignore_header (reader_xy [header_plain, ["1.0", "2.0"]]) true) (by decide)).1⟩

/-! ## Assigning a coordinate column -/

/-- C12 as stated fails: on a fresh reader for two-dimensional trajectory
points `set_coordinate_column(5, 0)` and `set_coordinate_column(-3, 0)` are
accepted and change the coordinate assignments; the index outside the point
only shows when a row is processed, where `next_item` writes coordinate 5 of
a two-dimensional point. -/
theorem set_coordinate_column_accepts_index_outside_point :
    (set_coordinate_column (PointFromTokensReader.create [["1.0"]] example_converter)
        5 0).CoordinateMap
      = [(5, 0)] ∧
    (set_coordinate_column (PointFromTokensReader.create [["1.0"]] example_converter)
        (-3) 0).CoordinateMap
      = [(-3, 0)] ∧
    (PointFromTokensReader.create [["1.0"]] example_converter).CoordinateMap = [] ∧
    next_item example_env trajectory_point_2d
        (set_coordinate_column (PointFromTokensReader.create [["1.0"]] example_converter) 5 0)
      = some Outcome.undefined := by
  decide

/-- C12, amended: `set_coordinate_column` accepts every coordinate index,
inside the point or not, without signalling anything: afterwards the
coordinate has a column, `coordinate_column` returns the column given, the
columns of all other coordinates are as before, and nothing else in the
reader has changed. -/
theorem set_coordinate_column_records_any_index (r : PointFromTokensReader)
    (coordinate column : Int) :
    has_coordinate_column (set_coordinate_column r coordinate column) coordinate = true ∧
    coordinate_column (set_coordinate_column r coordinate column) coordinate = column ∧
    (∀ other : Int, other ≠ coordinate →
      coordinate_column (set_coordinate_column r coordinate column) other
        = coordinate_column r other) ∧
    set_coordinate_column r coordinate column
      = { r with CoordinateMap := (set_coordinate_column r coordinate column).CoordinateMap } := by
  refine ⟨?_, ?_, ?_, rfl⟩
  · simp [has_coordinate_column, set_coordinate_column, int_map_find_assign]
  · simp [coordinate_column, set_coordinate_column, int_map_find_assign]
  · intro other hne
    simp [coordinate_column, set_coordinate_column, int_map_find_assign, hne]

/-! ## A header that does not parse -/

theorem next_item_catch_caught {C T : Type} (e : Raised) (r : PointFromTokensReader)
    (NextPoint : Option (Point C T)) (out : List Message)
    (hcaught : e.handler ≠ Handler.uncaught) :
    ∃ NextPoint1 written,
      next_item_catch e r NextPoint out = Step.continue_ (advance r) NextPoint1 (out ++ written) ∧
      (NextPoint1 = NextPoint ∨ NextPoint1 = none) := by
  unfold next_item_catch
  cases hh : e.handler with
  | catch_ParseError =>
    cases r.WarningsEnabled
    · exact ⟨NextPoint, [], by simp, Or.inl rfl⟩
    · exact ⟨none, [Message.error_parse e], by simp, Or.inr rfl⟩
  | catch_bad_lexical_cast =>
    cases r.WarningsEnabled
    · exact ⟨NextPoint, [], by simp, Or.inl rfl⟩
    · exact ⟨NextPoint, [Message.warning_cast e], by simp, Or.inl rfl⟩
  | catch_std_exception =>
    cases r.WarningsEnabled
    · exact ⟨NextPoint, [], by simp, Or.inl rfl⟩
    · exact ⟨NextPoint, [Message.warning_exception e], by simp, Or.inl rfl⟩
  | uncaught => exact absurd hh hcaught

/-- C13: when header processing is enabled, the row under the cursor starts
with the sentinel and parsing it as a header throws an exception, the pass
of the loop over it goes back to the loop test with the reader unchanged
except that exactly this one row is gone from the input (coordinate map,
property map, object-id and timestamp column as before); and the whole call
of `next_item` returns what it returns on the input without that row, after
whatever the handler wrote: scanning goes on with the rows that follow. -/
theorem next_item_skips_header_that_fails_to_parse {C T : Type} (env : Env C T)
    (tr : PointTraits) (r : PointFromTokensReader) (row : List String)
    (rest : List (List String)) (NextPoint : Option (Point C T)) (out : List Message)
    (more : List String) (e : Raised)
    (hs : r.Source = row :: rest)
    (ht : get_tokens_from_input row = env.PointFileMagicString :: more)
    (hignore : r.IgnoreHeader = false)
    (hparse : env.read_from_tokens (env.PointFileMagicString :: more) = .error e)
    (hcaught : e.handler ≠ Handler.uncaught) :
    (∃ NextPoint1 written,
      next_item_body env tr (required_num_tokens tr r) r row NextPoint out
        = Step.continue_ { r with Source := rest } NextPoint1 (out ++ written) ∧
      (NextPoint1 = NextPoint ∨ NextPoint1 = none)) ∧
    (∃ written,
      next_item env tr r
        = (next_item env tr { r with Source := rest }).map (Outcome.after written)) := by
  have hadv : advance r = { r with Source := rest } := by
    unfold advance
    rw [hs]
    rfl
  have hbody : ∀ (np : Option (Point C T)) (o : List Message),
      next_item_body env tr (required_num_tokens tr r) r row np o
        = next_item_catch e r np o := by
    intro np o
    unfold next_item_body
    simp only [ht, hignore, and_true, Bool.false_eq_true, and_false, if_false, if_true]
    unfold configure_reader_from_header
    rw [hparse]
  constructor
  · obtain ⟨np1, written, hc, hnp⟩ := next_item_catch_caught e r NextPoint out hcaught
    exact ⟨np1, written, by rw [hbody, hc, hadv], hnp⟩
  · obtain ⟨np1, written, hc, hnp⟩ :=
      next_item_catch_caught e r (none : Option (Point C T)) [] hcaught
    have hnone : np1 = none := by
      rcases hnp with h | h <;> exact h
    subst hnone
    refine ⟨written, ?_⟩
    rw [next_item_unfold env tr r row rest hs, hbody, hc, hadv]
    simp only [List.nil_append]
    have hloop := next_item_loop_after env tr (required_num_tokens tr r) (rest.length + 1)
      { r with Source := rest } none written []
    rw [List.append_nil] at hloop
    rw [hloop]
    rfl

/-- C13 at a concrete input: a fresh reader of the concrete environment
whose input is the malformed header record `*P*, bad` followed by a data
row. -/
theorem next_item_skips_header_that_fails_to_parse_witness :
    ((PointFromTokensReader.create [["*P*", "bad"], ["1.0", "2.0"]] example_converter).Source
        = ["*P*", "bad"] :: [["1.0", "2.0"]] ∧
      get_tokens_from_input ["*P*", "bad"] = example_env.PointFileMagicString :: ["bad"] ∧
      (PointFromTokensReader.create [["*P*", "bad"], ["1.0", "2.0"]]
        example_converter).IgnoreHeader = false ∧
      example_env.read_from_tokens (example_env.PointFileMagicString :: ["bad"])
        = .error (Raised.ParseError "header") ∧
      (Raised.ParseError "header").handler ≠ Handler.uncaught) ∧
    ((∃ NextPoint1 written,
      next_item_body example_env trajectory_point_2d
          (required_num_tokens trajectory_point_2d
            (PointFromTokensReader.create [["*P*", "bad"], ["1.0", "2.0"]] example_converter))
          (PointFromTokensReader.create [["*P*", "bad"], ["1.0", "2.0"]] example_converter)
          ["*P*", "bad"] none []
        = Step.continue_
            { PointFromTokensReader.create [["*P*", "bad"], ["1.0", "2.0"]] example_converter
              with Source := [["1.0", "2.0"]] }
            NextPoint1 ([] ++ written) ∧
      (NextPoint1 = none ∨ NextPoint1 = none)) ∧
    (∃ written,
      next_item example_env trajectory_point_2d
          (PointFromTokensReader.create [["*P*", "bad"], ["1.0", "2.0"]] example_converter)
        = (next_item example_env trajectory_point_2d
            { PointFromTokensReader.create [["*P*", "bad"], ["1.0", "2.0"]] example_converter
              with Source := [["1.0", "2.0"]] }).map (Outcome.after written))) :=
  ⟨⟨by decide, by decide, by decide, by rfl, by decide⟩,
   next_item_skips_header_that_fails_to_parse example_env trajectory_point_2d
     (PointFromTokensReader.create [["*P*", "bad"], ["1.0", "2.0"]] example_converter)
     ["*P*", "bad"] [["1.0", "2.0"]] none [] ["bad"] (Raised.ParseError "header")
     (by decide) (by decide) (by decide) (by rfl) (by decide)⟩

/-! ## Coordinate population, entry by entry -/

theorem vector_at_negative (tokens : List String) (column : Int) (h : column < 0) :
    vector_at tokens column = none := by
  unfold vector_at
  have h1 : ¬ 0 ≤ column := by omega
  rw [if_neg h1]

/-- What it takes for one coordinate to be populated without an exception:
the column is not `-1`, the token at the column exists, is not empty and
converts, the coordinate index lies inside the point, and the point is
changed at that coordinate alone. -/
theorem populate_coordinate_ok {C T : Type} (env : Env C T) (tokens : List String)
    (point updated : Point C T) (coord column : Int)
    (h : populate_coordinate env tokens point coord column = (updated, none)) :
    column ≠ -1 ∧ ∃ token value, vector_at tokens column = some token ∧ token ≠ "" ∧
      env.lexical_cast_coordinate token = some value ∧
      0 ≤ coord ∧ coord.toNat < point.coordinates.length ∧
      updated = { point with coordinates := point.coordinates.set coord.toNat value } := by
  unfold populate_coordinate at h
  cases hv : vector_at tokens column with
  | none => simp [hv] at h
  | some token =>
    have hcol : column ≠ -1 := by
      intro hc
      rw [hc, vector_at_negative tokens (-1) (by omega)] at hv
      cases hv
    simp only [hv] at h
    by_cases hempty : token = ""
    · simp [hempty] at h
    · simp only [hempty, hcol, if_false] at h
      cases hcast : env.lexical_cast_coordinate token with
      | none => simp [hcast] at h
      | some value =>
        simp only [hcast] at h
        unfold Point.set_coordinate at h
        by_cases hin : 0 ≤ coord ∧ coord.toNat < point.coordinates.length
        · simp only [hin, and_self, if_true, Prod.mk.injEq, and_true] at h
          exact ⟨hcol, token, value, rfl, hempty, hcast, hin.1, hin.2, h.symm⟩
        · simp [hin] at h

theorem populate_coordinate_length {C T : Type} (env : Env C T) (tokens : List String)
    (point : Point C T) (coord column : Int) :
    (populate_coordinate env tokens point coord column).1.coordinates.length
      = point.coordinates.length := by
  unfold populate_coordinate
  cases vector_at tokens column with
  | none => rfl
  | some token =>
    simp only
    split
    · rfl
    · split
      · rfl
      · cases env.lexical_cast_coordinate token with
        | none => rfl
        | some value =>
          simp only
          cases hs : point.set_coordinate coord value with
          | none => rfl
          | some updated =>
            simp only
            unfold Point.set_coordinate at hs
            split at hs
            · injection hs with hs
              subst hs
              simp
            · cases hs

theorem populate_coordinate_caught {C T : Type} (env : Env C T) (tokens : List String)
    (point : Point C T) (coord column : Int)
    (hin : 0 ≤ coord ∧ coord.toNat < point.coordinates.length) (e : Raised)
    (h : (populate_coordinate env tokens point coord column).2 = some e) :
    e.handler ≠ Handler.uncaught := by
  unfold populate_coordinate at h
  cases hv : vector_at tokens column with
  | none =>
    simp only [hv, Option.some.injEq] at h
    subst h
    simp [Raised.handler]
  | some token =>
    simp only [hv] at h
    by_cases hempty : token = ""
    · simp only [hempty, if_true, Option.some.injEq] at h
      subst h
      simp [Raised.handler]
    · simp only [hempty, if_false] at h
      by_cases hcol : column = -1
      · simp [hcol] at h
      · simp only [hcol, if_false] at h
        cases hcast : env.lexical_cast_coordinate token with
        | none =>
          simp only [hcast, Option.some.injEq] at h
          subst h
          simp [Raised.handler]
        | some value =>
          simp only [hcast] at h
          unfold Point.set_coordinate at h
          simp [hin] at h

theorem populate_coordinates_loop_append {C T : Type} (env : Env C T) (tokens : List String)
    (before after : List (Int × Int)) :
    ∀ (point : Point C T),
      populate_coordinates_loop env tokens (before ++ after) point
        = match populate_coordinates_loop env tokens before point with
          | (updated, none) => populate_coordinates_loop env tokens after updated
          | (updated, some e) => (updated, some e) := by
  induction before with
  | nil => intro point; rfl
  | cons entry rest ih =>
    intro point
    obtain ⟨coord, column⟩ := entry
    simp only [List.cons_append, populate_coordinates_loop]
    cases hp : populate_coordinate env tokens point coord column with
    | mk updated e =>
      cases e with
      | none => exact ih updated
      | some e => rfl

theorem populate_coordinates_loop_length {C T : Type} (env : Env C T) (tokens : List String)
    (entries : List (Int × Int)) :
    ∀ (point : Point C T),
      (populate_coordinates_loop env tokens entries point).1.coordinates.length
        = point.coordinates.length := by
  induction entries with
  | nil => intro point; rfl
  | cons entry rest ih =>
    intro point
    obtain ⟨coord, column⟩ := entry
    simp only [populate_coordinates_loop]
    have hlen := populate_coordinate_length env tokens point coord column
    cases hp : populate_coordinate env tokens point coord column with
    | mk updated e =>
      rw [hp] at hlen
      cases e with
      | none =>
        simp only
        rw [ih updated]
        exact hlen
      | some e => exact hlen

theorem populate_coordinates_loop_caught {C T : Type} (env : Env C T) (tokens : List String)
    (entries : List (Int × Int)) :
    ∀ (point : Point C T),
      (∀ entry ∈ entries, 0 ≤ entry.1 ∧ entry.1.toNat < point.coordinates.length) →
      ∀ e, (populate_coordinates_loop env tokens entries point).2 = some e →
        e.handler ≠ Handler.uncaught := by
  induction entries with
  | nil =>
    intro point _ e h
    simp [populate_coordinates_loop] at h
  | cons entry rest ih =>
    intro point hin e h
    obtain ⟨coord, column⟩ := entry
    simp only [populate_coordinates_loop] at h
    have hlen := populate_coordinate_length env tokens point coord column
    have hc := populate_coordinate_caught env tokens point coord column
      (hin (coord, column) (List.mem_cons_self _ _))
    cases hp : populate_coordinate env tokens point coord column with
    | mk updated e1 =>
      rw [hp] at h hlen hc
      cases e1 with
      | none =>
        simp only at h
        apply ih updated _ e h
        intro entry hmem
        rw [hlen]
        exact hin entry (List.mem_cons_of_mem _ hmem)
      | some e1 =>
        simp only [Option.some.injEq] at h
        subst h
        exact hc e1 rfl

/-- A coordinate population that goes through has, entry by entry, found a
non-empty token that converts, has written the converted value to the
coordinate of the entry, and has left every coordinate without an entry as
it was. -/
theorem populate_coordinates_loop_ok {C T : Type} (env : Env C T) (tokens : List String)
    (entries : List (Int × Int)) :
    ∀ (point final : Point C T),
      (entries.map Prod.fst).Nodup →
      populate_coordinates_loop env tokens entries point = (final, none) →
      (∀ coord column, (coord, column) ∈ entries →
        column ≠ -1 ∧ ∃ token value, vector_at tokens column = some token ∧ token ≠ "" ∧
          env.lexical_cast_coordinate token = some value ∧ 0 ≤ coord ∧
          final.coordinates[coord.toNat]? = some value) ∧
      (∀ i : Nat, (∀ column, ((i : Int), column) ∉ entries) →
        final.coordinates[i]? = point.coordinates[i]?) := by
  induction entries with
  | nil =>
    intro point final _ h
    simp only [populate_coordinates_loop, Prod.mk.injEq, and_true] at h
    subst h
    exact ⟨fun _ _ hmem => absurd hmem (List.not_mem_nil _), fun _ _ => rfl⟩
  | cons entry rest ih =>
    intro point final hnodup h
    obtain ⟨coord0, column0⟩ := entry
    simp only [List.map_cons, List.nodup_cons] at hnodup
    obtain ⟨hfresh, hnodup1⟩ := hnodup
    simp only [populate_coordinates_loop] at h
    cases hp : populate_coordinate env tokens point coord0 column0 with
    | mk updated e1 =>
      rw [hp] at h
      cases e1 with
      | some e1 => simp at h
      | none =>
        simp only at h
        obtain ⟨hcol, token, value, hv, hne, hcast, hpos, hlt, hupd⟩ :=
          populate_coordinate_ok env tokens point updated coord0 column0 hp
        obtain ⟨ihentries, ihframe⟩ := ih updated final hnodup1 h
        have hcoord0 : ((coord0.toNat : Nat) : Int) = coord0 := Int.toNat_of_nonneg hpos
        constructor
        · intro coord column hmem
          rcases List.mem_cons.mp hmem with heq | hmem1
          · injection heq with h1 h2
            subst h1
            subst h2
            refine ⟨hcol, token, value, hv, hne, hcast, hpos, ?_⟩
            rw [ihframe coord.toNat]
            · rw [hupd]
              exact List.getElem?_set_self hlt
            · intro column1 hmem1
              apply hfresh
              rw [hcoord0] at hmem1
              exact List.mem_map.mpr ⟨(coord, column1), hmem1, rfl⟩
          · exact ihentries coord column hmem1
        · intro i hnone
          rw [ihframe i (fun column hmem => hnone column (List.mem_cons_of_mem _ hmem))]
          rw [hupd]
          apply List.getElem?_set_ne
          intro heq
          apply hnone column0
          rw [← heq, hcoord0]
          exact List.mem_cons_self _ _

/-! ## Every exception of population is one that `next_item` catches -/

theorem set_property_from_token_caught {C T : Type} (env : Env C T)
    (converter : PropertyConverter) (tokens : List String) (point : Point C T)
    (name : String) (assignment : ColumnTypeAssignment) (e : Raised)
    (h : (set_property_from_token env converter tokens point name assignment).2 = some e) :
    e.handler ≠ Handler.uncaught := by
  unfold set_property_from_token at h
  cases hv : vector_at tokens assignment.column with
  | none =>
    simp only [hv, Option.some.injEq] at h
    subst h
    simp [Raised.handler]
  | some token =>
    simp only [hv] at h
    by_cases hnull : token = converter.null_value
    · simp [hnull] at h
    · simp only [hnull, if_false] at h
      cases hk : assignment.type with
      | TYPE_REAL =>
        simp only [hk] at h
        cases hc : env.lexical_cast_coordinate token with
        | none =>
          simp only [hc, Option.some.injEq] at h
          subst h
          simp [Raised.handler]
        | some value => simp [hc] at h
      | TYPE_INTEGER =>
        simp only [hk] at h
        cases hc : env.lexical_cast_integer token with
        | none =>
          simp only [hc, Option.some.injEq] at h
          subst h
          simp [Raised.handler]
        | some value => simp [hc] at h
      | TYPE_STRING => simp [hk] at h
      | TYPE_TIMESTAMP =>
        simp only [hk] at h
        cases hc : env.timestamp_from_string converter.timestamp_input_format token with
        | none =>
          simp only [hc, Option.some.injEq] at h
          subst h
          simp [Raised.handler]
        | some value => simp [hc] at h

theorem set_properties_loop_caught {C T : Type} (env : Env C T)
    (converter : PropertyConverter) (tokens : List String)
    (field_map : List (String × ColumnTypeAssignment)) :
    ∀ (point : Point C T) (e : Raised),
      (set_properties_loop env converter tokens field_map point).2 = some e →
      e.handler ≠ Handler.uncaught := by
  induction field_map with
  | nil =>
    intro point e h
    simp [set_properties_loop] at h
  | cons entry rest ih =>
    intro point e h
    obtain ⟨name, assignment⟩ := entry
    simp only [set_properties_loop] at h
    have hc := set_property_from_token_caught env converter tokens point name assignment
    cases hp : set_property_from_token env converter tokens point name assignment with
    | mk updated e1 =>
      rw [hp] at h hc
      cases e1 with
      | none => exact ih updated e h
      | some e1 =>
        simp only [Option.some.injEq] at h
        subst h
        exact hc e1 rfl

theorem set_object_id_caught {C T : Type} (tr : PointTraits) (tokens : List String)
    (column : Int) (point : Point C T) (e : Raised)
    (h : (set_object_id tr tokens column point).2 = some e) :
    e.handler ≠ Handler.uncaught := by
  unfold set_object_id at h
  cases hb : tr.has_object_id with
  | false => simp [hb] at h
  | true =>
    simp only [hb, if_true] at h
    cases hv : vector_at tokens column with
    | none =>
      simp only [hv, Option.some.injEq] at h
      subst h
      simp [Raised.handler]
    | some token => simp [hv] at h

theorem set_timestamp_caught {C T : Type} (env : Env C T) (tr : PointTraits)
    (converter : PropertyConverter) (tokens : List String) (column : Int)
    (point : Point C T) (e : Raised)
    (h : (set_timestamp env tr converter tokens column point).2 = some e) :
    e.handler ≠ Handler.uncaught := by
  unfold set_timestamp at h
  cases hb : tr.has_timestamp with
  | false => simp [hb] at h
  | true =>
    simp only [hb, if_true] at h
    cases hv : vector_at tokens column with
    | none =>
      simp only [hv, Option.some.injEq] at h
      subst h
      simp [Raised.handler]
    | some token =>
      simp only [hv] at h
      cases hc : env.timestamp_from_string converter.timestamp_input_format token with
      | none =>
        simp only [hc, Option.some.injEq] at h
        subst h
        simp [Raised.handler]
      | some value => simp [hc] at h

theorem populate_properties_from_tokens_caught {C T : Type} (env : Env C T)
    (tr : PointTraits) (r : PointFromTokensReader) (tokens : List String)
    (point : Point C T) (e : Raised)
    (h : (populate_properties_from_tokens env tr r tokens point).2 = some e) :
    e.handler ≠ Handler.uncaught := by
  unfold populate_properties_from_tokens at h
  have h1 : ∀ e1, (set_properties env tr r.PropertyReadWrite tokens r.FieldMap point).2 = some e1 →
      e1.handler ≠ Handler.uncaught := by
    intro e1 he1
    unfold set_properties at he1
    cases hb : tr.has_properties with
    | false => simp [hb] at he1
    | true =>
      simp only [hb, if_true] at he1
      exact set_properties_loop_caught env r.PropertyReadWrite tokens r.FieldMap point e1 he1
  cases hp : set_properties env tr r.PropertyReadWrite tokens r.FieldMap point with
  | mk p1 e1 =>
    rw [hp] at h h1
    cases e1 with
    | some e1 =>
      simp only [Option.some.injEq] at h
      subst h
      exact h1 e1 rfl
    | none =>
      simp only at h
      by_cases ho : r.ObjectIdColumn = -1
      · simp only [ho, ne_eq, not_true_eq_false, if_false] at h
        by_cases ht : r.TimestampColumn = -1
        · simp [ht] at h
        · simp only [ht, not_false_eq_true, if_true] at h
          exact set_timestamp_caught env tr r.PropertyReadWrite tokens r.TimestampColumn p1 e h
      · simp only [ho, ne_eq, not_false_eq_true, if_true] at h
        have h2 := set_object_id_caught tr tokens r.ObjectIdColumn p1
        cases hq : set_object_id tr tokens r.ObjectIdColumn p1 with
        | mk p2 e2 =>
          rw [hq] at h h2
          cases e2 with
          | some e2 =>
            simp only [Option.some.injEq] at h
            subst h
            exact h2 e2 rfl
          | none =>
            simp only at h
            by_cases ht : r.TimestampColumn = -1
            · simp [ht] at h
            · simp only [ht, not_false_eq_true, if_true] at h
              exact set_timestamp_caught env tr r.PropertyReadWrite tokens
                r.TimestampColumn p2 e h

/-- When every coordinate index of the map lies inside the point, whatever
stops the population of a row is an exception that one of the `catch`
clauses of `next_item` takes. -/
theorem populate_caught {C T : Type} (env : Env C T) (tr : PointTraits)
    (r : PointFromTokensReader) (tokens : List String)
    (hkeys : ∀ entry ∈ r.CoordinateMap, 0 ≤ entry.1 ∧ entry.1 < (tr.dimension : Int))
    (e : Raised) (h : (populate env tr r tokens).2 = some e) :
    e.handler ≠ Handler.uncaught := by
  unfold populate at h
  have hin : ∀ entry ∈ r.CoordinateMap,
      0 ≤ entry.1 ∧ entry.1.toNat < (new_point env tr).coordinates.length := by
    intro entry hmem
    have := hkeys entry hmem
    simp only [new_point, List.length_replicate]
    omega
  have h1 := populate_coordinates_loop_caught env tokens r.CoordinateMap (new_point env tr) hin
  unfold populate_coordinates_from_tokens at h
  cases hp : populate_coordinates_loop env tokens r.CoordinateMap (new_point env tr) with
  | mk p1 e1 =>
    rw [hp] at h h1
    cases e1 with
    | some e1 =>
      simp only [Option.some.injEq] at h
      subst h
      exact h1 e1 rfl
    | none =>
      simp only at h
      exact populate_properties_from_tokens_caught env tr r tokens p1 e h

/-! ## No exception leaves `next_item` -/

theorem int_map_assign_mem {V : Type} (key : Int) (value : V) (m : List (Int × V))
    (entry : Int × V) (h : entry ∈ int_map_assign key value m) :
    entry = (key, value) ∨ entry ∈ m := by
  induction m with
  | nil =>
    simp only [int_map_assign, List.mem_singleton] at h
    exact Or.inl h
  | cons head rest ih =>
    obtain ⟨k, v⟩ := head
    unfold int_map_assign at h
    by_cases h1 : key < k
    · simp only [h1, if_true, List.mem_cons] at h
      rcases h with h | h | h
      · exact Or.inl h
      · exact Or.inr (List.mem_cons.mpr (Or.inl h))
      · exact Or.inr (List.mem_cons_of_mem _ h)
    · by_cases h2 : key = k
      · rw [if_neg h1, if_pos h2] at h
        rcases List.mem_cons.mp h with h | h
        · exact Or.inl h
        · exact Or.inr (List.mem_cons_of_mem _ h)
      · simp only [h1, h2, if_false, List.mem_cons] at h
        rcases h with h | h
        · exact Or.inr (List.mem_cons.mpr (Or.inl h))
        · rcases ih h with h3 | h3
          · exact Or.inl h3
          · exact Or.inr (List.mem_cons_of_mem _ h3)

theorem coordinate_loop_keys (first : Nat) (n : Nat) :
    ∀ entry ∈ (List.range n).foldl
        (fun (m : List (Int × Int)) (d : Nat) =>
          int_map_assign (to_int d) (to_int ((first + d) % 2 ^ 64)) m) [],
      ∃ d, d < n ∧ entry.1 = to_int d := by
  induction n with
  | zero =>
    intro entry h
    simp at h
  | succ n ih =>
    intro entry h
    simp only [List.range_succ, List.foldl_append, List.foldl_cons, List.foldl_nil] at h
    rcases int_map_assign_mem _ _ _ entry h with h1 | h1
    · exact ⟨n, by omega, by rw [h1]⟩
    · obtain ⟨d, hd, he⟩ := ih entry h1
      exact ⟨d, by omega, he⟩

theorem configure_reader_from_header_error {C T : Type} (env : Env C T) (tr : PointTraits)
    (r : PointFromTokensReader) (tokens : List String) (e : Raised)
    (h : configure_reader_from_header env tr r tokens = .error e) :
    env.read_from_tokens tokens = .error e := by
  unfold configure_reader_from_header at h
  cases hp : env.read_from_tokens tokens with
  | error e1 =>
    simp only [hp, Except.error.injEq] at h
    rw [h]
  | ok header =>
    simp [hp] at h

/-- A header whose dimension does not exceed that of the point type leaves
only coordinate indices that lie inside the point. -/
theorem configure_reader_from_header_keys {C T : Type} (env : Env C T) (tr : PointTraits)
    (r r1 : PointFromTokensReader) (tokens : List String) (written : List Message)
    (hint : tr.dimension ≤ 2 ^ 31)
    (hheader : ∀ header, env.read_from_tokens tokens = .ok header →
      header.Dimension ≤ tr.dimension)
    (h : configure_reader_from_header env tr r tokens = .ok (r1, written)) :
    ∀ entry ∈ r1.CoordinateMap, 0 ≤ entry.1 ∧ entry.1 < (tr.dimension : Int) := by
  unfold configure_reader_from_header at h
  cases hp : env.read_from_tokens tokens with
  | error e =>
    rw [hp] at h
    cases h
  | ok header =>
    have hdim := hheader header hp
    simp only [hp] at h
    injection h with h
    injection h with h1 _
    subst h1
    intro entry hmem
    simp only [configure_field_assignments, configure_coordinate_assignments] at hmem
    obtain ⟨d, hd, he⟩ := coordinate_loop_keys _ header.Dimension entry hmem
    rw [he, to_int_of_lt d (by omega)]
    omega

/-- The state in which `next_item` cannot leave the point: every coordinate
index of the map lies inside the point, and so does every coordinate index
that a header still to come would assign. -/
theorem next_item_body_safe {C T : Type} (env : Env C T) (tr : PointTraits)
    (required : Nat) (r : PointFromTokensReader) (row : List String)
    (NextPoint : Option (Point C T)) (out : List Message)
    (hint : tr.dimension ≤ 2 ^ 31)
    (hparser : ∀ e, env.read_from_tokens (get_tokens_from_input row) = .error e →
      e.handler ≠ Handler.uncaught)
    (hheader : ∀ header, env.read_from_tokens (get_tokens_from_input row) = .ok header →
      header.Dimension ≤ tr.dimension)
    (hkeys : ∀ entry ∈ r.CoordinateMap, 0 ≤ entry.1 ∧ entry.1 < (tr.dimension : Int)) :
    ∃ r1, (next_item_body env tr required r row NextPoint out).reader = some r1 ∧
      ∀ entry ∈ r1.CoordinateMap, 0 ≤ entry.1 ∧ entry.1 < (tr.dimension : Int) := by
  have hcatch : ∀ (e : Raised) (np : Option (Point C T)) (o : List Message),
      e.handler ≠ Handler.uncaught →
      ∃ r1, (next_item_catch e r np o).reader = some r1 ∧
        ∀ entry ∈ r1.CoordinateMap, 0 ≤ entry.1 ∧ entry.1 < (tr.dimension : Int) := by
    intro e np o he
    obtain ⟨np1, written, hc, _⟩ := next_item_catch_caught e r np o he
    exact ⟨advance r, by rw [hc]; rfl, hkeys⟩
  cases ht : get_tokens_from_input row with
  | nil =>
    refine ⟨advance r, ?_, hkeys⟩
    unfold next_item_body
    simp only [ht]
    rfl
  | cons first more =>
    rw [ht] at hparser hheader
    by_cases hh : first = env.PointFileMagicString ∧ r.IgnoreHeader = false
    · have hbody : next_item_body env tr required r row NextPoint out
          = match configure_reader_from_header env tr r (first :: more) with
            | .ok (configured, written) =>
              Step.continue_ (advance configured) NextPoint (out ++ written)
            | .error e => next_item_catch e r NextPoint out := by
        unfold next_item_body
        have hnotice : ¬ (first = env.PointFileMagicString ∧ r.IgnoreHeader = true) := by
          rw [hh.2]
          simp
        simp only [ht, hh.1, hh.2, and_self, if_true]
        simp
      rw [hbody]
      cases hc : configure_reader_from_header env tr r (first :: more) with
      | error e =>
        exact hcatch e NextPoint out
          (hparser e (configure_reader_from_header_error env tr r _ e hc))
      | ok pair =>
        obtain ⟨configured, written⟩ := pair
        exact ⟨advance configured, rfl,
          configure_reader_from_header_keys env tr r configured _ written hint hheader hc⟩
    · rw [next_item_body_not_header env tr required r row NextPoint out first more ht hh]
      split
      · have hpc := populate_caught env tr r (first :: more) hkeys
        cases hp : populate env tr r (first :: more) with
        | mk p e =>
          rw [hp] at hpc
          cases e with
          | none => exact ⟨advance r, rfl, hkeys⟩
          | some e => exact hcatch e (some p) _ (hpc e rfl)
      · exact ⟨advance r, rfl, hkeys⟩

theorem next_item_loop_safe {C T : Type} (env : Env C T) (tr : PointTraits)
    (required : Nat) (hint : tr.dimension ≤ 2 ^ 31) (fuel : Nat) :
    ∀ (r : PointFromTokensReader) (NextPoint : Option (Point C T)) (out : List Message),
      r.Source.length < fuel →
      (∀ row ∈ r.Source, ∀ e, env.read_from_tokens (get_tokens_from_input row) = .error e →
        e.handler ≠ Handler.uncaught) →
      (∀ row ∈ r.Source, ∀ header,
        env.read_from_tokens (get_tokens_from_input row) = .ok header →
        header.Dimension ≤ tr.dimension) →
      (∀ entry ∈ r.CoordinateMap, 0 ≤ entry.1 ∧ entry.1 < (tr.dimension : Int)) →
      ∃ NextPoint1 r1 out1,
        next_item_loop env tr required fuel r NextPoint out
          = some (Outcome.returned NextPoint1 r1 out1) ∧
        (NextPoint1 = none → r1.Source = []) ∧
        ∃ consumed, r.Source = consumed ++ r1.Source := by
  induction fuel with
  | zero => intro r np out h; omega
  | succ n ih =>
    intro r np out hfuel hparser hheader hkeys
    unfold next_item_loop
    cases hs : r.Source with
    | nil => exact ⟨np, r, out, rfl, fun _ => hs, [], by rw [hs]; rfl⟩
    | cons row rest =>
      simp only
      rw [hs] at hparser hheader hfuel
      obtain ⟨r1, hr1, hkeys1⟩ := next_item_body_safe env tr required r row np out hint
        (hparser row (List.mem_cons_self _ _)) (hheader row (List.mem_cons_self _ _)) hkeys
      have hsrc : r1.Source = rest := by
        rw [next_item_body_source env tr required r r1 row np out hr1, hs]
        rfl
      cases hb : next_item_body env tr required r row np out with
      | continue_ r2 np2 out2 =>
        rw [hb] at hr1
        simp only [Step.reader, Option.some.injEq] at hr1
        subst hr1
        simp only
        obtain ⟨np3, r3, out3, hloop, hnone, consumed, hcons⟩ := ih r2 np2 out2
          (by rw [hsrc]; simp only [List.length_cons] at hfuel; omega)
          (by rw [hsrc]; exact fun row1 hm => hparser row1 (List.mem_cons_of_mem _ hm))
          (by rw [hsrc]; exact fun row1 hm => hheader row1 (List.mem_cons_of_mem _ hm))
          hkeys1
        refine ⟨np3, r3, out3, hloop, hnone, row :: consumed, ?_⟩
        rw [← hsrc, hcons]
        rfl
      | return_ p r2 out2 =>
        rw [hb] at hr1
        simp only [Step.reader, Option.some.injEq] at hr1
        subst hr1
        refine ⟨some p, r2, out2, rfl, fun h => (by cases h), [row], ?_⟩
        rw [hsrc]
        rfl
      | abort =>
        rw [hb] at hr1
        cases hr1

theorem point_header_parse_error (sentinel : String)
    (type_of_tag : String → Option PropertyUnderlyingType) (tokens : List String) (e : Raised)
    (h : PointHeader.parse sentinel type_of_tag tokens = .error e) :
    e = Raised.ParseError "header" := by
  unfold PointHeader.parse at h
  split at h
  · split at h
    · split at h
      · cases h
      · injection h with h
        exact h.symm
    · injection h with h
      exact h.symm
  · injection h with h
    exact h.symm

/-- C14 as stated fails: on a reader for two-dimensional trajectory points
to which the caller has given a column for coordinate 2, or for coordinate
-1, `next_item` does not return with a point or with none.  The row `1.0`,
`2.0`, `3.0` has the tokens the reader requires, its tokens convert, and
population writes a coordinate that the point does not have; the row after
it is never looked at. -/
theorem next_item_with_coordinate_outside_point_does_not_return :
    (set_coordinate_column (reader_xy [["1.0", "2.0", "3.0"], ["4.0", "5.0", "6.0"]])
        2 1).CoordinateMap
      = [(0, 0), (1, 1), (2, 1)] ∧
    required_num_tokens trajectory_point_2d
        (set_coordinate_column (reader_xy [["1.0", "2.0", "3.0"], ["4.0", "5.0", "6.0"]]) 2 1)
      = 3 ∧
    (populate example_env trajectory_point_2d
        (set_coordinate_column (reader_xy [["1.0", "2.0", "3.0"], ["4.0", "5.0", "6.0"]]) 2 1)
        ["1.0", "2.0", "3.0"]).2
      = some Raised.undefined_behavior ∧
    next_item example_env trajectory_point_2d
        (set_coordinate_column (reader_xy [["1.0", "2.0", "3.0"], ["4.0", "5.0", "6.0"]]) 2 1)
      = some Outcome.undefined ∧
    next_item example_env trajectory_point_2d
        (set_coordinate_column (reader_xy [["1.0", "2.0", "3.0"], ["4.0", "5.0", "6.0"]])
          (-1) 0)
      = some Outcome.undefined := by
  decide

/-- C14, amended: let the coordinate indices of the reader lie inside the
point, and let every row of the input, taken as a header, either fail to
parse by throwing an exception or declare a dimension no larger than that of
the point type (so that nothing is ever written outside a point).  Then
`next_item` returns normally, with a point or with none, whatever the rows
hold: every exception of header parsing and of population is taken by a
`catch` clause.  And it has not stopped short: if it returns no point the
input is exhausted, and the rows still to be read are a tail of the rows it
was given. -/
theorem next_item_returns_normally {C T : Type} (env : Env C T) (tr : PointTraits)
    (r : PointFromTokensReader)
    (hint : tr.dimension ≤ 2 ^ 31)
    (hparser : ∀ row ∈ r.Source, ∀ e,
      env.read_from_tokens (get_tokens_from_input row) = .error e →
      e.handler ≠ Handler.uncaught)
    (hheader : ∀ row ∈ r.Source, ∀ header,
      env.read_from_tokens (get_tokens_from_input row) = .ok header →
      header.Dimension ≤ tr.dimension)
    (hkeys : ∀ entry ∈ r.CoordinateMap, 0 ≤ entry.1 ∧ entry.1 < (tr.dimension : Int)) :
    ∃ NextPoint r1 out,
      next_item env tr r = some (Outcome.returned NextPoint r1 out) ∧
      (NextPoint = none → r1.Source = []) ∧
      ∃ consumed, r.Source = consumed ++ r1.Source :=
  next_item_loop_safe env tr (required_num_tokens tr r) hint (r.Source.length + 1) r none []
    (Nat.lt_succ_self _) hparser hheader hkeys

/-- C14, amended, at a concrete input: a header, a row with an empty
coordinate, a
row with a word for a coordinate, a row that is too short, a malformed
header and a good row. -/
theorem next_item_returns_normally_witness :
    (trajectory_point_2d.dimension ≤ 2 ^ 31 ∧
      (∀ entry ∈ (reader_xy [header_plain, ["1.0", ""], ["x", "2.0"], ["9"], ["*P*", "bad"],
          ["3.0", "4.0"]]).CoordinateMap,
        0 ≤ entry.1 ∧ entry.1 < (trajectory_point_2d.dimension : Int))) ∧
    ∃ NextPoint r1 out,
      next_item example_env trajectory_point_2d
          (reader_xy [header_plain, ["1.0", ""], ["x", "2.0"], ["9"], ["*P*", "bad"],
            ["3.0", "4.0"]])
        = some (Outcome.returned NextPoint r1 out) ∧
      (NextPoint = none → r1.Source = []) ∧
      ∃ consumed,
        (reader_xy [header_plain, ["1.0", ""], ["x", "2.0"], ["9"], ["*P*", "bad"],
          ["3.0", "4.0"]]).Source = consumed ++ r1.Source :=
  ⟨⟨by decide, by decide⟩,
   next_item_returns_normally example_env trajectory_point_2d
    (reader_xy [header_plain, ["1.0", ""], ["x", "2.0"], ["9"], ["*P*", "bad"], ["3.0", "4.0"]])
    (by decide)
    (by
      intro row _ e h
      rw [point_header_parse_error _ _ _ e h]
      decide)
    (by
      intro row hmem header h
      simp only [reader_xy, set_coordinate_column, PointFromTokensReader.create,
        List.mem_cons, List.mem_singleton, List.not_mem_nil, or_false] at hmem
      rcases hmem with hr | hr | hr | hr | hr | hr <;> subst hr
      · have hp : example_env.read_from_tokens (get_tokens_from_input header_plain)
            = .ok { Dimension := 2, HasObjectId := false, HasTimestamp := false,
                    PropertyNames := [], PropertyTypes := [] } := by rfl
        rw [hp] at h
        injection h with h
        subst h
        decide
      · have hp : example_env.read_from_tokens (get_tokens_from_input ["1.0", ""])
            = .error (Raised.ParseError "header") := by rfl
        rw [hp] at h
        cases h
      · have hp : example_env.read_from_tokens (get_tokens_from_input ["x", "2.0"])
            = .error (Raised.ParseError "header") := by rfl
        rw [hp] at h
        cases h
      · have hp : example_env.read_from_tokens (get_tokens_from_input ["9"])
            = .error (Raised.ParseError "header") := by rfl
        rw [hp] at h
        cases h
      · have hp : example_env.read_from_tokens (get_tokens_from_input ["*P*", "bad"])
            = .error (Raised.ParseError "header") := by rfl
        rw [hp] at h
        cases h
      · have hp : example_env.read_from_tokens (get_tokens_from_input ["3.0", "4.0"])
            = .error (Raised.ParseError "header") := by rfl
        rw [hp] at h
        cases h)
    (by decide)⟩

/-! ## The coordinates of a populated point -/

theorem set_property_from_token_coordinates {C T : Type} (env : Env C T)
    (converter : PropertyConverter) (tokens : List String) (point : Point C T)
    (name : String) (assignment : ColumnTypeAssignment) :
    (set_property_from_token env converter tokens point name assignment).1.coordinates
      = point.coordinates := by
  unfold set_property_from_token
  cases vector_at tokens assignment.column with
  | none => rfl
  | some token =>
    simp only
    split
    · rfl
    · cases assignment.type with
      | TYPE_REAL =>
        simp only
        cases env.lexical_cast_coordinate token <;> rfl
      | TYPE_INTEGER =>
        simp only
        cases env.lexical_cast_integer token <;> rfl
      | TYPE_STRING => rfl
      | TYPE_TIMESTAMP =>
        simp only
        cases env.timestamp_from_string converter.timestamp_input_format token <;> rfl

theorem set_properties_loop_coordinates {C T : Type} (env : Env C T)
    (converter : PropertyConverter) (tokens : List String)
    (field_map : List (String × ColumnTypeAssignment)) :
    ∀ (point : Point C T),
      (set_properties_loop env converter tokens field_map point).1.coordinates
        = point.coordinates := by
  induction field_map with
  | nil => intro point; rfl
  | cons entry rest ih =>
    intro point
    obtain ⟨name, assignment⟩ := entry
    simp only [set_properties_loop]
    have hc := set_property_from_token_coordinates env converter tokens point name assignment
    cases hp : set_property_from_token env converter tokens point name assignment with
    | mk updated e =>
      rw [hp] at hc
      cases e with
      | none =>
        simp only
        rw [ih updated]
        exact hc
      | some e => exact hc

theorem populate_properties_from_tokens_coordinates {C T : Type} (env : Env C T)
    (tr : PointTraits) (r : PointFromTokensReader) (tokens : List String)
    (point : Point C T) :
    (populate_properties_from_tokens env tr r tokens point).1.coordinates
      = point.coordinates := by
  have h1 : (set_properties env tr r.PropertyReadWrite tokens r.FieldMap point).1.coordinates
      = point.coordinates := by
    unfold set_properties
    split
    · exact set_properties_loop_coordinates env r.PropertyReadWrite tokens r.FieldMap point
    · rfl
  have h2 : ∀ (column : Int) (p : Point C T),
      (set_object_id tr tokens column p).1.coordinates = p.coordinates := by
    intro column p
    unfold set_object_id
    split
    · cases vector_at tokens column <;> rfl
    · rfl
  have h3 : ∀ (column : Int) (p : Point C T),
      (set_timestamp env tr r.PropertyReadWrite tokens column p).1.coordinates
        = p.coordinates := by
    intro column p
    unfold set_timestamp
    split
    · cases vector_at tokens column with
      | none => rfl
      | some token =>
        simp only
        cases env.timestamp_from_string r.PropertyReadWrite.timestamp_input_format token <;> rfl
    · rfl
  unfold populate_properties_from_tokens
  cases hp : set_properties env tr r.PropertyReadWrite tokens r.FieldMap point with
  | mk p1 e1 =>
    rw [hp] at h1
    cases e1 with
    | some e1 => exact h1
    | none =>
      simp only
      by_cases ho : r.ObjectIdColumn = -1
      · simp only [ho, ne_eq, not_true_eq_false, if_false]
        split
        · rw [h3, h1]
        · exact h1
      · simp only [ho, ne_eq, not_false_eq_true, if_true]
        have h2p := h2 r.ObjectIdColumn p1
        cases hq : set_object_id tr tokens r.ObjectIdColumn p1 with
        | mk p2 e2 =>
          rw [hq] at h2p
          cases e2 with
          | some e2 =>
            simp only
            rw [h2p, h1]
          | none =>
            simp only
            split
            · rw [h3, h2p, h1]
            · rw [h2p, h1]

/-- C15: when a row populates successfully, every entry of the coordinate
map (coordinate `coord`, column `column`; the map holds one entry per
coordinate) has a column other than `-1`, the row has a token at that
column, the token converts, and the coordinate `coord` of the produced
point is the converted value; every coordinate of the point type without an
entry in the map has the default value of the point type. -/
theorem populated_point_has_parsed_coordinates {C T : Type} (env : Env C T)
    (tr : PointTraits) (r : PointFromTokensReader) (tokens : List String)
    (point : Point C T)
    (hkeys : (r.CoordinateMap.map Prod.fst).Nodup)
    (hok : populate env tr r tokens = (point, none)) :
    (∀ coord column, (coord, column) ∈ r.CoordinateMap →
      column ≠ -1 ∧ ∃ token value, vector_at tokens column = some token ∧
        env.lexical_cast_coordinate token = some value ∧ 0 ≤ coord ∧
        point.coordinates[coord.toNat]? = some value) ∧
    (∀ i : Nat, i < tr.dimension → (∀ column, ((i : Int), column) ∉ r.CoordinateMap) →
      point.coordinates[i]? = some env.default_coordinate) := by
  unfold populate populate_coordinates_from_tokens at hok
  cases hp : populate_coordinates_loop env tokens r.CoordinateMap (new_point env tr) with
  | mk p1 e1 =>
    rw [hp] at hok
    cases e1 with
    | some e1 => simp at hok
    | none =>
      simp only at hok
      have hcoords : point.coordinates = p1.coordinates := by
        have h := populate_properties_from_tokens_coordinates env tr r tokens p1
        rw [hok] at h
        exact h
      obtain ⟨hentries, hframe⟩ :=
        populate_coordinates_loop_ok env tokens r.CoordinateMap (new_point env tr) p1 hkeys hp
      constructor
      · intro coord column hmem
        obtain ⟨hcol, token, value, hv, _, hcast, hpos, hget⟩ := hentries coord column hmem
        exact ⟨hcol, token, value, hv, hcast, hpos, by rw [hcoords]; exact hget⟩
      · intro i hi hnone
        rw [hcoords, hframe i hnone]
        simp only [new_point]
        rw [List.getElem?_replicate]
        simp [hi]

/-- C15 at a concrete input: coordinate 1 of a two-dimensional point read
from column 0, coordinate 0 left without an entry. -/
theorem populated_point_has_parsed_coordinates_witness :
    (((set_coordinate_column (PointFromTokensReader.create [] example_converter)
          1 0).CoordinateMap.map Prod.fst).Nodup ∧
      populate example_env trajectory_point_2d
          (set_coordinate_column (PointFromTokensReader.create [] example_converter) 1 0)
          ["2.5"]
        = ({ coordinates := [⟨0, 0⟩, ⟨25, 1⟩], object_id := "", timestamp := 0,
             properties := [] }, none)) ∧
    ((∀ coord column, (coord, column) ∈
        (set_coordinate_column (PointFromTokensReader.create [] example_converter)
          1 0).CoordinateMap →
      column ≠ -1 ∧ ∃ token value, vector_at ["2.5"] column = some token ∧
        example_env.lexical_cast_coordinate token = some value ∧ 0 ≤ coord ∧
        ([⟨0, 0⟩, ⟨25, 1⟩] : List Decimal)[coord.toNat]? = some value) ∧
    (∀ i : Nat, i < trajectory_point_2d.dimension →
      (∀ column, ((i : Int), column) ∉
        (set_coordinate_column (PointFromTokensReader.create [] example_converter)
          1 0).CoordinateMap) →
      ([⟨0, 0⟩, ⟨25, 1⟩] : List Decimal)[i]? = some example_env.default_coordinate)) :=
  ⟨⟨by decide, by decide⟩,
   populated_point_has_parsed_coordinates example_env trajectory_point_2d
     (set_coordinate_column (PointFromTokensReader.create [] example_converter) 1 0)
     ["2.5"]
     { coordinates := [⟨0, 0⟩, ⟨25, 1⟩], object_id := "", timestamp := 0, properties := [] }
     (by decide) (by decide)⟩

/-! ## Empty and non-numeric coordinate tokens -/

/-- C16 as stated fails: with coordinates 0 and 1 in columns 0 and 1, the
row `abc`, empty token has an empty token in the column of coordinate 1, yet
coordinate population fails with the conversion error of coordinate 0, not
with an empty-coordinate error naming coordinate 1: the loop stops at the
first coordinate that fails. -/
theorem empty_token_after_bad_token_reports_the_bad_token :
    vector_at ["abc", ""] 1 = some "" ∧
    populate_coordinates_from_tokens example_env (reader_xy []) ["abc", ""]
        (new_point example_env trajectory_point_2d)
      = (new_point example_env trajectory_point_2d,
         some (Raised.LexicalCastError "coordinate 0" "abc" "double")) := by
  decide

/-- C16, amended: when the column of some entry of the coordinate map holds
the empty string, coordinate population never succeeds, whatever the other
tokens are (the empty token is not converted to any value); and when the
entries before it in the map (the coordinates of lower index) populate
without an exception, it fails with the empty-coordinate error that names
the coordinate of that entry. -/
theorem empty_coordinate_token_fails_population {C T : Type} (env : Env C T)
    (r : PointFromTokensReader) (tokens : List String) (point : Point C T)
    (coord column : Int)
    (hmem : (coord, column) ∈ r.CoordinateMap)
    (hempty : vector_at tokens column = some "") :
    (populate_coordinates_from_tokens env r tokens point).2 ≠ none ∧
    (∀ (before after : List (Int × Int)) (updated : Point C T),
      r.CoordinateMap = before ++ (coord, column) :: after →
      populate_coordinates_loop env tokens before point = (updated, none) →
      populate_coordinates_from_tokens env r tokens point
        = (updated, some (Raised.EmptyCoordinateError coord))) := by
  have hone : ∀ p : Point C T,
      populate_coordinate env tokens p coord column
        = (p, some (Raised.EmptyCoordinateError coord)) := by
    intro p
    unfold populate_coordinate
    simp [hempty]
  constructor
  · obtain ⟨before, after, hsplit⟩ := List.append_of_mem hmem
    unfold populate_coordinates_from_tokens
    rw [hsplit, populate_coordinates_loop_append]
    cases hb : populate_coordinates_loop env tokens before point with
    | mk updated e =>
      cases e with
      | some e => simp
      | none => simp [populate_coordinates_loop, hone]
  · intro before after updated hsplit hbefore
    unfold populate_coordinates_from_tokens
    rw [hsplit, populate_coordinates_loop_append, hbefore]
    simp [populate_coordinates_loop, hone]

/-- C16, amended, at a concrete input: the row `1.0`, empty token read with
coordinates 0 and 1 in columns 0 and 1. -/
theorem empty_coordinate_token_fails_population_witness :
    (((1 : Int), (1 : Int)) ∈ (reader_xy []).CoordinateMap ∧
      vector_at ["1.0", ""] 1 = some "") ∧
    ((populate_coordinates_from_tokens example_env (reader_xy []) ["1.0", ""]
        (new_point example_env trajectory_point_2d)).2 ≠ none ∧
    (∀ (before after : List (Int × Int)) (updated : Point Decimal Nat),
      (reader_xy []).CoordinateMap = before ++ (1, 1) :: after →
      populate_coordinates_loop example_env ["1.0", ""] before
          (new_point example_env trajectory_point_2d) = (updated, none) →
      populate_coordinates_from_tokens example_env (reader_xy []) ["1.0", ""]
          (new_point example_env trajectory_point_2d)
        = (updated, some (Raised.EmptyCoordinateError 1)))) :=
  ⟨⟨by decide, by decide⟩,
   empty_coordinate_token_fails_population example_env (reader_xy []) ["1.0", ""]
     (new_point example_env trajectory_point_2d) 1 1 (by decide) (by decide)⟩

/-- C17: when the entries of the coordinate map before some entry (the
coordinates of lower index) populate without an exception and the token at
the column of that entry is not empty and does not convert, coordinate
population fails with the conversion error that carries `coordinate`
followed by the coordinate index, the token as it stands, and the type name
`double`; what the tokens of the later entries hold makes no difference. -/
theorem non_numeric_coordinate_token_raises_cast_error {C T : Type} (env : Env C T)
    (r : PointFromTokensReader) (tokens : List String) (point updated : Point C T)
    (coord column : Int) (token : String) (before after : List (Int × Int))
    (hsplit : r.CoordinateMap = before ++ (coord, column) :: after)
    (hbefore : populate_coordinates_loop env tokens before point = (updated, none))
    (htoken : vector_at tokens column = some token)
    (hnonempty : token ≠ "")
    (hcast : env.lexical_cast_coordinate token = none) :
    populate_coordinates_from_tokens env r tokens point
      = (updated,
         some (Raised.LexicalCastError ("coordinate " ++ toString coord) token "double")) := by
  have hcol : column ≠ -1 := by
    intro hc
    rw [hc, vector_at_negative tokens (-1) (by omega)] at htoken
    cases htoken
  have hone : populate_coordinate env tokens updated coord column
      = (updated,
         some (Raised.LexicalCastError ("coordinate " ++ toString coord) token "double")) := by
    unfold populate_coordinate
    simp [htoken, hnonempty, hcol, hcast]
  unfold populate_coordinates_from_tokens
  rw [hsplit, populate_coordinates_loop_append, hbefore]
  simp [populate_coordinates_loop, hone]

/-- C17 at a concrete input: the row `1.0, abc, xyz` read with coordinates
0, 1 and 2 in columns 0, 1 and 2; the error is that of coordinate 1, the
lowest coordinate that fails. -/
theorem non_numeric_coordinate_token_raises_cast_error_witness :
    ((set_coordinate_column (reader_xy []) 2 2).CoordinateMap = [(0, 0)] ++ (1, 1) :: [(2, 2)] ∧
      populate_coordinates_loop example_env ["1.0", "abc", "xyz"] [(0, 0)]
          (new_point example_env trajectory_point_2d)
        = ({ coordinates := [⟨1, 0⟩, ⟨0, 0⟩], object_id := "", timestamp := 0,
             properties := [] }, none) ∧
      vector_at ["1.0", "abc", "xyz"] 1 = some "abc" ∧
      "abc" ≠ "" ∧
      example_env.lexical_cast_coordinate "abc" = none) ∧
    populate_coordinates_from_tokens example_env (set_coordinate_column (reader_xy []) 2 2)
        ["1.0", "abc", "xyz"] (new_point example_env trajectory_point_2d)
      = ({ coordinates := [⟨1, 0⟩, ⟨0, 0⟩], object_id := "", timestamp := 0, properties := [] },
         some (Raised.LexicalCastError ("coordinate " ++ toString (1 : Int)) "abc" "double")) :=
  ⟨⟨by decide, by decide, by decide, by decide, by decide⟩,
   non_numeric_coordinate_token_raises_cast_error example_env
     (set_coordinate_column (reader_xy []) 2 2) ["1.0", "abc", "xyz"]
     (new_point example_env trajectory_point_2d)
     { coordinates := [⟨1, 0⟩, ⟨0, 0⟩], object_id := "", timestamp := 0, properties := [] }
     1 1 "abc" [(0, 0)] [(2, 2)] (by decide) (by decide) (by decide) (by decide) (by decide)⟩

/-! ## End of input -/

/-- C18: on exhausted input `next_item` returns no point, writes nothing and
leaves the whole reader as it was; hence any number of further calls return
no point either and still leave the reader unchanged. -/
theorem next_item_on_exhausted_input {C T : Type} (env : Env C T) (tr : PointTraits)
    (r : PointFromTokensReader) (count : Nat) (hs : r.Source = []) :
    next_item env tr r = some (Outcome.returned none r []) ∧
    next_items env tr count r = some (List.replicate count none, r) :=
  ⟨next_item_nil env tr r hs, next_items_exhausted env tr count r hs⟩

/-- C18 at a concrete input: a configured reader without input, called
three times. -/
theorem next_item_on_exhausted_input_witness :
    (reader_xy []).Source = [] ∧
    (next_item example_env trajectory_point_2d (reader_xy [])
        = some (Outcome.returned none (reader_xy []) []) ∧
      next_items example_env trajectory_point_2d 3 (reader_xy [])
        = some (List.replicate 3 none, reader_xy [])) :=
  ⟨by decide, next_item_on_exhausted_input example_env trajectory_point_2d (reader_xy []) 3
    (by decide)⟩

/-! ## The cursor when a point is returned -/

/-- C19, evaluated on the code: with warnings disabled, the row `1.0`, empty
token fails to populate, the two rows after it are too short, and the call
of `next_item` ends at the end of input returning the point built from the
first row: the cursor is three rows past the row that produced the point,
not one. -/
theorem returned_point_of_failed_row_leaves_cursor_at_end :
    (populate example_env trajectory_point_2d
        (set_warnings_enabled (reader_xy [["1.0", ""], ["9"], ["8"]]) false) ["1.0", ""])
      = ({ coordinates := [⟨1, 0⟩, ⟨0, 0⟩], object_id := "", timestamp := 0, properties := [] },
         some (Raised.EmptyCoordinateError 1)) ∧
    next_item example_env trajectory_point_2d
        (set_warnings_enabled (reader_xy [["1.0", ""], ["9"], ["8"]]) false)
      = some (Outcome.returned
          (some { coordinates := [⟨1, 0⟩, ⟨0, 0⟩], object_id := "", timestamp := 0,
                  properties := [] })
          (set_warnings_enabled (reader_xy []) false) []) := by
  decide

/-! ## Output with warnings disabled -/

/-- C20, evaluated on the code: with warnings disabled and header
processing disabled, a row that starts with the sentinel still makes
`next_item` write the notice that a header was found. -/
theorem header_notice_is_written_with_warnings_disabled :
    next_item example_env trajectory_point_2d
        (set_warnings_enabled (set_ignore_header (reader_xy [header_plain]) true) false)
      = some (Outcome.returned
          (some { coordinates := [⟨0, 0⟩, ⟨0, 0⟩], object_id := "", timestamp := 0,
                  properties := [] })
          (set_warnings_enabled (set_ignore_header (reader_xy []) true) false)
          [Message.header_ignored]) := by
  decide

/-! ## Header records: parsing what was encoded -/

theorem digit_char_is_digit (d : Nat) (h : d < 10) :
    (Char.ofNat (48 + d)).isDigit = true ∧ (Char.ofNat (48 + d)).toNat - 48 = d := by
  interval_cases d <;> decide

theorem parse_digits_fold (digits : List Nat) (h : ∀ d ∈ digits, d < 10) :
    (digits.reverse.map (fun d => Char.ofNat (48 + d))).foldl
        (fun n c => 10 * n + (c.toNat - 48)) 0
      = Nat.ofDigits 10 digits := by
  induction digits with
  | nil => rfl
  | cons d rest ih =>
    have hd := (digit_char_is_digit d (h d (List.mem_cons_self _ _))).2
    have hrest := ih (fun x hx => h x (List.mem_cons_of_mem _ hx))
    simp only [List.reverse_cons, List.map_append, List.map_cons, List.map_nil,
      List.foldl_append, List.foldl_cons, List.foldl_nil, hrest, hd, Nat.ofDigits_cons]
    omega

/-- Reading the decimal digits of a number gives the number back. -/
theorem parse_digits_format_digits (n : Nat) : parse_digits (format_digits n) = some n := by
  unfold format_digits
  by_cases h0 : n = 0
  · subst h0
    decide
  · rw [if_neg h0]
    have hlt : ∀ d ∈ Nat.digits 10 n, d < 10 := fun d hd => Nat.digits_lt_base (by omega) hd
    have hne : Nat.digits 10 n ≠ [] := Nat.digits_ne_nil_iff_ne_zero.mpr h0
    unfold parse_digits
    have hnonempty : (Nat.digits 10 n).reverse.map (fun d => Char.ofNat (48 + d)) ≠ [] := by
      simp [hne]
    have hall : ((Nat.digits 10 n).reverse.map (fun d => Char.ofNat (48 + d))).all Char.isDigit
        = true := by
      rw [List.all_eq_true]
      intro c hc
      obtain ⟨d, hd, hdc⟩ := List.mem_map.mp hc
      rw [← hdc]
      exact (digit_char_is_digit d (hlt d (List.mem_reverse.mp hd))).1
    simp only [hnonempty, hall, ne_eq, not_false_eq_true, and_self, if_true]
    rw [parse_digits_fold _ hlt, Nat.ofDigits_digits]

theorem parse_flag_format_flag (flag : Bool) : parse_flag (format_flag flag) = some flag := by
  cases flag <;> decide

theorem parse_property_pairs_encode (type_of_tag : String → Option PropertyUnderlyingType)
    (tag_of_type : PropertyUnderlyingType → String)
    (htags : ∀ kind, type_of_tag (tag_of_type kind) = some kind)
    (names : List String) :
    ∀ (kinds : List PropertyUnderlyingType), names.length = kinds.length →
      parse_property_pairs type_of_tag (encode_property_pairs tag_of_type names kinds)
        = some (names, kinds) := by
  induction names with
  | nil =>
    intro kinds hlen
    cases kinds with
    | nil => rfl
    | cons kind rest => cases hlen
  | cons name rest ih =>
    intro kinds hlen
    cases kinds with
    | nil => cases hlen
    | cons kind kinds1 =>
      simp only [List.length_cons, Nat.add_right_cancel_iff] at hlen
      simp only [encode_property_pairs, parse_property_pairs, htags, ih kinds1 hlen]

/-- C24: for every header schema with a positive dimension and as many
property types as property names, and every table of type tags that reads
back what it writes, parsing the encoded header record gives the schema
back (whatever the sentinel and the domain name are). -/
theorem header_parse_encode_round_trip (sentinel domain : String)
    (type_of_tag : String → Option PropertyUnderlyingType)
    (tag_of_type : PropertyUnderlyingType → String) (header : PointHeader)
    (htags : ∀ kind, type_of_tag (tag_of_type kind) = some kind)
    (hdimension : 0 < header.Dimension)
    (hlength : header.PropertyNames.length = header.PropertyTypes.length) :
    PointHeader.parse sentinel type_of_tag
        (PointHeader.encode sentinel tag_of_type domain header)
      = .ok header := by
  unfold PointHeader.encode PointHeader.parse
  simp only [parse_digits_format_digits, parse_flag_format_flag,
    parse_property_pairs_encode type_of_tag tag_of_type htags header.PropertyNames
      header.PropertyTypes hlength, hdimension, and_self, if_true]

/-- C24 at a concrete input: the schema with dimension 2, an object id, no
timestamp and the string property `name`, under the type tags of the
concrete environment. -/
theorem header_parse_encode_round_trip_witness :
    ((∀ kind, example_type_of_tag (example_tag_of_type kind) = some kind) ∧
      0 < (2 : Nat) ∧
      ["name"].length = [PropertyUnderlyingType.TYPE_STRING].length) ∧
    PointHeader.parse "*P*" example_type_of_tag
        (PointHeader.encode "*P*" example_tag_of_type "generic"
          { Dimension := 2, HasObjectId := true, HasTimestamp := false,
            PropertyNames := ["name"],
            PropertyTypes := [PropertyUnderlyingType.TYPE_STRING] })
      = .ok { Dimension := 2, HasObjectId := true, HasTimestamp := false,
              PropertyNames := ["name"],
              PropertyTypes := [PropertyUnderlyingType.TYPE_STRING] } :=
  ⟨⟨fun kind => by cases kind <;> decide, by decide, by decide⟩,
   header_parse_encode_round_trip "*P*" "generic" example_type_of_tag example_tag_of_type
     { Dimension := 2, HasObjectId := true, HasTimestamp := false,
       PropertyNames := ["name"], PropertyTypes := [PropertyUnderlyingType.TYPE_STRING] }
     (fun kind => by cases kind <;> decide) (by decide) (by decide)⟩

/-! ## Speed, distance and length in the terrestrial domain -/

/-- C21, evaluated on the code: whenever the seconds elapsed between two
trajectory points are not almost zero, `speed_between` returns `0` (the test
before the division is inverted).  For two places an hour apart the result
is the literal `0`, not `3600 * d / 3600` with `d` their distance in
kilometers. -/
theorem speed_between_is_zero_for_distinct_timestamps :
    (∀ (R P TS : Type) (env : TerrestrialEnv R P TS) (start finish : P × TS),
      env.almost_zero (env.total_seconds finish.2 start.2) = false →
      terrestrial_speed_between env start finish = env.zero) ∧
    formula_env.almost_zero (formula_env.total_seconds 3600 0) = false ∧
    terrestrial_speed_between formula_env ("Albuquerque", 0) ("Santa Fe", 3600)
      = Formula.literal 0 ∧
    terrestrial_speed_between formula_env ("Albuquerque", 0) ("Santa Fe", 3600)
      ≠ Formula.quotient
          (Formula.product (Formula.literal 3600)
            (Formula.kilometers (Formula.radians "Albuquerque" "Santa Fe")))
          (Formula.literal 3600) := by
  refine ⟨?_, by decide, by decide, by decide⟩
  intro R P TS env start finish h
  simp [terrestrial_speed_between, h]

/-- C22: the terrestrial distance of two points is `radians_to_km` of their
`PointLonLat` distance, and the terrestrial length of a trajectory is
`radians_to_km` of its `boost::geometry` length: one conversion each, applied
to the result in radians. -/
theorem terrestrial_distance_and_length_convert_once {R P TS : Type}
    (env : TerrestrialEnv R P TS) (start finish : P) (trajectory : List (P × TS)) :
    terrestrial_distance env start finish
      = env.radians_to_km (env.distance_lonlat start finish) ∧
    terrestrial_length env trajectory
      = env.radians_to_km (env.geometry_length trajectory) ∧
    terrestrial_distance formula_env "Albuquerque" "Santa Fe"
      = Formula.kilometers (Formula.radians "Albuquerque" "Santa Fe") ∧
    terrestrial_length formula_env [("Albuquerque", 0), ("Santa Fe", 3600)]
      = Formula.kilometers (Formula.path_radians ["Albuquerque", "Santa Fe"]) :=
  ⟨rfl, rfl, by decide, by decide⟩

/-- C30, evaluated on the code: whenever the seconds elapsed between two
trajectory points are almost zero, `speed_between` returns the quotient
`3600 * distance / seconds_elapsed`.  For two points with equal timestamps
the result is a quotient with divisor `0`, not the literal `0`. -/
theorem speed_between_divides_by_almost_zero_seconds :
    (∀ (R P TS : Type) (env : TerrestrialEnv R P TS) (start finish : P × TS),
      env.almost_zero (env.total_seconds finish.2 start.2) = true →
      terrestrial_speed_between env start finish
        = env.divide
            (env.multiply env.literal_3600 (terrestrial_distance env start.1 finish.1))
            (env.total_seconds finish.2 start.2)) ∧
    formula_env.almost_zero (formula_env.total_seconds 100 100) = true ∧
    terrestrial_speed_between formula_env ("Albuquerque", 100) ("Santa Fe", 100)
      = Formula.quotient
          (Formula.product (Formula.literal 3600)
            (Formula.kilometers (Formula.radians "Albuquerque" "Santa Fe")))
          (Formula.literal 0) := by
  refine ⟨?_, by decide, by decide⟩
  intro R P TS env start finish h
  simp [terrestrial_speed_between, h]

/-! ## The timestamp column of the writer -/

/-- C23: for a point type with a timestamp `write_timestamp` appends exactly
one token, the formatter's text of the point's timestamp, and the output
position moves on by one; for a point type without a timestamp the output
and its position stay as they were.  Nothing but the trait decides which. -/
theorem write_timestamp_is_gated_by_trait {TS : Type} (thing_timestamp : TS)
    (timestamp_to_string : TS → String) (where_to_write : List String) :
    write_timestamp true thing_timestamp timestamp_to_string where_to_write
      = where_to_write ++ [timestamp_to_string thing_timestamp] ∧
    (write_timestamp true thing_timestamp timestamp_to_string where_to_write).length
      = where_to_write.length + 1 ∧
    write_timestamp false thing_timestamp timestamp_to_string where_to_write
      = where_to_write ∧
    (write_timestamp false thing_timestamp timestamp_to_string where_to_write).length
      = where_to_write.length := by
  simp [write_timestamp]

/-! ## The warnings flag and the result -/

/-- C26, evaluated on the code: two readers that differ in `WarningsEnabled`
alone, on the single row `1.0`, empty token.  With warnings enabled
`next_item` returns no point; with warnings disabled it returns the
half-built point of the failed row. -/
theorem next_item_result_depends_on_warnings_flag :
    set_warnings_enabled (reader_xy [["1.0", ""]]) true = reader_xy [["1.0", ""]] ∧
    next_item example_env trajectory_point_2d (reader_xy [["1.0", ""]])
      = some (Outcome.returned none (reader_xy [])
          [Message.error_parse (Raised.EmptyCoordinateError 1)]) ∧
    next_item example_env trajectory_point_2d
        (set_warnings_enabled (reader_xy [["1.0", ""]]) false)
      = some (Outcome.returned
          (some { coordinates := [⟨1, 0⟩, ⟨0, 0⟩], object_id := "", timestamp := 0,
                  properties := [] })
          (set_warnings_enabled (reader_xy []) false) []) := by
  decide

/-! ## A header whose dimension exceeds that of the point type -/

/-- C27, evaluated on the code: a header that declares dimension 3, applied
to a reader for two-dimensional points, leaves the coordinate index 2 in
the coordinate map (with a warning about the mismatch), and the row that
follows makes `next_item` write coordinate 2 of a two-dimensional point. -/
theorem header_of_larger_dimension_assigns_index_outside_point :
    table_after_header example_env trajectory_point_2d
        (PointFromTokensReader.create [] example_converter) header_3d
      = some ([(0, 0), (1, 1), (2, 2)], [], -1, -1) ∧
    (configure_reader_from_header example_env trajectory_point_2d
        (PointFromTokensReader.create [] example_converter) header_3d).toOption.map Prod.snd
      = some [Message.dimension_mismatch 3 2] ∧
    next_item example_env trajectory_point_2d
        (PointFromTokensReader.create [header_3d, ["1.0", "2.0", "3.0"]] example_converter)
      = some Outcome.undefined := by
  decide

/-! ## The required token count in unsigned arithmetic -/

/-- C28, evaluated on the code: for bare two-dimensional points (no object
id, no timestamp) a fresh reader requires `2^64 - 2` tokens, and a reader
with the single assignment of coordinate 0 to column 0 requires `2^64 - 1`
tokens, far more than assignments plus two; the latter passes over the row
`1.0` as too short and returns no point. -/
theorem required_num_tokens_wraps_around_for_base_points :
    required_num_tokens base_point_2d (PointFromTokensReader.create [] example_converter)
      = 2 ^ 64 - 2 ∧
    required_num_tokens base_point_2d
        (set_coordinate_column (PointFromTokensReader.create [["1.0"]] example_converter) 0 0)
      = 2 ^ 64 - 1 ∧
    next_item example_env base_point_2d
        (set_coordinate_column (PointFromTokensReader.create [["1.0"]] example_converter) 0 0)
      = some (Outcome.returned none
          (set_coordinate_column (PointFromTokensReader.create [] example_converter) 0 0)
          [Message.not_enough_tokens (2 ^ 64 - 1) 1]) := by
  decide

/-! ## Copies of a reader -/

/-- C29, evaluated on the code: the copy of a reader with `ignore_header`
set, or with warnings disabled, or with a null value other than the default,
does not compare equal to the reader it was copied from; the copy constructor
resets the two flags and default-constructs the property converter, while
the assignment operator takes all three from the original. -/
theorem copy_of_reader_is_not_equal_to_original :
    PointFromTokensReader.equal
        (PointFromTokensReader.copy example_converter
          (set_ignore_header (reader_xy []) true))
        (set_ignore_header (reader_xy []) true) = false ∧
    PointFromTokensReader.equal
        (PointFromTokensReader.copy example_converter
          (set_warnings_enabled (reader_xy []) false))
        (set_warnings_enabled (reader_xy []) false) = false ∧
    PointFromTokensReader.equal
        (PointFromTokensReader.copy example_converter
          { reader_xy [] with PropertyReadWrite :=
              { example_converter with null_value := "NA" } })
        { reader_xy [] with PropertyReadWrite :=
            { example_converter with null_value := "NA" } } = false ∧
    PointFromTokensReader.equal
        (PointFromTokensReader.assign (reader_xy [])
          (set_ignore_header (reader_xy [["1.0"]]) true))
        (set_ignore_header (reader_xy [["1.0"]]) true) = true := by
  decide

/-! ## Property assignments: one column and one kind per name -/

/-- After `FieldMap[field] = ColumnTypeAssignment(column, kind)` the name has
the column and the kind just given, whatever it had before, and every other
name has what it had. -/
theorem field_map_after_assign (r : PointFromTokensReader) (kind : PropertyUnderlyingType)
    (field : String) (column : Int) :
    string_map_find field (string_map_assign field ⟨column, kind⟩ r.FieldMap)
      = some ⟨column, kind⟩ ∧
    ∀ other : String, other ≠ field →
      string_map_find other (string_map_assign field ⟨column, kind⟩ r.FieldMap)
        = string_map_find other r.FieldMap := by
  constructor
  · rw [string_map_find_assign]
    simp
  · intro other hne
    rw [string_map_find_assign]
    simp [hne]

/-- C33: after `set_real_field_column(name, c)` the name has the real column
`c` and no integer, string or time column (those getters return `false` and
`-1`), whatever kind it was assigned before; likewise for
`set_integer_field_column`, `set_string_field_column` and
`set_time_field_column`.  Each setter leaves the entries of all other names
as they were and changes nothing in the reader but the property map. -/
theorem set_field_column_gives_one_kind (r : PointFromTokensReader) (name : String)
    (c : Int) :
    (has_real_field_column (set_real_field_column r name c) name = true ∧
      real_field_column (set_real_field_column r name c) name = c ∧
      has_integer_field_column (set_real_field_column r name c) name = false ∧
      integer_field_column (set_real_field_column r name c) name = -1 ∧
      has_string_field_column (set_real_field_column r name c) name = false ∧
      string_field_column (set_real_field_column r name c) name = -1 ∧
      has_time_field_column (set_real_field_column r name c) name = false ∧
      time_field_column (set_real_field_column r name c) name = -1 ∧
      (∀ other : String, other ≠ name →
        string_map_find other (set_real_field_column r name c).FieldMap
          = string_map_find other r.FieldMap) ∧
      set_real_field_column r name c
        = { r with FieldMap := (set_real_field_column r name c).FieldMap }) ∧
    (has_integer_field_column (set_integer_field_column r name c) name = true ∧
      integer_field_column (set_integer_field_column r name c) name = c ∧
      has_real_field_column (set_integer_field_column r name c) name = false ∧
      real_field_column (set_integer_field_column r name c) name = -1 ∧
      has_string_field_column (set_integer_field_column r name c) name = false ∧
      string_field_column (set_integer_field_column r name c) name = -1 ∧
      has_time_field_column (set_integer_field_column r name c) name = false ∧
      time_field_column (set_integer_field_column r name c) name = -1 ∧
      (∀ other : String, other ≠ name →
        string_map_find other (set_integer_field_column r name c).FieldMap
          = string_map_find other r.FieldMap) ∧
      set_integer_field_column r name c
        = { r with FieldMap := (set_integer_field_column r name c).FieldMap }) ∧
    (has_string_field_column (set_string_field_column r name c) name = true ∧
      string_field_column (set_string_field_column r name c) name = c ∧
      has_real_field_column (set_string_field_column r name c) name = false ∧
      real_field_column (set_string_field_column r name c) name = -1 ∧
      has_integer_field_column (set_string_field_column r name c) name = false ∧
      integer_field_column (set_string_field_column r name c) name = -1 ∧
      has_time_field_column (set_string_field_column r name c) name = false ∧
      time_field_column (set_string_field_column r name c) name = -1 ∧
      (∀ other : String, other ≠ name →
        string_map_find other (set_string_field_column r name c).FieldMap
          = string_map_find other r.FieldMap) ∧
      set_string_field_column r name c
        = { r with FieldMap := (set_string_field_column r name c).FieldMap }) ∧
    (has_time_field_column (set_time_field_column r name c) name = true ∧
      time_field_column (set_time_field_column r name c) name = c ∧
      has_real_field_column (set_time_field_column r name c) name = false ∧
      real_field_column (set_time_field_column r name c) name = -1 ∧
      has_integer_field_column (set_time_field_column r name c) name = false ∧
      integer_field_column (set_time_field_column r name c) name = -1 ∧
      has_string_field_column (set_time_field_column r name c) name = false ∧
      string_field_column (set_time_field_column r name c) name = -1 ∧
      (∀ other : String, other ≠ name →
        string_map_find other (set_time_field_column r name c).FieldMap
          = string_map_find other r.FieldMap) ∧
      set_time_field_column r name c
        = { r with FieldMap := (set_time_field_column r name c).FieldMap }) := by
  refine ⟨?_, ?_, ?_, ?_⟩
  · have h := field_map_after_assign r PropertyUnderlyingType.TYPE_REAL name c
    refine ⟨?_, ?_, ?_, ?_, ?_, ?_, ?_, ?_, h.2, rfl⟩ <;>
      simp [has_real_field_column, has_integer_field_column, has_string_field_column,
        has_time_field_column, real_field_column, integer_field_column, string_field_column,
        time_field_column, found_field_column, set_real_field_column, h.1]
  · have h := field_map_after_assign r PropertyUnderlyingType.TYPE_INTEGER name c
    refine ⟨?_, ?_, ?_, ?_, ?_, ?_, ?_, ?_, h.2, rfl⟩ <;>
      simp [has_real_field_column, has_integer_field_column, has_string_field_column,
        has_time_field_column, real_field_column, integer_field_column, string_field_column,
        time_field_column, found_field_column, set_integer_field_column, h.1]
  · have h := field_map_after_assign r PropertyUnderlyingType.TYPE_STRING name c
    refine ⟨?_, ?_, ?_, ?_, ?_, ?_, ?_, ?_, h.2, rfl⟩ <;>
      simp [has_real_field_column, has_integer_field_column, has_string_field_column,
        has_time_field_column, real_field_column, integer_field_column, string_field_column,
        time_field_column, found_field_column, set_string_field_column, h.1]
  · have h := field_map_after_assign r PropertyUnderlyingType.TYPE_TIMESTAMP name c
    refine ⟨?_, ?_, ?_, ?_, ?_, ?_, ?_, ?_, h.2, rfl⟩ <;>
      simp [has_real_field_column, has_integer_field_column, has_string_field_column,
        has_time_field_column, real_field_column, integer_field_column, string_field_column,
        time_field_column, found_field_column, set_time_field_column, h.1]

/-! ## Coordinate assignments: set, read, clear -/

/-- C34: `coordinate_column(c)` is the column last given to
`set_coordinate_column(c, ·)`: it is that column right after the call and
stays so while other coordinates are assigned; it is `-1` for a coordinate
without an entry, as on a fresh reader.  After `clear_coordinate_assignments`
no coordinate has a column and `coordinate_column` is `-1` throughout, while
property map, object-id column, timestamp column, both flags, the cursor and
the property converter are as before. -/
theorem coordinate_column_set_and_clear (r : PointFromTokensReader) (c column : Int) :
    coordinate_column (set_coordinate_column r c column) c = column ∧
    (∀ (later previous : Int),
      coordinate_column (set_coordinate_column (set_coordinate_column r c previous) c later) c
        = later) ∧
    (∀ (other other_column : Int), other ≠ c →
      coordinate_column (set_coordinate_column (set_coordinate_column r c column)
        other other_column) c = column) ∧
    (int_map_find c r.CoordinateMap = none → coordinate_column r c = -1) ∧
    (∀ (source : List (List String)) (converter : PropertyConverter),
      coordinate_column (PointFromTokensReader.create source converter) c = -1) ∧
    has_coordinate_column (clear_coordinate_assignments r) c = false ∧
    coordinate_column (clear_coordinate_assignments r) c = -1 ∧
    clear_coordinate_assignments r = { r with CoordinateMap := [] } ∧
    (clear_coordinate_assignments r).FieldMap = r.FieldMap ∧
    (clear_coordinate_assignments r).ObjectIdColumn = r.ObjectIdColumn ∧
    (clear_coordinate_assignments r).TimestampColumn = r.TimestampColumn ∧
    (clear_coordinate_assignments r).IgnoreHeader = r.IgnoreHeader ∧
    (clear_coordinate_assignments r).WarningsEnabled = r.WarningsEnabled ∧
    (clear_coordinate_assignments r).Source = r.Source ∧
    (clear_coordinate_assignments r).PropertyReadWrite = r.PropertyReadWrite := by
  refine ⟨?_, ?_, ?_, ?_, ?_, rfl, rfl, rfl, rfl, rfl, rfl, rfl, rfl, rfl, rfl⟩
  · simp [coordinate_column, set_coordinate_column, int_map_find_assign]
  · intro later previous
    simp [coordinate_column, set_coordinate_column, int_map_find_assign]
  · intro other other_column hne
    have hne1 : ¬ c = other := fun h => hne h.symm
    simp [coordinate_column, set_coordinate_column, int_map_find_assign, hne1]
  · intro h
    simp [coordinate_column, h]
  · intro source converter
    rfl

/-! ## A row that is shorter than an assigned column -/

/-- An entry of the coordinate map at which `populate_coordinate` throws
whatever the point holds makes the whole loop throw: the loop stops there if
the entries before it populate, and at one of those if not. -/
theorem populate_coordinates_loop_entry_fails {C T : Type} (env : Env C T)
    (tokens : List String) (coord column : Int) (e0 : Raised)
    (hone : ∀ p : Point C T, populate_coordinate env tokens p coord column = (p, some e0))
    (before after : List (Int × Int)) (point : Point C T) :
    (populate_coordinates_loop env tokens (before ++ (coord, column) :: after) point).2 ≠ none ∧
    (∀ updated : Point C T,
      populate_coordinates_loop env tokens before point = (updated, none) →
      populate_coordinates_loop env tokens (before ++ (coord, column) :: after) point
        = (updated, some e0)) := by
  constructor
  · rw [populate_coordinates_loop_append]
    cases hb : populate_coordinates_loop env tokens before point with
    | mk updated e =>
      cases e with
      | some e => simp
      | none => simp [populate_coordinates_loop, hone]
  · intro updated hbefore
    rw [populate_coordinates_loop_append, hbefore]
    simp [populate_coordinates_loop, hone]

/-- The access `tokens.at(column)` with a column at or past the end of the
row throws `std::out_of_range`: nothing is read. -/
theorem vector_at_beyond (tokens : List String) (column : Int)
    (h : (tokens.length : Int) < column + 1) : vector_at tokens column = none := by
  unfold vector_at
  have h0 : 0 ≤ column := by omega
  rw [if_pos h0]
  apply List.getElem?_eq_none
  omega

/-- What one pass of the loop does with a row that is not taken as a header
and has at least the required number of tokens, but fewer tokens than the
column of some entry of the coordinate map plus one, in a reader whose
coordinate indices lie inside the point.  The access `tokens.at(column)` finds no token and reads none;
population of the row throws an exception that one of the `catch` clauses
takes; the pass through the loop body returns no point and goes on with the
cursor moved by one row.  When the entries before that one populate, the
exception is the `std::out_of_range` of the access, taken by the clause for
`std::exception`, which prints if warnings are enabled and leaves `NextPoint`
pointing at the point built so far. -/
theorem next_item_row_shorter_than_coordinate_column {C T : Type} (env : Env C T)
    (tr : PointTraits) (required : Nat) (r : PointFromTokensReader) (row : List String)
    (NextPoint : Option (Point C T)) (out : List Message) (first : String)
    (more : List String) (coord column : Int)
    (ht : get_tokens_from_input row = first :: more)
    (hh : ¬ (first = env.PointFileMagicString ∧ r.IgnoreHeader = false))
    (hreq : required ≤ (first :: more).length)
    (hmem : (coord, column) ∈ r.CoordinateMap)
    (hshort : ((first :: more).length : Int) < column + 1)
    (hkeys : ∀ entry ∈ r.CoordinateMap, 0 ≤ entry.1 ∧ entry.1 < (tr.dimension : Int)) :
    vector_at (first :: more) column = none ∧
    (∃ p e, populate env tr r (first :: more) = (p, some e) ∧
      e.handler ≠ Handler.uncaught) ∧
    (∃ NextPoint1 written,
      next_item_body env tr required r row NextPoint out
        = Step.continue_ (advance r) NextPoint1 (out ++ written)) ∧
    (advance r).Source = r.Source.tail ∧
    (∀ (before after : List (Int × Int)) (p : Point C T),
      r.CoordinateMap = before ++ (coord, column) :: after →
      populate_coordinates_loop env (first :: more) before (new_point env tr) = (p, none) →
      populate env tr r (first :: more) = (p, some Raised.out_of_range) ∧
      Raised.out_of_range.handler = Handler.catch_std_exception ∧
      next_item_body env tr required r row NextPoint out
        = Step.continue_ (advance r) (some p)
            (out ++ ((if first = env.PointFileMagicString ∧ r.IgnoreHeader = true
                      then [Message.header_ignored] else [])
              ++ (if r.WarningsEnabled = true
                  then [Message.warning_exception Raised.out_of_range] else [])))) ∧
    (∀ rest : List (List String), r.Source = row :: rest →
      required = required_num_tokens tr r →
      ∃ NextPoint1 written ending,
        next_item env tr r
          = next_item_loop env tr (required_num_tokens tr r) (rest.length + 1)
              { r with Source := rest } NextPoint1 written ∧
        next_item env tr r = some ending) := by
  have hv : vector_at (first :: more) column = none := vector_at_beyond _ _ hshort
  have hone : ∀ p : Point C T,
      populate_coordinate env (first :: more) p coord column
        = (p, some Raised.out_of_range) := by
    intro p
    unfold populate_coordinate
    simp [hv]
  have hbody := next_item_body_data env tr required r row NextPoint out first more ht hh hreq
  have hfail : ∃ p e, populate env tr r (first :: more) = (p, some e) := by
    obtain ⟨before, after, hsplit⟩ := List.append_of_mem hmem
    have h1 := (populate_coordinates_loop_entry_fails env (first :: more) coord column
      Raised.out_of_range hone before after (new_point env tr)).1
    unfold populate populate_coordinates_from_tokens
    rw [hsplit]
    cases hc : populate_coordinates_loop env (first :: more)
        (before ++ (coord, column) :: after) (new_point env tr) with
    | mk p1 e1 =>
      cases e1 with
      | none => rw [hc] at h1; exact absurd rfl h1
      | some e => exact ⟨p1, e, rfl⟩
  refine ⟨hv, ?_, ?_, rfl, ?_, ?_⟩
  · obtain ⟨p, e, hp⟩ := hfail
    exact ⟨p, e, hp, populate_caught env tr r (first :: more) hkeys e (by rw [hp])⟩
  · obtain ⟨p, e, hp⟩ := hfail
    have hcaught := populate_caught env tr r (first :: more) hkeys e (by rw [hp])
    rw [hbody, hp]
    obtain ⟨np1, written, hstep, _⟩ := next_item_catch_caught e r (some p)
      (out ++ (if first = env.PointFileMagicString ∧ r.IgnoreHeader = true
               then [Message.header_ignored] else [])) hcaught
    refine ⟨np1, (if first = env.PointFileMagicString ∧ r.IgnoreHeader = true
               then [Message.header_ignored] else []) ++ written, ?_⟩
    simp only [hstep, List.append_assoc]
  · intro before after p hsplit hbefore
    have h2 := (populate_coordinates_loop_entry_fails env (first :: more) coord column
      Raised.out_of_range hone before after (new_point env tr)).2 p hbefore
    have hp : populate env tr r (first :: more) = (p, some Raised.out_of_range) := by
      unfold populate populate_coordinates_from_tokens
      rw [hsplit, h2]
    refine ⟨hp, rfl, ?_⟩
    rw [hbody, hp]
    simp only [next_item_catch, Raised.handler]
    cases r.WarningsEnabled <;> simp
  · intro rest hs hrequired
    obtain ⟨p, e, hp⟩ := hfail
    have hcaught := populate_caught env tr r (first :: more) hkeys e (by rw [hp])
    have hbody0 := next_item_body_data env tr (required_num_tokens tr r) r row none []
      first more ht hh (by rw [← hrequired]; exact hreq)
    rw [hp] at hbody0
    obtain ⟨np1, written, hstep, _⟩ := next_item_catch_caught e r (some p)
      ([] ++ (if first = env.PointFileMagicString ∧ r.IgnoreHeader = true
               then [Message.header_ignored] else [])) hcaught
    have hadv : advance r = { r with Source := rest } := by simp [advance, hs]
    have hcall := next_item_unfold env tr r row rest hs
    rw [hbody0] at hcall
    simp only [hstep, hadv] at hcall
    obtain ⟨ending, hending⟩ := next_item_loop_fuel env tr (required_num_tokens tr r)
      (rest.length + 1) { r with Source := rest } np1 _ (by simp)
    exact ⟨np1, _, ending, hcall, by rw [hcall, hending]⟩

/-- The pass over a row shorter than a coordinate column, at a concrete
input: the row `1.0`, `x` read with coordinate 1 in column 5; the required
count of the reader is met by the two tokens. -/
theorem next_item_row_shorter_than_coordinate_column_witness :
    (get_tokens_from_input ["1.0", "x"] = ["1.0", "x"] ∧
      ¬ ("1.0" = example_env.PointFileMagicString ∧
          (reader_with_far_column [["1.0", "x"]]).IgnoreHeader = false) ∧
      required_num_tokens trajectory_point_2d (reader_with_far_column [["1.0", "x"]])
        ≤ ["1.0", "x"].length ∧
      ((1 : Int), (5 : Int)) ∈ (reader_with_far_column [["1.0", "x"]]).CoordinateMap ∧
      ((["1.0", "x"].length : Nat) : Int) < 5 + 1 ∧
      ∀ entry ∈ (reader_with_far_column [["1.0", "x"]]).CoordinateMap,
        0 ≤ entry.1 ∧ entry.1 < (trajectory_point_2d.dimension : Int)) ∧
    (vector_at ["1.0", "x"] 5 = none ∧
    (∃ p e, populate example_env trajectory_point_2d (reader_with_far_column [["1.0", "x"]])
        ["1.0", "x"] = (p, some e) ∧ e.handler ≠ Handler.uncaught) ∧
    (∃ NextPoint1 written,
      next_item_body example_env trajectory_point_2d
          (required_num_tokens trajectory_point_2d (reader_with_far_column [["1.0", "x"]]))
          (reader_with_far_column [["1.0", "x"]]) ["1.0", "x"] none []
        = Step.continue_ (advance (reader_with_far_column [["1.0", "x"]])) NextPoint1
            ([] ++ written)) ∧
    (advance (reader_with_far_column [["1.0", "x"]])).Source
      = (reader_with_far_column [["1.0", "x"]]).Source.tail ∧
    (∀ (before after : List (Int × Int)) (p : Point Decimal Nat),
      (reader_with_far_column [["1.0", "x"]]).CoordinateMap = before ++ (1, 5) :: after →
      populate_coordinates_loop example_env ["1.0", "x"] before
          (new_point example_env trajectory_point_2d) = (p, none) →
      populate example_env trajectory_point_2d (reader_with_far_column [["1.0", "x"]])
          ["1.0", "x"] = (p, some Raised.out_of_range) ∧
      Raised.out_of_range.handler = Handler.catch_std_exception ∧
      next_item_body example_env trajectory_point_2d
          (required_num_tokens trajectory_point_2d (reader_with_far_column [["1.0", "x"]]))
          (reader_with_far_column [["1.0", "x"]]) ["1.0", "x"] none []
        = Step.continue_ (advance (reader_with_far_column [["1.0", "x"]])) (some p)
            ([] ++ ((if "1.0" = example_env.PointFileMagicString ∧
                        (reader_with_far_column [["1.0", "x"]]).IgnoreHeader = true
                      then [Message.header_ignored] else [])
              ++ (if (reader_with_far_column [["1.0", "x"]]).WarningsEnabled = true
                  then [Message.warning_exception Raised.out_of_range] else [])))) ∧
    (∀ rest : List (List String),
      (reader_with_far_column [["1.0", "x"]]).Source = ["1.0", "x"] :: rest →
      required_num_tokens trajectory_point_2d (reader_with_far_column [["1.0", "x"]])
        = required_num_tokens trajectory_point_2d (reader_with_far_column [["1.0", "x"]]) →
      ∃ NextPoint1 written ending,
        next_item example_env trajectory_point_2d (reader_with_far_column [["1.0", "x"]])
          = next_item_loop example_env trajectory_point_2d
              (required_num_tokens trajectory_point_2d (reader_with_far_column [["1.0", "x"]]))
              (rest.length + 1)
              { reader_with_far_column [["1.0", "x"]] with Source := rest } NextPoint1 written ∧
        next_item example_env trajectory_point_2d (reader_with_far_column [["1.0", "x"]])
          = some ending)) :=
  ⟨⟨by decide, by decide, by decide, by decide, by decide, by decide⟩,
   next_item_row_shorter_than_coordinate_column example_env trajectory_point_2d
     (required_num_tokens trajectory_point_2d (reader_with_far_column [["1.0", "x"]]))
     (reader_with_far_column [["1.0", "x"]]) ["1.0", "x"] none [] "1.0" ["x"] 1 5
     (by decide) (by decide) (by decide) (by decide) (by decide) (by decide)⟩

/-- C31, evaluated on the code: a reader for two-dimensional trajectory
points with coordinate 1 in column 5 requires two tokens.  The row `3.5`, `x`
has them; the access `tokens.at(5)` finds no token and throws
`std::out_of_range`, nothing is read outside the row, the clause for
`std::exception` takes the exception and the cursor moves on.  But the row
is not skipped: the handler leaves `NextPoint` pointing at the point built
from the row so far, the row after it is too short, and at the end of input
`next_item` returns the point of the failed row, where on the input without
that row it returns none. -/
theorem row_shorter_than_coordinate_column_yields_its_point :
    required_num_tokens trajectory_point_2d (reader_with_far_column [["3.5", "x"], ["7"]])
      = 2 ∧
    vector_at (get_tokens_from_input ["3.5", "x"]) 5 = none ∧
    populate example_env trajectory_point_2d (reader_with_far_column [["3.5", "x"], ["7"]])
        (get_tokens_from_input ["3.5", "x"])
      = ({ coordinates := [⟨35, 1⟩, ⟨0, 0⟩], object_id := "", timestamp := 0,
           properties := [] },
         some Raised.out_of_range) ∧
    next_item example_env trajectory_point_2d (reader_with_far_column [["3.5", "x"], ["7"]])
      = some (Outcome.returned
          (some { coordinates := [⟨35, 1⟩, ⟨0, 0⟩], object_id := "", timestamp := 0,
                  properties := [] })
          (reader_with_far_column [])
          [Message.warning_exception Raised.out_of_range,
           Message.not_enough_tokens 2 1]) ∧
    next_item example_env trajectory_point_2d (reader_with_far_column [["7"]])
      = some (Outcome.returned none (reader_with_far_column [])
          [Message.not_enough_tokens 2 1]) := by
  decide

/-! ## Tokens are stripped of white space -/

/-- Leading characters that are all white space are dropped together. -/
theorem dropWhile_space_append_left (pre l : List Char)
    (hpre : ∀ c ∈ pre, is_space c = true) :
    (pre ++ l).dropWhile is_space = l.dropWhile is_space := by
  induction pre with
  | nil => rfl
  | cons a rest ih =>
    have ha : is_space a = true := hpre a (List.mem_cons_self _ _)
    simp only [List.cons_append, List.dropWhile_cons, ha, if_true]
    exact ih (fun c hc => hpre c (List.mem_cons_of_mem _ hc))

/-- Dropping leading white space from a text followed by white space. -/
theorem dropWhile_space_append_right (l post : List Char)
    (hpost : ∀ c ∈ post, is_space c = true) :
    (l ++ post).dropWhile is_space
      = if l.dropWhile is_space = [] then [] else l.dropWhile is_space ++ post := by
  induction l with
  | nil =>
    simp only [List.nil_append, List.dropWhile_nil, if_true]
    rw [List.dropWhile_eq_nil_iff]
    exact hpost
  | cons a rest ih =>
    simp only [List.cons_append, List.dropWhile_cons]
    cases ha : is_space a with
    | true => simpa using ih
    | false => simp

/-- White space around a token does not survive `trim`. -/
theorem trim_padded (pre post : List Char) (s : String)
    (hpre : ∀ c ∈ pre, is_space c = true) (hpost : ∀ c ∈ post, is_space c = true) :
    trim (String.mk (pre ++ s.data ++ post)) = trim s := by
  unfold trim
  simp only [List.append_assoc]
  rw [dropWhile_space_append_left pre _ hpre, dropWhile_space_append_right _ post hpost]
  split
  · rename_i h
    rw [h]
  · rw [List.reverse_append, dropWhile_space_append_left]
    intro c hc
    exact hpost c (List.mem_reverse.mp hc)

/-- A token of white space alone is trimmed to the empty string. -/
theorem trim_space_only (token : String) (h : ∀ c ∈ token.data, is_space c = true) :
    trim token = "" := by
  unfold trim
  have h0 : token.data.dropWhile is_space = [] := by
    rw [List.dropWhile_eq_nil_iff]
    exact h
  rw [h0]
  rfl

/-- Dropping white space at both ends twice is the same as doing it once. -/
theorem drop_front_back (p : Char → Bool) (d : List Char) :
    ((((((d.dropWhile p).reverse).dropWhile p).reverse).dropWhile p).reverse.dropWhile p).reverse
      = (((d.dropWhile p).reverse).dropWhile p).reverse := by
  have hfront : (d.dropWhile p).dropWhile p = d.dropWhile p := List.dropWhile_idempotent p d
  generalize d.dropWhile p = front at hfront
  have hpre : (front.reverse.dropWhile p).reverse <+: front := List.rdropWhile_prefix p front
  have hkeep : ((front.reverse.dropWhile p).reverse).dropWhile p
      = (front.reverse.dropWhile p).reverse := by
    obtain ⟨suf, hsuf⟩ := hpre
    generalize (front.reverse.dropWhile p).reverse = back at hsuf
    cases back with
    | nil => rfl
    | cons a rest =>
      subst hsuf
      rw [List.dropWhile_eq_self_iff] at hfront
      have ha := hfront (by simp)
      simp only [List.cons_append, List.get_eq_getElem, List.getElem_cons_zero] at ha
      simp [List.dropWhile_cons, ha]
  rw [hkeep, List.reverse_reverse]
  exact congrArg List.reverse (List.dropWhile_idempotent p _)

/-- A trimmed token has no white space left to trim. -/
theorem trim_trim (s : String) : trim (trim s) = trim s := by
  unfold trim
  simp only
  rw [drop_front_back]

/-- The bounds-checked access commutes with a change made to every token. -/
theorem vector_at_map (f : String → String) (row : List String) (column : Int) :
    vector_at (row.map f) column = (vector_at row column).map f := by
  unfold vector_at
  split
  · simp
  · rfl

/-- Replacing a token that trims to the empty string by the empty string
leaves the trimmed row as it is. -/
theorem get_tokens_set_space_only (row : List String) (column : Int) (token : String)
    (htoken : vector_at row column = some token) (h : trim token = "") :
    get_tokens_from_input (row.set column.toNat "") = get_tokens_from_input row := by
  unfold get_tokens_from_input
  unfold vector_at at htoken
  split at htoken
  · apply List.ext_getElem?
    intro i
    simp only [List.getElem?_map, List.getElem?_set]
    split
    · rename_i hi
      subst hi
      split
      · rw [htoken]; simp [h]; rfl
      · rename_i hl
        have := List.getElem?_eq_none (Nat.le_of_not_lt hl)
        rw [this] at htoken; cases htoken
    · rfl
  · cases htoken

/-- C32: `next_item` works on the trimmed tokens of a row and on nothing
else: every token is trimmed, a trimmed token has no white space left at
either end, and the pass through the loop body is the same for a row and for
the row of its trimmed tokens.  A row whose first token is the sentinel with
white space around it is, with header processing enabled, handed to
`configure_reader_from_header` like a header row.  A token of white space
alone in the column of a coordinate entry is the empty string when
population looks at it: the row behaves like the row with the empty string
in that place, coordinate population fails, and the exception is the
empty-coordinate error for that coordinate when the entries before it
populate, not a conversion error. -/
theorem tokens_are_trimmed_before_use {C T : Type} (env : Env C T) (tr : PointTraits)
    (required : Nat) (r : PointFromTokensReader) (NextPoint : Option (Point C T))
    (out : List Message) (pre post : List Char) (others row : List String)
    (coord column : Int) (token : String)
    (hpre : ∀ c ∈ pre, is_space c = true) (hpost : ∀ c ∈ post, is_space c = true)
    (hmagic : trim env.PointFileMagicString = env.PointFileMagicString)
    (hignore : r.IgnoreHeader = false)
    (hmem : (coord, column) ∈ r.CoordinateMap)
    (htoken : vector_at row column = some token)
    (hspace : ∀ c ∈ token.data, is_space c = true) :
    (∀ any : List String,
      get_tokens_from_input any = any.map trim ∧
      (∀ t ∈ get_tokens_from_input any, trim t = t) ∧
      next_item_body env tr required r any NextPoint out
        = next_item_body env tr required r (any.map trim) NextPoint out) ∧
    (get_tokens_from_input
        (String.mk (pre ++ env.PointFileMagicString.data ++ post) :: others)
      = env.PointFileMagicString :: others.map trim ∧
     next_item_body env tr required r
        (String.mk (pre ++ env.PointFileMagicString.data ++ post) :: others) NextPoint out
      = match configure_reader_from_header env tr r
            (env.PointFileMagicString :: others.map trim) with
        | .ok (configured, written) =>
          Step.continue_ (advance configured) NextPoint (out ++ written)
        | .error e => next_item_catch e r NextPoint out) ∧
    (vector_at (get_tokens_from_input row) column = some "" ∧
     get_tokens_from_input (row.set column.toNat "") = get_tokens_from_input row ∧
     next_item_body env tr required r row NextPoint out
       = next_item_body env tr required r (row.set column.toNat "") NextPoint out ∧
     ∀ point : Point C T,
       (populate_coordinates_from_tokens env r (get_tokens_from_input row) point).2 ≠ none ∧
       ∀ (before after : List (Int × Int)) (updated : Point C T),
         r.CoordinateMap = before ++ (coord, column) :: after →
         populate_coordinates_loop env (get_tokens_from_input row) before point
           = (updated, none) →
         populate_coordinates_from_tokens env r (get_tokens_from_input row) point
           = (updated, some (Raised.EmptyCoordinateError coord))) := by
  have hbody : ∀ row1 row2 : List String,
      get_tokens_from_input row1 = get_tokens_from_input row2 →
      next_item_body env tr required r row1 NextPoint out
        = next_item_body env tr required r row2 NextPoint out := by
    intro row1 row2 h
    unfold next_item_body
    rw [h]
  have htrimmed : ∀ any : List String,
      get_tokens_from_input (any.map trim) = get_tokens_from_input any := by
    intro any
    unfold get_tokens_from_input
    rw [List.map_map]
    apply List.map_congr_left
    intro t _
    exact trim_trim t
  have hblank : trim token = "" := trim_space_only token hspace
  have hset := get_tokens_set_space_only row column token htoken hblank
  have hempty : vector_at (get_tokens_from_input row) column = some "" := by
    unfold get_tokens_from_input
    rw [vector_at_map, htoken]
    simp [hblank]
  have hone : ∀ p : Point C T,
      populate_coordinate env (get_tokens_from_input row) p coord column
        = (p, some (Raised.EmptyCoordinateError coord)) := by
    intro p
    unfold populate_coordinate
    simp [hempty]
  refine ⟨?_, ⟨?_, ?_⟩, hempty, hset, hbody _ _ hset.symm, ?_⟩
  · intro any
    refine ⟨rfl, ?_, hbody _ _ (htrimmed any).symm⟩
    intro t ht
    unfold get_tokens_from_input at ht
    obtain ⟨s, _, hs⟩ := List.mem_map.mp ht
    rw [← hs]
    exact trim_trim s
  · unfold get_tokens_from_input
    rw [List.map_cons, trim_padded pre post _ hpre hpost, hmagic]
  · have ht : get_tokens_from_input
          (String.mk (pre ++ env.PointFileMagicString.data ++ post) :: others)
        = env.PointFileMagicString :: others.map trim := by
      unfold get_tokens_from_input
      rw [List.map_cons, trim_padded pre post _ hpre hpost, hmagic]
    unfold next_item_body
    simp only [ht, hignore]
    simp
  · intro point
    obtain ⟨before, after, hsplit⟩ := List.append_of_mem hmem
    constructor
    · unfold populate_coordinates_from_tokens
      rw [hsplit]
      exact (populate_coordinates_loop_entry_fails env _ coord column _ hone
        before after point).1
    · intro before1 after1 updated hsplit1 hbefore
      unfold populate_coordinates_from_tokens
      rw [hsplit1]
      exact (populate_coordinates_loop_entry_fails env _ coord column _ hone
        before1 after1 point).2 updated hbefore


/-- C32 at a concrete input: the header row whose first token is the
sentinel between two blanks and a tab, and the data row `1.0`, blank and
tab, read with coordinates 0 and 1 in columns 0 and 1. -/
theorem tokens_are_trimmed_before_use_witness :
    ((∀ c ∈ [' ', ' '], is_space c = true) ∧ (∀ c ∈ ['\t'], is_space c = true) ∧
      trim example_env.PointFileMagicString = example_env.PointFileMagicString ∧
      (reader_xy []).IgnoreHeader = false ∧
      ((1 : Int), (1 : Int)) ∈ (reader_xy []).CoordinateMap ∧
      vector_at ["1.0", " \t"] 1 = some " \t" ∧
      (∀ c ∈ (" \t" : String).data, is_space c = true)) ∧
    ((∀ any : List String,
      get_tokens_from_input any = any.map trim ∧
      (∀ t ∈ get_tokens_from_input any, trim t = t) ∧
      next_item_body example_env trajectory_point_2d 2 (reader_xy []) any none []
        = next_item_body example_env trajectory_point_2d 2 (reader_xy []) (any.map trim)
            none []) ∧
    (get_tokens_from_input
        (String.mk ([' ', ' '] ++ example_env.PointFileMagicString.data ++ ['\t'])
          :: ["generic", "2", "0", "0", "0"])
      = example_env.PointFileMagicString :: ["generic", "2", "0", "0", "0"].map trim ∧
     next_item_body example_env trajectory_point_2d 2 (reader_xy [])
        (String.mk ([' ', ' '] ++ example_env.PointFileMagicString.data ++ ['\t'])
          :: ["generic", "2", "0", "0", "0"]) none []
      = match configure_reader_from_header example_env trajectory_point_2d (reader_xy [])
            (example_env.PointFileMagicString :: ["generic", "2", "0", "0", "0"].map trim) with
        | .ok (configured, written) =>
          Step.continue_ (advance configured) none ([] ++ written)
        | .error e => next_item_catch e (reader_xy []) none []) ∧
    (vector_at (get_tokens_from_input ["1.0", " \t"]) 1 = some "" ∧
     get_tokens_from_input (["1.0", " \t"].set (1 : Int).toNat "")
       = get_tokens_from_input ["1.0", " \t"] ∧
     next_item_body example_env trajectory_point_2d 2 (reader_xy []) ["1.0", " \t"] none []
       = next_item_body example_env trajectory_point_2d 2 (reader_xy [])
           (["1.0", " \t"].set (1 : Int).toNat "") none [] ∧
     ∀ point : Point Decimal Nat,
       (populate_coordinates_from_tokens example_env (reader_xy [])
          (get_tokens_from_input ["1.0", " \t"]) point).2 ≠ none ∧
       ∀ (before after : List (Int × Int)) (updated : Point Decimal Nat),
         (reader_xy []).CoordinateMap = before ++ (1, 1) :: after →
         populate_coordinates_loop example_env (get_tokens_from_input ["1.0", " \t"])
             before point = (updated, none) →
         populate_coordinates_from_tokens example_env (reader_xy [])
             (get_tokens_from_input ["1.0", " \t"]) point
           = (updated, some (Raised.EmptyCoordinateError 1)))) :=
  ⟨⟨by decide, by decide, by decide, by decide, by decide, by decide, by decide⟩,
   tokens_are_trimmed_before_use example_env trajectory_point_2d 2 (reader_xy []) none []
     [' ', ' '] ['\t'] ["generic", "2", "0", "0", "0"] ["1.0", " \t"] 1 1 " \t"
     (by decide) (by decide) (by decide) (by decide) (by decide) (by decide) (by decide)⟩

end tracktable
